import Mathlib

/-!
# raspi-mon: display rendering and protocol engine

A shallow embedding of the C program `raspi-mon.c` (a Raspberry Pi server
monitor driving an ST7789 display over SPI) and theorems about it.

Conventions of the embedding.

* Machine integers are `Nat` / `Int`.  The target is the LP64 ABI of
  Raspberry Pi OS 64-bit: `int` is 32 bits, `long` and `time_t` are 64 bits.
  Narrowing conversions and wrapping counters are written out with `%`.
* Memory written through a pointer is a function from indices to values, so a
  write outside the intended range stays visible.
* A read outside a table, and a loop that exhausts its fuel, give `none`.
* `printf` conversions are modelled by `printf_d`, following the C standard;
  `sprintf` into a `char` array gives `none` when it writes past the array.
* `long` differences and products of numbers read with `atol` wrap modulo
  `2^64` (`to_long`), as the compiled code does.
-/

namespace RaspiMon

/-! ## Glyph table -/

/-- The table `font[][16]`: 96 glyphs for the character codes 31..126, sixteen
rows each; bit 15 of a row is the leftmost pixel. -/
def font : List (List Nat) := [
  [0x0000, 0x0E00, 0x1B00, 0x3180, 0x3180, 0x1B00, 0x0E00, 0x0000, 0x0000, 0x0000, 0x0000, 0x0000, 0x0000, 0x0000, 0x0000, 0x0000],
  [0x0000, 0x0000, 0x0000, 0x0000, 0x0000, 0x0000, 0x0000, 0x0000, 0x0000, 0x0000, 0x0000, 0x0000, 0x0000, 0x0000, 0x0000, 0x0000],
  [0x0000, 0x0C00, 0x0C00, 0x0C00, 0x0C00, 0x0C00, 0x0C00, 0x0C00, 0x0C00, 0x0000, 0x0C00, 0x0000, 0x0000, 0x0000, 0x0000, 0x0000],
  [0x0000, 0x0000, 0x0CC0, 0x0CC0, 0x0880, 0x0880, 0x0880, 0x0000, 0x0000, 0x0000, 0x0000, 0x0000, 0x0000, 0x0000, 0x0000, 0x0000],
  [0x0000, 0x0D80, 0x0D80, 0x0D80, 0x0D80, 0x3FC0, 0x1B00, 0x3FC0, 0x1B00, 0x1B00, 0x1B00, 0x1B00, 0x0000, 0x0000, 0x0000, 0x0000],
  [0x0400, 0x1F00, 0x3180, 0x3180, 0x3800, 0x1E00, 0x0F00, 0x0380, 0x3180, 0x3180, 0x1F00, 0x0400, 0x0400, 0x0000, 0x0000, 0x0000],
  [0x0000, 0x1800, 0x2400, 0x2400, 0x18C0, 0x0780, 0x1E00, 0x3180, 0x0240, 0x0240, 0x0180, 0x0000, 0x0000, 0x0000, 0x0000, 0x0000],
  [0x0000, 0x0000, 0x0F00, 0x1800, 0x1800, 0x1800, 0x0C00, 0x1D80, 0x3700, 0x3300, 0x1D80, 0x0000, 0x0000, 0x0000, 0x0000, 0x0000],
  [0x0000, 0x0000, 0x0300, 0x0300, 0x0200, 0x0200, 0x0200, 0x0000, 0x0000, 0x0000, 0x0000, 0x0000, 0x0000, 0x0000, 0x0000, 0x0000],
  [0x0000, 0x0300, 0x0300, 0x0600, 0x0E00, 0x0C00, 0x0C00, 0x0C00, 0x0C00, 0x0E00, 0x0600, 0x0300, 0x0300, 0x0000, 0x0000, 0x0000],
  [0x0000, 0x1800, 0x1800, 0x0C00, 0x0600, 0x0600, 0x0600, 0x0600, 0x0600, 0x0600, 0x0C00, 0x1C00, 0x1800, 0x0000, 0x0000, 0x0000],
  [0x0000, 0x0600, 0x0600, 0x3FC0, 0x3FC0, 0x0F00, 0x1F80, 0x1980, 0x0000, 0x0000, 0x0000, 0x0000, 0x0000, 0x0000, 0x0000, 0x0000],
  [0x0000, 0x0000, 0x0000, 0x0400, 0x0400, 0x0400, 0x3F80, 0x0400, 0x0400, 0x0400, 0x0000, 0x0000, 0x0000, 0x0000, 0x0000, 0x0000],
  [0x0000, 0x0000, 0x0000, 0x0000, 0x0000, 0x0000, 0x0000, 0x0000, 0x0000, 0x0600, 0x0400, 0x0C00, 0x0800, 0x0800, 0x0000, 0x0000],
  [0x0000, 0x0000, 0x0000, 0x0000, 0x0000, 0x0000, 0x3F80, 0x0000, 0x0000, 0x0000, 0x0000, 0x0000, 0x0000, 0x0000, 0x0000, 0x0000],
  [0x0000, 0x0000, 0x0000, 0x0000, 0x0000, 0x0000, 0x0000, 0x0000, 0x0000, 0x0C00, 0x0C00, 0x0000, 0x0000, 0x0000, 0x0000, 0x0000],
  [0x00C0, 0x00C0, 0x0180, 0x0180, 0x0300, 0x0300, 0x0600, 0x0C00, 0x0C00, 0x1800, 0x1800, 0x3000, 0x3000, 0x0000, 0x0000, 0x0000],
  [0x0000, 0x0E00, 0x1B00, 0x3180, 0x3180, 0x3180, 0x3180, 0x3180, 0x3180, 0x1B00, 0x0E00, 0x0000, 0x0000, 0x0000, 0x0000, 0x0000],
  [0x0000, 0x0600, 0x0E00, 0x1E00, 0x0600, 0x0600, 0x0600, 0x0600, 0x0600, 0x0600, 0x0600, 0x0000, 0x0000, 0x0000, 0x0000, 0x0000],
  [0x0000, 0x0F00, 0x1980, 0x3180, 0x3180, 0x0300, 0x0600, 0x0C00, 0x1800, 0x3000, 0x3F80, 0x0000, 0x0000, 0x0000, 0x0000, 0x0000],
  [0x0000, 0x1F00, 0x2180, 0x0180, 0x0300, 0x1F00, 0x0380, 0x0180, 0x0180, 0x2180, 0x1F00, 0x0000, 0x0000, 0x0000, 0x0000, 0x0000],
  [0x0000, 0x0700, 0x0700, 0x0F00, 0x0B00, 0x1B00, 0x1300, 0x3300, 0x3F80, 0x0300, 0x0300, 0x0000, 0x0000, 0x0000, 0x0000, 0x0000],
  [0x0000, 0x1F80, 0x1800, 0x1800, 0x1800, 0x1F00, 0x0180, 0x0180, 0x0180, 0x2180, 0x1F00, 0x0000, 0x0000, 0x0000, 0x0000, 0x0000],
  [0x0000, 0x0780, 0x1C00, 0x1800, 0x3000, 0x3700, 0x3980, 0x3180, 0x3180, 0x1980, 0x0F00, 0x0000, 0x0000, 0x0000, 0x0000, 0x0000],
  [0x0000, 0x7F00, 0x0300, 0x0300, 0x0600, 0x0600, 0x0600, 0x0600, 0x0C00, 0x0C00, 0x0C00, 0x0000, 0x0000, 0x0000, 0x0000, 0x0000],
  [0x0000, 0x1F00, 0x3180, 0x3180, 0x3180, 0x1F00, 0x3180, 0x3180, 0x3180, 0x3180, 0x1F00, 0x0000, 0x0000, 0x0000, 0x0000, 0x0000],
  [0x0000, 0x1E00, 0x3300, 0x3180, 0x3180, 0x3380, 0x1D80, 0x0180, 0x0300, 0x0700, 0x3C00, 0x0000, 0x0000, 0x0000, 0x0000, 0x0000],
  [0x0000, 0x0000, 0x0000, 0x0000, 0x0C00, 0x0C00, 0x0000, 0x0000, 0x0000, 0x0C00, 0x0C00, 0x0000, 0x0000, 0x0000, 0x0000, 0x0000],
  [0x0000, 0x0000, 0x0000, 0x0000, 0x0300, 0x0300, 0x0000, 0x0000, 0x0000, 0x0600, 0x0400, 0x0800, 0x0800, 0x0000, 0x0000, 0x0000],
  [0x0000, 0x0000, 0x0300, 0x0600, 0x0C00, 0x1800, 0x3000, 0x1800, 0x0C00, 0x0600, 0x0300, 0x0000, 0x0000, 0x0000, 0x0000, 0x0000],
  [0x0000, 0x0000, 0x0000, 0x0000, 0x0000, 0x3F80, 0x0000, 0x3F80, 0x0000, 0x0000, 0x0000, 0x0000, 0x0000, 0x0000, 0x0000, 0x0000],
  [0x0000, 0x0000, 0x1800, 0x0C00, 0x0600, 0x0300, 0x0180, 0x0300, 0x0600, 0x0C00, 0x1800, 0x0000, 0x0000, 0x0000, 0x0000, 0x0000],
  [0x0000, 0x0000, 0x1F00, 0x3180, 0x3180, 0x0180, 0x0700, 0x0C00, 0x0C00, 0x0000, 0x0C00, 0x0000, 0x0000, 0x0000, 0x0000, 0x0000],
  [0x0000, 0x0E00, 0x1100, 0x2100, 0x2100, 0x2700, 0x2900, 0x2900, 0x2700, 0x2000, 0x1100, 0x0E00, 0x0000, 0x0000, 0x0000, 0x0000],
  [0x0000, 0x0000, 0x0F00, 0x0F00, 0x0900, 0x1980, 0x1980, 0x1F80, 0x30C0, 0x30C0, 0x70E0, 0x0000, 0x0000, 0x0000, 0x0000, 0x0000],
  [0x0000, 0x0000, 0x3F00, 0x3180, 0x3180, 0x3180, 0x3F00, 0x3180, 0x3180, 0x3180, 0x3F00, 0x0000, 0x0000, 0x0000, 0x0000, 0x0000],
  [0x0000, 0x0000, 0x1F00, 0x3080, 0x6040, 0x6000, 0x6000, 0x6000, 0x6040, 0x3080, 0x1F00, 0x0000, 0x0000, 0x0000, 0x0000, 0x0000],
  [0x0000, 0x0000, 0x3F00, 0x3180, 0x30C0, 0x30C0, 0x30C0, 0x30C0, 0x30C0, 0x3180, 0x3F00, 0x0000, 0x0000, 0x0000, 0x0000, 0x0000],
  [0x0000, 0x0000, 0x3F80, 0x3000, 0x3000, 0x3000, 0x3E00, 0x3000, 0x3000, 0x3000, 0x3F80, 0x0000, 0x0000, 0x0000, 0x0000, 0x0000],
  [0x0000, 0x0000, 0x3FC0, 0x3000, 0x3000, 0x3000, 0x3E00, 0x3000, 0x3000, 0x3000, 0x3000, 0x0000, 0x0000, 0x0000, 0x0000, 0x0000],
  [0x0000, 0x0000, 0x1F00, 0x3080, 0x6000, 0x6000, 0x6000, 0x6780, 0x6180, 0x3180, 0x1F00, 0x0000, 0x0000, 0x0000, 0x0000, 0x0000],
  [0x0000, 0x0000, 0x3180, 0x3180, 0x3180, 0x3180, 0x3F80, 0x3180, 0x3180, 0x3180, 0x3180, 0x0000, 0x0000, 0x0000, 0x0000, 0x0000],
  [0x0000, 0x0000, 0x0F00, 0x0600, 0x0600, 0x0600, 0x0600, 0x0600, 0x0600, 0x0600, 0x0F00, 0x0000, 0x0000, 0x0000, 0x0000, 0x0000],
  [0x0000, 0x0000, 0x0300, 0x0300, 0x0300, 0x0300, 0x0300, 0x6300, 0x6300, 0x6300, 0x3E00, 0x0000, 0x0000, 0x0000, 0x0000, 0x0000],
  [0x0000, 0x0000, 0x30C0, 0x3180, 0x3300, 0x3600, 0x3C00, 0x3E00, 0x3300, 0x3180, 0x30C0, 0x0000, 0x0000, 0x0000, 0x0000, 0x0000],
  [0x0000, 0x0000, 0x1800, 0x1800, 0x1800, 0x1800, 0x1800, 0x1800, 0x1800, 0x1800, 0x1F80, 0x0000, 0x0000, 0x0000, 0x0000, 0x0000],
  [0x0000, 0x0000, 0x60C0, 0x60C0, 0x71C0, 0x7BC0, 0x6AC0, 0x6EC0, 0x64C0, 0x60C0, 0x60C0, 0x0000, 0x0000, 0x0000, 0x0000, 0x0000],
  [0x0000, 0x0000, 0x3180, 0x3180, 0x3980, 0x3D80, 0x3580, 0x3780, 0x3380, 0x3180, 0x3180, 0x0000, 0x0000, 0x0000, 0x0000, 0x0000],
  [0x0000, 0x0000, 0x1F00, 0x3180, 0x60C0, 0x60C0, 0x60C0, 0x60C0, 0x60C0, 0x3180, 0x1F00, 0x0000, 0x0000, 0x0000, 0x0000, 0x0000],
  [0x0000, 0x0000, 0x3F00, 0x3180, 0x3180, 0x3180, 0x3180, 0x3F00, 0x3000, 0x3000, 0x3000, 0x0000, 0x0000, 0x0000, 0x0000, 0x0000],
  [0x0000, 0x0000, 0x1F00, 0x3180, 0x60C0, 0x60C0, 0x60C0, 0x64C0, 0x66C0, 0x3380, 0x1EC0, 0x0040, 0x0000, 0x0000, 0x0000, 0x0000],
  [0x0000, 0x0000, 0x3F00, 0x3180, 0x3180, 0x3180, 0x3E00, 0x3300, 0x3180, 0x3180, 0x3180, 0x0000, 0x0000, 0x0000, 0x0000, 0x0000],
  [0x0000, 0x0000, 0x1F00, 0x3180, 0x3180, 0x3800, 0x1F00, 0x0380, 0x3180, 0x3180, 0x1F00, 0x0000, 0x0000, 0x0000, 0x0000, 0x0000],
  [0x0000, 0x0000, 0x7F80, 0x0C00, 0x0C00, 0x0C00, 0x0C00, 0x0C00, 0x0C00, 0x0C00, 0x0C00, 0x0000, 0x0000, 0x0000, 0x0000, 0x0000],
  [0x0000, 0x0000, 0x3180, 0x3180, 0x3180, 0x3180, 0x3180, 0x3180, 0x3180, 0x3180, 0x1F00, 0x0000, 0x0000, 0x0000, 0x0000, 0x0000],
  [0x0000, 0x0000, 0x3180, 0x3180, 0x3180, 0x1B00, 0x1B00, 0x1B00, 0x0A00, 0x0E00, 0x0E00, 0x0000, 0x0000, 0x0000, 0x0000, 0x0000],
  [0x0000, 0x0000, 0x60C0, 0x60C0, 0x64C0, 0x6EC0, 0x6EC0, 0x2A80, 0x3B80, 0x3B80, 0x3180, 0x0000, 0x0000, 0x0000, 0x0000, 0x0000],
  [0x0000, 0x0000, 0x3180, 0x3180, 0x1B00, 0x0E00, 0x0E00, 0x0E00, 0x1B00, 0x3180, 0x3180, 0x0000, 0x0000, 0x0000, 0x0000, 0x0000],
  [0x0000, 0x0000, 0x30C0, 0x30C0, 0x1980, 0x0F00, 0x0F00, 0x0600, 0x0600, 0x0600, 0x0600, 0x0000, 0x0000, 0x0000, 0x0000, 0x0000],
  [0x0000, 0x0000, 0x3F80, 0x0180, 0x0300, 0x0600, 0x0400, 0x0C00, 0x1800, 0x3000, 0x3F80, 0x0000, 0x0000, 0x0000, 0x0000, 0x0000],
  [0x0000, 0x0780, 0x0600, 0x0600, 0x0600, 0x0600, 0x0600, 0x0600, 0x0600, 0x0600, 0x0600, 0x0600, 0x0780, 0x0000, 0x0000, 0x0000],
  [0x3000, 0x3000, 0x1800, 0x1800, 0x0C00, 0x0C00, 0x0600, 0x0300, 0x0300, 0x0180, 0x0180, 0x00C0, 0x00C0, 0x0000, 0x0000, 0x0000],
  [0x0000, 0x1E00, 0x0600, 0x0600, 0x0600, 0x0600, 0x0600, 0x0600, 0x0600, 0x0600, 0x0600, 0x0600, 0x1E00, 0x0000, 0x0000, 0x0000],
  [0x0400, 0x0A00, 0x0A00, 0x1100, 0x2080, 0x2080, 0x0000, 0x0000, 0x0000, 0x0000, 0x0000, 0x0000, 0x0000, 0x0000, 0x0000, 0x0000],
  [0x0000, 0x0000, 0x0000, 0x0000, 0x0000, 0x0000, 0x0000, 0x0000, 0x0000, 0x0000, 0x0000, 0x0000, 0x0000, 0x0000, 0x0000, 0xFFE0],
  [0x0800, 0x0400, 0x0200, 0x0000, 0x0000, 0x0000, 0x0000, 0x0000, 0x0000, 0x0000, 0x0000, 0x0000, 0x0000, 0x0000, 0x0000, 0x0000],
  [0x0000, 0x0000, 0x0000, 0x0000, 0x1F00, 0x0180, 0x0180, 0x1F80, 0x3180, 0x3380, 0x1D80, 0x0000, 0x0000, 0x0000, 0x0000, 0x0000],
  [0x0000, 0x3000, 0x3000, 0x3000, 0x3700, 0x3980, 0x30C0, 0x30C0, 0x30C0, 0x3980, 0x3700, 0x0000, 0x0000, 0x0000, 0x0000, 0x0000],
  [0x0000, 0x0000, 0x0000, 0x0000, 0x1F00, 0x3180, 0x6080, 0x6000, 0x6080, 0x3180, 0x1F00, 0x0000, 0x0000, 0x0000, 0x0000, 0x0000],
  [0x0000, 0x0180, 0x0180, 0x0180, 0x1D80, 0x3380, 0x6180, 0x6180, 0x6180, 0x3380, 0x1D80, 0x0000, 0x0000, 0x0000, 0x0000, 0x0000],
  [0x0000, 0x0000, 0x0000, 0x0000, 0x1F00, 0x3180, 0x60C0, 0x7FC0, 0x6000, 0x30C0, 0x1F80, 0x0000, 0x0000, 0x0000, 0x0000, 0x0000],
  [0x0000, 0x0780, 0x0C00, 0x0C00, 0x0C00, 0x1F80, 0x0C00, 0x0C00, 0x0C00, 0x0C00, 0x0C00, 0x0000, 0x0000, 0x0000, 0x0000, 0x0000],
  [0x0000, 0x0000, 0x0000, 0x0000, 0x1D80, 0x3380, 0x6180, 0x6180, 0x6180, 0x3380, 0x1D80, 0x0180, 0x0180, 0x1F00, 0x0000, 0x0000],
  [0x0000, 0x3000, 0x3000, 0x3000, 0x3700, 0x3980, 0x3180, 0x3180, 0x3180, 0x3180, 0x3180, 0x0000, 0x0000, 0x0000, 0x0000, 0x0000],
  [0x0000, 0x0600, 0x0600, 0x0000, 0x0600, 0x0600, 0x0600, 0x0600, 0x0600, 0x0600, 0x0600, 0x0000, 0x0000, 0x0000, 0x0000, 0x0000],
  [0x0000, 0x0300, 0x0300, 0x0000, 0x0300, 0x0300, 0x0300, 0x0300, 0x0300, 0x0300, 0x0300, 0x0300, 0x0300, 0x1E00, 0x0000, 0x0000],
  [0x0000, 0x3000, 0x3000, 0x3000, 0x3700, 0x3600, 0x3C00, 0x3C00, 0x3600, 0x3300, 0x3180, 0x0000, 0x0000, 0x0000, 0x0000, 0x0000],
  [0x0000, 0x0600, 0x0600, 0x0600, 0x0600, 0x0600, 0x0600, 0x0600, 0x0600, 0x0600, 0x0600, 0x0000, 0x0000, 0x0000, 0x0000, 0x0000],
  [0x0000, 0x0000, 0x0000, 0x0000, 0x3F80, 0x36C0, 0x36C0, 0x36C0, 0x36C0, 0x36C0, 0x36C0, 0x0000, 0x0000, 0x0000, 0x0000, 0x0000],
  [0x0000, 0x0000, 0x0000, 0x0000, 0x3700, 0x3980, 0x3180, 0x3180, 0x3180, 0x3180, 0x3180, 0x0000, 0x0000, 0x0000, 0x0000, 0x0000],
  [0x0000, 0x0000, 0x0000, 0x0000, 0x1F00, 0x3180, 0x60C0, 0x60C0, 0x60C0, 0x3180, 0x1F00, 0x0000, 0x0000, 0x0000, 0x0000, 0x0000],
  [0x0000, 0x0000, 0x0000, 0x0000, 0x3700, 0x3980, 0x30C0, 0x30C0, 0x30C0, 0x3980, 0x3700, 0x3000, 0x3000, 0x3000, 0x0000, 0x0000],
  [0x0000, 0x0000, 0x0000, 0x0000, 0x1D80, 0x3380, 0x6180, 0x6180, 0x6180, 0x3380, 0x1D80, 0x0180, 0x0180, 0x0180, 0x0000, 0x0000],
  [0x0000, 0x0000, 0x0000, 0x0000, 0x1B80, 0x1CC0, 0x1800, 0x1800, 0x1800, 0x1800, 0x1800, 0x0000, 0x0000, 0x0000, 0x0000, 0x0000],
  [0x0000, 0x0000, 0x0000, 0x0000, 0x1F00, 0x3180, 0x3C00, 0x1F00, 0x0380, 0x3180, 0x1F00, 0x0000, 0x0000, 0x0000, 0x0000, 0x0000],
  [0x0000, 0x0600, 0x0600, 0x0600, 0x1F80, 0x0600, 0x0600, 0x0600, 0x0600, 0x0600, 0x0380, 0x0000, 0x0000, 0x0000, 0x0000, 0x0000],
  [0x0000, 0x0000, 0x0000, 0x0000, 0x3180, 0x3180, 0x3180, 0x3180, 0x3180, 0x3380, 0x1D80, 0x0000, 0x0000, 0x0000, 0x0000, 0x0000],
  [0x0000, 0x0000, 0x0000, 0x0000, 0x3180, 0x3180, 0x3180, 0x1B00, 0x1B00, 0x0E00, 0x0E00, 0x0000, 0x0000, 0x0000, 0x0000, 0x0000],
  [0x0000, 0x0000, 0x0000, 0x0000, 0x60C0, 0x60C0, 0x64C0, 0x6EC0, 0x3B80, 0x3B80, 0x3180, 0x0000, 0x0000, 0x0000, 0x0000, 0x0000],
  [0x0000, 0x0000, 0x0000, 0x0000, 0x3180, 0x1B00, 0x0E00, 0x0E00, 0x0E00, 0x1B00, 0x3180, 0x0000, 0x0000, 0x0000, 0x0000, 0x0000],
  [0x0000, 0x0000, 0x0000, 0x0000, 0x30C0, 0x30C0, 0x1980, 0x1980, 0x0B00, 0x0F00, 0x0600, 0x0600, 0x0C00, 0x1800, 0x0000, 0x0000],
  [0x0000, 0x0000, 0x0000, 0x0000, 0x3F80, 0x0180, 0x0300, 0x0E00, 0x1800, 0x3000, 0x3F80, 0x0000, 0x0000, 0x0000, 0x0000, 0x0000],
  [0x0000, 0x0600, 0x0C00, 0x0C00, 0x0C00, 0x0C00, 0x0C00, 0x1800, 0x0C00, 0x0C00, 0x0C00, 0x0C00, 0x0600, 0x0000, 0x0000, 0x0000],
  [0x0000, 0x0600, 0x0600, 0x0600, 0x0600, 0x0600, 0x0600, 0x0600, 0x0600, 0x0600, 0x0600, 0x0600, 0x0600, 0x0000, 0x0000, 0x0000],
  [0x0000, 0x0C00, 0x0600, 0x0600, 0x0600, 0x0600, 0x0600, 0x0300, 0x0600, 0x0600, 0x0600, 0x0600, 0x0C00, 0x0000, 0x0000, 0x0000],
  [0x0000, 0x0000, 0x0000, 0x0000, 0x0000, 0x1800, 0x2480, 0x0300, 0x0000, 0x0000, 0x0000, 0x0000, 0x0000, 0x0000, 0x0000, 0x0000]
]

/-- The read `font[c - 31][j]` for a character `c` (a C `char`, hence an
integer): `none` when the index falls outside the table. -/
def font_row (c : Int) (j : Nat) : Option Nat :=
  if 0 ≤ c - 31 then (font.get? (c - 31).toNat).bind (fun glyph => glyph.get? j) else none

def FONT_WIDTH : Nat := 11
def FONT_HEIGHT : Nat := 16
def SCREEN_WIDTH : Nat := 320
def SCREEN_HEIGHT : Nat := 240

/-! ## Glyph rasterizer (first loop nest of `write_text_to_display`) -/

/-- A pixel buffer reached through `uint16_t buffer[]`: index to pixel value. -/
abbrev Buffer := Nat → Nat

/-- The store `buffer[idx] = val`. -/
def Buffer.store (buffer : Buffer) (idx val : Nat) : Buffer :=
  fun p => if p = idx then val else buffer p

/-- The expression `(char_row << k) & 0x8000 ? text_color : window_color`.
The operand is promoted to `int`; with `char_row < 2^16` and `k < 11` the
shift stays below `2^26`, so no bit is lost. -/
def pixel (char_row k text_color window_color : Nat) : Nat :=
  if (char_row <<< k) &&& 0x8000 ≠ 0 then text_color else window_color

/-- The innermost loop
`for (k = 0; k < FONT_WIDTH && ((i * FONT_WIDTH) + k) < data_size; k++)`,
entered with `rem = FONT_WIDTH - k` iterations still allowed by the first
conjunct of its condition. -/
def raster_k (data_size text_lenght i j char_row text_color window_color : Nat) :
    Nat → Nat → Buffer → Buffer
  | 0, _, buffer => buffer
  | rem + 1, k, buffer =>
    if (i * FONT_WIDTH) + k < data_size then
      raster_k data_size text_lenght i j char_row text_color window_color rem (k + 1)
        (buffer.store ((j * text_lenght * FONT_WIDTH) + ((i * FONT_WIDTH) + k))
          (pixel char_row k text_color window_color))
    else buffer

/-- The loop `for (j = 0; j < FONT_HEIGHT; j++)` for the character `c = text[i]`,
entered with `rem = FONT_HEIGHT - j`. Each pass reads `font[c - 31][j]`. -/
def raster_j (data_size text_lenght i : Nat) (c : Int) (text_color window_color : Nat) :
    Nat → Nat → Buffer → Option Buffer
  | 0, _, buffer => some buffer
  | rem + 1, j, buffer =>
    match font_row c j with
    | none => none
    | some char_row =>
      raster_j data_size text_lenght i c text_color window_color rem (j + 1)
        (raster_k data_size text_lenght i j char_row text_color window_color FONT_WIDTH 0 buffer)

/-- The outer loop `for (uint8_t i = 0; i < text_lenght; i++)`, entered with
`rem = text_lenght - i`. As `text_lenght` is a `uint8_t`, `i` stops at 255 at
the latest and never wraps. -/
def raster_i (data_size text_lenght : Nat) (text : Nat → Int) (text_color window_color : Nat) :
    Nat → Nat → Buffer → Option Buffer
  | 0, _, buffer => some buffer
  | rem + 1, i, buffer =>
    match raster_j data_size text_lenght i (text i) text_color window_color FONT_HEIGHT 0 buffer with
    | none => none
    | some buffer1 => raster_i data_size text_lenght text text_color window_color rem (i + 1) buffer1

/-- The rasterizing part of `write_text_to_display(buffer, data_size, text,
text_lenght, text_color, window_color, caset, raset)`: the buffer as it is
when the bus commands start. `text i` is the character `text[i]`. -/
def write_text_to_display_raster (buffer : Buffer) (data_size : Nat) (text : Nat → Int)
    (text_lenght text_color window_color : Nat) : Option Buffer :=
  raster_i data_size text_lenght text text_color window_color text_lenght 0 buffer

/-! ## Layout constants and addressing windows -/

def TIME_DATA_LENGHT : Nat := 19
def TIME_DATA_WIDTH : Nat := FONT_WIDTH * TIME_DATA_LENGHT
def TIME_DATA_X1 : Nat := 58
def TIME_DATA_X2 : Nat := TIME_DATA_X1 + TIME_DATA_WIDTH
def TIME_DATA_Y1 : Nat := 38
def TIME_DATA_Y2 : Nat := TIME_DATA_Y1 + FONT_HEIGHT

def NET1_LABEL_Y : Nat := 69
def NET2_LABEL_Y : Nat := 113
def NET_DATA_LENGHT : Nat := 4
def NET_DATA_WIDTH : Nat := FONT_WIDTH * NET_DATA_LENGHT

def IFDEV1_RX_DATA_X1 : Nat := 126
def IFDEV1_RX_DATA_X2 : Nat := IFDEV1_RX_DATA_X1 + NET_DATA_WIDTH
def IFDEV1_RX_DATA_Y1 : Nat := NET1_LABEL_Y
def IFDEV1_RX_DATA_Y2 : Nat := IFDEV1_RX_DATA_Y1 + FONT_HEIGHT

def IFDEV1_TX_DATA_X1 : Nat := 232
def IFDEV1_TX_DATA_X2 : Nat := IFDEV1_TX_DATA_X1 + NET_DATA_WIDTH
def IFDEV1_TX_DATA_Y1 : Nat := NET1_LABEL_Y
def IFDEV1_TX_DATA_Y2 : Nat := IFDEV1_TX_DATA_Y1 + FONT_HEIGHT

def IFDEV2_RX_DATA_X1 : Nat := 126
def IFDEV2_RX_DATA_X2 : Nat := IFDEV2_RX_DATA_X1 + NET_DATA_WIDTH
def IFDEV2_RX_DATA_Y1 : Nat := NET2_LABEL_Y
def IFDEV2_RX_DATA_Y2 : Nat := IFDEV2_RX_DATA_Y1 + FONT_HEIGHT

def IFDEV2_TX_DATA_X1 : Nat := 232
def IFDEV2_TX_DATA_X2 : Nat := IFDEV2_TX_DATA_X1 + NET_DATA_WIDTH
def IFDEV2_TX_DATA_Y1 : Nat := NET2_LABEL_Y
def IFDEV2_TX_DATA_Y2 : Nat := IFDEV2_TX_DATA_Y1 + FONT_HEIGHT

def CPU_DATA_LENGHT : Nat := 4
def CPU_DATA_WIDTH : Nat := FONT_WIDTH * CPU_DATA_LENGHT
def CPU_DATA_X1 : Nat := 65
def CPU_DATA_X2 : Nat := CPU_DATA_X1 + CPU_DATA_WIDTH
def CPU_DATA_Y1 : Nat := 166
def CPU_DATA_Y2 : Nat := CPU_DATA_Y1 + FONT_HEIGHT

def RAM_DATA_LENGHT : Nat := 4
def RAM_DATA_WIDTH : Nat := FONT_WIDTH * RAM_DATA_LENGHT
def RAM_DATA_X1 : Nat := 65
def RAM_DATA_X2 : Nat := RAM_DATA_X1 + RAM_DATA_WIDTH
def RAM_DATA_Y1 : Nat := 188
def RAM_DATA_Y2 : Nat := RAM_DATA_Y1 + FONT_HEIGHT

def TEMP_DATA_LENGHT : Nat := 2
def TEMP_DATA_WIDTH : Nat := FONT_WIDTH * TEMP_DATA_LENGHT
def TEMP_DATA_X1 : Nat := 76
def TEMP_DATA_X2 : Nat := TEMP_DATA_X1 + TEMP_DATA_WIDTH
def TEMP_DATA_Y1 : Nat := 210
def TEMP_DATA_Y2 : Nat := TEMP_DATA_Y1 + FONT_HEIGHT

def UPT_DATA_LENGHT : Nat := 10
def UPT_DATA_WIDTH : Nat := FONT_WIDTH * UPT_DATA_LENGHT
def UPT_DATA_X1 : Nat := 188
def UPT_DATA_X2 : Nat := UPT_DATA_X1 + UPT_DATA_WIDTH
def UPT_DATA_Y1 : Nat := 166
def UPT_DATA_Y2 : Nat := UPT_DATA_Y1 + FONT_HEIGHT

def FS1_DATA_LENGHT : Nat := 4
def FS1_DATA_WIDTH : Nat := FONT_WIDTH * FS1_DATA_LENGHT
def FS1_DATA_X1 : Nat := 254
def FS1_DATA_X2 : Nat := FS1_DATA_X1 + FS1_DATA_WIDTH
def FS1_DATA_Y1 : Nat := 188
def FS1_DATA_Y2 : Nat := FS1_DATA_Y1 + FONT_HEIGHT

def FS2_DATA_LENGHT : Nat := 4
def FS2_DATA_WIDTH : Nat := FONT_WIDTH * FS2_DATA_LENGHT
def FS2_DATA_X1 : Nat := 254
def FS2_DATA_X2 : Nat := FS2_DATA_X1 + FS2_DATA_WIDTH
def FS2_DATA_Y1 : Nat := 210
def FS2_DATA_Y2 : Nat := FS2_DATA_Y1 + FONT_HEIGHT

/-- Conversion of an initializer to `uint8_t`. -/
def uint8 (x : Nat) : Nat := x % 256

/-! The static arrays `uint8_t caset[]` and `uint8_t raset[]` of the eleven
display functions, each initialized with
`{ A >> 8, A & 0xff, B >> 8, (B - 1) & 0xff, }` for layout macros `A`
(`.._X1`, `.._Y1`) and `B` (`.._X2`, `.._Y2`).

The macros are not parenthesised, so `B >> 8` is the text `P + W * L >> 8`
(or `P + H >> 8`) and `(B - 1)` is the text `(P + W * L - 1)`. In C `*`, `+`
and `-` bind tighter than `>>` and `&`, and `+`, `-` associate to the left, so
these texts parse as `(P + (W * L)) >> 8` and `((P + (W * L)) - 1) & 0xff`: the
operators act on the value of `B`, which is what is written below. -/

/-- The array `caset` of `display_time_info`. -/
def display_time_info_caset : List Nat :=
  [uint8 (TIME_DATA_X1 >>> 8), uint8 (TIME_DATA_X1 &&& 0xff),
    uint8 (TIME_DATA_X2 >>> 8), uint8 ((TIME_DATA_X2 - 1) &&& 0xff)]

/-- The array `raset` of `display_time_info`. -/
def display_time_info_raset : List Nat :=
  [uint8 (TIME_DATA_Y1 >>> 8), uint8 (TIME_DATA_Y1 &&& 0xff),
    uint8 (TIME_DATA_Y2 >>> 8), uint8 ((TIME_DATA_Y2 - 1) &&& 0xff)]

/-- The array `caset` of `display_ifdev1_rx_info`. -/
def display_ifdev1_rx_info_caset : List Nat :=
  [uint8 (IFDEV1_RX_DATA_X1 >>> 8), uint8 (IFDEV1_RX_DATA_X1 &&& 0xff),
    uint8 (IFDEV1_RX_DATA_X2 >>> 8), uint8 ((IFDEV1_RX_DATA_X2 - 1) &&& 0xff)]

/-- The array `raset` of `display_ifdev1_rx_info`. -/
def display_ifdev1_rx_info_raset : List Nat :=
  [uint8 (IFDEV1_RX_DATA_Y1 >>> 8), uint8 (IFDEV1_RX_DATA_Y1 &&& 0xff),
    uint8 (IFDEV1_RX_DATA_Y2 >>> 8), uint8 ((IFDEV1_RX_DATA_Y2 - 1) &&& 0xff)]

/-- The array `caset` of `display_ifdev1_tx_info`. -/
def display_ifdev1_tx_info_caset : List Nat :=
  [uint8 (IFDEV1_TX_DATA_X1 >>> 8), uint8 (IFDEV1_TX_DATA_X1 &&& 0xff),
    uint8 (IFDEV1_TX_DATA_X2 >>> 8), uint8 ((IFDEV1_TX_DATA_X2 - 1) &&& 0xff)]

/-- The array `raset` of `display_ifdev1_tx_info`. -/
def display_ifdev1_tx_info_raset : List Nat :=
  [uint8 (IFDEV1_TX_DATA_Y1 >>> 8), uint8 (IFDEV1_TX_DATA_Y1 &&& 0xff),
    uint8 (IFDEV1_TX_DATA_Y2 >>> 8), uint8 ((IFDEV1_TX_DATA_Y2 - 1) &&& 0xff)]

/-- The array `caset` of `display_ifdev2_rx_info`. -/
def display_ifdev2_rx_info_caset : List Nat :=
  [uint8 (IFDEV2_RX_DATA_X1 >>> 8), uint8 (IFDEV2_RX_DATA_X1 &&& 0xff),
    uint8 (IFDEV2_RX_DATA_X2 >>> 8), uint8 ((IFDEV2_RX_DATA_X2 - 1) &&& 0xff)]

/-- The array `raset` of `display_ifdev2_rx_info`. -/
def display_ifdev2_rx_info_raset : List Nat :=
  [uint8 (IFDEV2_RX_DATA_Y1 >>> 8), uint8 (IFDEV2_RX_DATA_Y1 &&& 0xff),
    uint8 (IFDEV2_RX_DATA_Y2 >>> 8), uint8 ((IFDEV2_RX_DATA_Y2 - 1) &&& 0xff)]

/-- The array `caset` of `display_ifdev2_tx_info`. -/
def display_ifdev2_tx_info_caset : List Nat :=
  [uint8 (IFDEV2_TX_DATA_X1 >>> 8), uint8 (IFDEV2_TX_DATA_X1 &&& 0xff),
    uint8 (IFDEV2_TX_DATA_X2 >>> 8), uint8 ((IFDEV2_TX_DATA_X2 - 1) &&& 0xff)]

/-- The array `raset` of `display_ifdev2_tx_info`. -/
def display_ifdev2_tx_info_raset : List Nat :=
  [uint8 (IFDEV2_TX_DATA_Y1 >>> 8), uint8 (IFDEV2_TX_DATA_Y1 &&& 0xff),
    uint8 (IFDEV2_TX_DATA_Y2 >>> 8), uint8 ((IFDEV2_TX_DATA_Y2 - 1) &&& 0xff)]

/-- The array `caset` of `display_cpu_info`. -/
def display_cpu_info_caset : List Nat :=
  [uint8 (CPU_DATA_X1 >>> 8), uint8 (CPU_DATA_X1 &&& 0xff),
    uint8 (CPU_DATA_X2 >>> 8), uint8 ((CPU_DATA_X2 - 1) &&& 0xff)]

/-- The array `raset` of `display_cpu_info`. -/
def display_cpu_info_raset : List Nat :=
  [uint8 (CPU_DATA_Y1 >>> 8), uint8 (CPU_DATA_Y1 &&& 0xff),
    uint8 (CPU_DATA_Y2 >>> 8), uint8 ((CPU_DATA_Y2 - 1) &&& 0xff)]

/-- The array `caset` of `display_ram_info`. -/
def display_ram_info_caset : List Nat :=
  [uint8 (RAM_DATA_X1 >>> 8), uint8 (RAM_DATA_X1 &&& 0xff),
    uint8 (RAM_DATA_X2 >>> 8), uint8 ((RAM_DATA_X2 - 1) &&& 0xff)]

/-- The array `raset` of `display_ram_info`. -/
def display_ram_info_raset : List Nat :=
  [uint8 (RAM_DATA_Y1 >>> 8), uint8 (RAM_DATA_Y1 &&& 0xff),
    uint8 (RAM_DATA_Y2 >>> 8), uint8 ((RAM_DATA_Y2 - 1) &&& 0xff)]

/-- The array `caset` of `display_temp_info`. -/
def display_temp_info_caset : List Nat :=
  [uint8 (TEMP_DATA_X1 >>> 8), uint8 (TEMP_DATA_X1 &&& 0xff),
    uint8 (TEMP_DATA_X2 >>> 8), uint8 ((TEMP_DATA_X2 - 1) &&& 0xff)]

/-- The array `raset` of `display_temp_info`. -/
def display_temp_info_raset : List Nat :=
  [uint8 (TEMP_DATA_Y1 >>> 8), uint8 (TEMP_DATA_Y1 &&& 0xff),
    uint8 (TEMP_DATA_Y2 >>> 8), uint8 ((TEMP_DATA_Y2 - 1) &&& 0xff)]

/-- The array `caset` of `display_uptime_info`. -/
def display_uptime_info_caset : List Nat :=
  [uint8 (UPT_DATA_X1 >>> 8), uint8 (UPT_DATA_X1 &&& 0xff),
    uint8 (UPT_DATA_X2 >>> 8), uint8 ((UPT_DATA_X2 - 1) &&& 0xff)]

/-- The array `raset` of `display_uptime_info`. -/
def display_uptime_info_raset : List Nat :=
  [uint8 (UPT_DATA_Y1 >>> 8), uint8 (UPT_DATA_Y1 &&& 0xff),
    uint8 (UPT_DATA_Y2 >>> 8), uint8 ((UPT_DATA_Y2 - 1) &&& 0xff)]

/-- The array `caset` of `display_fs1_info`. -/
def display_fs1_info_caset : List Nat :=
  [uint8 (FS1_DATA_X1 >>> 8), uint8 (FS1_DATA_X1 &&& 0xff),
    uint8 (FS1_DATA_X2 >>> 8), uint8 ((FS1_DATA_X2 - 1) &&& 0xff)]

/-- The array `raset` of `display_fs1_info`. -/
def display_fs1_info_raset : List Nat :=
  [uint8 (FS1_DATA_Y1 >>> 8), uint8 (FS1_DATA_Y1 &&& 0xff),
    uint8 (FS1_DATA_Y2 >>> 8), uint8 ((FS1_DATA_Y2 - 1) &&& 0xff)]

/-- The array `caset` of `display_fs2_info`. -/
def display_fs2_info_caset : List Nat :=
  [uint8 (FS2_DATA_X1 >>> 8), uint8 (FS2_DATA_X1 &&& 0xff),
    uint8 (FS2_DATA_X2 >>> 8), uint8 ((FS2_DATA_X2 - 1) &&& 0xff)]

/-- The array `raset` of `display_fs2_info`. -/
def display_fs2_info_raset : List Nat :=
  [uint8 (FS2_DATA_Y1 >>> 8), uint8 (FS2_DATA_Y1 &&& 0xff),
    uint8 (FS2_DATA_Y2 >>> 8), uint8 ((FS2_DATA_Y2 - 1) &&& 0xff)]

/-- The array `caset` of `flush_buffer`:
`{ 0x00, 0x00, SCREEN_WIDTH >> 8, (SCREEN_WIDTH - 1) & 0xff, }`. -/
def flush_buffer_caset : List Nat :=
  [uint8 0x00, uint8 0x00, uint8 (SCREEN_WIDTH >>> 8), uint8 ((SCREEN_WIDTH - 1) &&& 0xff)]

/-- The array `raset` of `flush_buffer`:
`{ 0x00, 0x00, SCREEN_HEIGHT >> 8, (SCREEN_HEIGHT - 1) & 0xff, }`. -/
def flush_buffer_raset : List Nat :=
  [uint8 0x00, uint8 0x00, uint8 (SCREEN_HEIGHT >>> 8), uint8 ((SCREEN_HEIGHT - 1) &&& 0xff)]

/-- A region of display memory `[x1, x2) x [y1, y2)` with the window bytes
that the code sends for it. -/
structure Region where
  x1 : Nat
  y1 : Nat
  x2 : Nat
  y2 : Nat
  caset : List Nat
  raset : List Nat

/-- The eleven volatile field regions, in the order time, interface 1 RX/TX,
interface 2 RX/TX, CPU, RAM, temperature, uptime, filesystem 1 and 2. -/
def field_regions : List Region := [
  ⟨TIME_DATA_X1, TIME_DATA_Y1, TIME_DATA_X2, TIME_DATA_Y2,
    display_time_info_caset, display_time_info_raset⟩,
  ⟨IFDEV1_RX_DATA_X1, IFDEV1_RX_DATA_Y1, IFDEV1_RX_DATA_X2, IFDEV1_RX_DATA_Y2,
    display_ifdev1_rx_info_caset, display_ifdev1_rx_info_raset⟩,
  ⟨IFDEV1_TX_DATA_X1, IFDEV1_TX_DATA_Y1, IFDEV1_TX_DATA_X2, IFDEV1_TX_DATA_Y2,
    display_ifdev1_tx_info_caset, display_ifdev1_tx_info_raset⟩,
  ⟨IFDEV2_RX_DATA_X1, IFDEV2_RX_DATA_Y1, IFDEV2_RX_DATA_X2, IFDEV2_RX_DATA_Y2,
    display_ifdev2_rx_info_caset, display_ifdev2_rx_info_raset⟩,
  ⟨IFDEV2_TX_DATA_X1, IFDEV2_TX_DATA_Y1, IFDEV2_TX_DATA_X2, IFDEV2_TX_DATA_Y2,
    display_ifdev2_tx_info_caset, display_ifdev2_tx_info_raset⟩,
  ⟨CPU_DATA_X1, CPU_DATA_Y1, CPU_DATA_X2, CPU_DATA_Y2,
    display_cpu_info_caset, display_cpu_info_raset⟩,
  ⟨RAM_DATA_X1, RAM_DATA_Y1, RAM_DATA_X2, RAM_DATA_Y2,
    display_ram_info_caset, display_ram_info_raset⟩,
  ⟨TEMP_DATA_X1, TEMP_DATA_Y1, TEMP_DATA_X2, TEMP_DATA_Y2,
    display_temp_info_caset, display_temp_info_raset⟩,
  ⟨UPT_DATA_X1, UPT_DATA_Y1, UPT_DATA_X2, UPT_DATA_Y2,
    display_uptime_info_caset, display_uptime_info_raset⟩,
  ⟨FS1_DATA_X1, FS1_DATA_Y1, FS1_DATA_X2, FS1_DATA_Y2,
    display_fs1_info_caset, display_fs1_info_raset⟩,
  ⟨FS2_DATA_X1, FS2_DATA_Y1, FS2_DATA_X2, FS2_DATA_Y2,
    display_fs2_info_caset, display_fs2_info_raset⟩]

/-- The full-screen region addressed by `flush_buffer`. -/
def screen_region : Region :=
  ⟨0, 0, SCREEN_WIDTH, SCREEN_HEIGHT, flush_buffer_caset, flush_buffer_raset⟩

/-- Two parameter bytes read by the controller as one big-endian 16-bit number. -/
def big_endian16 (hi lo : Nat) : Nat := hi * 256 + lo

/-! ## Pixel streaming (second part of `write_text_to_display`) -/

/-- The loop
`for (uint16_t index = 0; index < (data_size * 2); index += 4096)
   result += spi_transfer(((uint8_t*)(buffer)) + index,
     (data_size * 2) < (index + 4096) ? (data_size * 2) - index : 4096);`
over any state `σ` of the bus. `index` is a `uint16_t`, so `index += 4096` is
taken modulo 65536; the condition and the length are computed in `int`.
`spi_transfer offset len` stands for the call and its `result +=`.
The fuel bounds the number of evaluations of the loop condition: `none` means
that the loop was still running when it ran out. -/
def pixel_stream_loop {σ : Type} (spi_transfer : Nat → Nat → σ → σ) (data_size : Nat) :
    Nat → Nat → σ → Option σ
  | 0, _, _ => none
  | fuel + 1, index, s =>
    if index < data_size * 2 then
      pixel_stream_loop spi_transfer data_size fuel ((index + 4096) % 65536)
        (spi_transfer index
          (if data_size * 2 < index + 4096 then data_size * 2 - index else 4096) s)
    else some s

/-- The bus transfers of the streaming loop of `write_text_to_display`, as
pairs (byte offset into the buffer, length in bytes), in the order issued. -/
def write_text_to_display_transfers (data_size fuel : Nat) : Option (List (Nat × Nat)) :=
  pixel_stream_loop (fun offset len log => log ++ [(offset, len)]) data_size fuel 0 []

/-! ## Text formatting -/

/-- Conversion of a value to `int` (32 bits, two's complement), as GCC defines
it for values out of range; also what `printf` reads for `%d` from a wider
argument. -/
def to_int (x : Int) : Int := (x + 2147483648) % 4294967296 - 2147483648

/-- The value of a `long` (64 bits, two's complement) result whose exact value
is `x`: an overflowing operation wraps. -/
def to_long (x : Int) : Int :=
  (x + 9223372036854775808) % 18446744073709551616 - 9223372036854775808

/-- The C library conversions `%<width>d`, `%<width>ld` (`zero_flag = false`)
and `%0<width>d` (`zero_flag = true`) of the value `x`: the decimal digits
with a minus sign for a negative value, padded on the left to `width`
characters, never truncated. -/
def printf_d (zero_flag : Bool) (width : Nat) (x : Int) : List Char :=
  let digits := Nat.toDigits 10 x.natAbs
  if x < 0 then
    if zero_flag then '-' :: (List.replicate (width - (digits.length + 1)) '0' ++ digits)
    else List.replicate (width - (digits.length + 1)) ' ' ++ '-' :: digits
  else
    List.replicate (width - digits.length) (if zero_flag then '0' else ' ') ++ digits

/-- The C library call `sprintf(s, ..)` into an array `char s[capacity]`, for
a format and arguments that give the characters `text`: the string left in the
array. The characters and the terminating 0 are `text.length + 1` bytes; when
they do not fit, the call writes past the end of the array and the behaviour is
undefined: `none`. -/
def sprintf (capacity : Nat) (text : List Char) : Option String :=
  if text.length + 1 ≤ capacity then some (String.mk text) else none

/-- The string `net_data_string` (a `char[10]`) that
`display_ifdev1_rx_info(rx_bytes_diff, ..)` builds with
`sprintf(net_data_string, "%3ld%c", rx_bytes_diff, units)` and hands to
`write_text_to_display`. Division of `long` truncates. -/
def display_ifdev1_rx_info_net_data_string (rx_bytes_diff : Int) : Option String :=
  let units := 'B'
  let (rx_bytes_diff, units) :=
    if 999999999 < rx_bytes_diff then (rx_bytes_diff.tdiv (1024 * 1024 * 1024), 'M')
    else if 999999 < rx_bytes_diff then (rx_bytes_diff.tdiv (1024 * 1024), 'M')
    else if 999 < rx_bytes_diff then (rx_bytes_diff.tdiv 1024, 'K')
    else (rx_bytes_diff, units)
  sprintf 10 (printf_d false 3 rx_bytes_diff ++ [units])

/-- The string `net_data_string` of `display_ifdev1_tx_info(tx_bytes_diff, ..)`. -/
def display_ifdev1_tx_info_net_data_string (tx_bytes_diff : Int) : Option String :=
  let units := 'B'
  let (tx_bytes_diff, units) :=
    if 999999999 < tx_bytes_diff then (tx_bytes_diff.tdiv (1024 * 1024 * 1024), 'M')
    else if 999999 < tx_bytes_diff then (tx_bytes_diff.tdiv (1024 * 1024), 'M')
    else if 999 < tx_bytes_diff then (tx_bytes_diff.tdiv 1024, 'K')
    else (tx_bytes_diff, units)
  sprintf 10 (printf_d false 3 tx_bytes_diff ++ [units])

/-- The string `net_data_string` of `display_ifdev2_rx_info(rx_bytes_diff, ..)`. -/
def display_ifdev2_rx_info_net_data_string (rx_bytes_diff : Int) : Option String :=
  let units := 'B'
  let (rx_bytes_diff, units) :=
    if 999999999 < rx_bytes_diff then (rx_bytes_diff.tdiv (1024 * 1024 * 1024), 'M')
    else if 999999 < rx_bytes_diff then (rx_bytes_diff.tdiv (1024 * 1024), 'M')
    else if 999 < rx_bytes_diff then (rx_bytes_diff.tdiv 1024, 'K')
    else (rx_bytes_diff, units)
  sprintf 10 (printf_d false 3 rx_bytes_diff ++ [units])

/-- The string `net_data_string` of `display_ifdev2_tx_info(tx_bytes_diff, ..)`. -/
def display_ifdev2_tx_info_net_data_string (tx_bytes_diff : Int) : Option String :=
  let units := 'B'
  let (tx_bytes_diff, units) :=
    if 999999999 < tx_bytes_diff then (tx_bytes_diff.tdiv (1024 * 1024 * 1024), 'M')
    else if 999999 < tx_bytes_diff then (tx_bytes_diff.tdiv (1024 * 1024), 'M')
    else if 999 < tx_bytes_diff then (tx_bytes_diff.tdiv 1024, 'K')
    else (tx_bytes_diff, units)
  sprintf 10 (printf_d false 3 tx_bytes_diff ++ [units])

/-- The byte-rate table as the specification words it: the quotient and the
unit letter for a value `v`, with truncating division. -/
def byte_rate_table (v : Int) : Int × Char :=
  if v < 1000 then (v, 'B')
  else if v < 1000000 then (v.tdiv 1024, 'K')
  else if v < 1000000000 then (v.tdiv 1048576, 'M')
  else (v.tdiv 1073741824, 'M')

/-- The string `uptime_string` (a `char[11]`) that `display_uptime_info` builds
from `uptime = atol(uptime_data_string)` (a `time_t`, 64 bits). `d` and `h` are
`int` variables; the arguments `(uptime / 60)` and `(uptime % 60)` are `long`
and are read by `%02d` as `int`. -/
def display_uptime_info_uptime_string (uptime : Int) : Option String :=
  let d := to_int (uptime.tdiv (24 * 3600))
  let uptime := uptime.tmod (24 * 3600)
  let h := to_int (uptime.tdiv 3600)
  let uptime := uptime.tmod 3600
  if 0 < d then
    sprintf 11 (printf_d false 3 d ++ [':'] ++ printf_d true 2 h ++ [':'] ++
      printf_d true 2 (to_int (uptime.tdiv 60)) ++ ['D'])
  else
    sprintf 11 ([' '] ++ printf_d true 2 h ++ [':'] ++
      printf_d true 2 (to_int (uptime.tdiv 60)) ++ [':'] ++
      printf_d true 2 (to_int (uptime.tmod 60)) ++ ['H'])

/-- The uptime text as the specification words it, for `u` seconds: days,
hours, minutes and seconds, and the two layouts. -/
def uptime_text (u : Int) : String :=
  let d := u / 86400
  let h := (u % 86400) / 3600
  let m := (u % 3600) / 60
  let s := u % 60
  if d > 0 then
    String.mk (printf_d false 3 d ++ [':'] ++ printf_d true 2 h ++ [':'] ++
      printf_d true 2 m ++ ['D'])
  else
    String.mk ([' '] ++ printf_d true 2 h ++ [':'] ++ printf_d true 2 m ++ [':'] ++
      printf_d true 2 s ++ ['H'])

/-! ## Network counters (`display_net_info`) -/

/-- The globals `rx_ifdev1_bytes`, `tx_ifdev1_bytes`, `rx_ifdev2_bytes`,
`tx_ifdev2_bytes` (`long`): the cumulative counters of the previous sample. -/
structure NetCounters where
  rx_ifdev1_bytes : Int
  tx_ifdev1_bytes : Int
  rx_ifdev2_bytes : Int
  tx_ifdev2_bytes : Int
  deriving DecidableEq, Repr

/-- A line of `/proc/net/dev` as the `strncmp` tests of `display_net_info`
classify it, with the two counters that `atol` reads from it. -/
inductive NetDevLine where
  | ifdev1 (rx_bytes tx_bytes : Int)
  | ifdev2 (rx_bytes tx_bytes : Int)
  | other
  deriving DecidableEq, Repr

/-- A call of one of the four byte-rate display functions, with its argument. -/
inductive NetCall where
  | display_ifdev1_rx_info (rx_bytes_diff : Int)
  | display_ifdev1_tx_info (tx_bytes_diff : Int)
  | display_ifdev2_rx_info (rx_bytes_diff : Int)
  | display_ifdev2_tx_info (tx_bytes_diff : Int)
  deriving DecidableEq, Repr

/-- The string that a call formats for its field; `none` when the call writes
past its `net_data_string`. -/
def NetCall.text : NetCall → Option String
  | .display_ifdev1_rx_info v => display_ifdev1_rx_info_net_data_string v
  | .display_ifdev1_tx_info v => display_ifdev1_tx_info_net_data_string v
  | .display_ifdev2_rx_info v => display_ifdev2_rx_info_net_data_string v
  | .display_ifdev2_tx_info v => display_ifdev2_tx_info_net_data_string v

/-- The body of the `while (fgets(..))` loop of `display_net_info` for one
line: the new counters and the display calls made, in order. The counters and
the differences are `long`. -/
def display_net_info_line (g : NetCounters) : NetDevLine → NetCounters × List NetCall
  | .ifdev1 rx_bytes tx_bytes =>
    let rx_bytes_diff := to_long (rx_bytes - g.rx_ifdev1_bytes)
    let g := { g with rx_ifdev1_bytes := rx_bytes }
    let call1 := NetCall.display_ifdev1_rx_info rx_bytes_diff
    let tx_bytes_diff := to_long (tx_bytes - g.tx_ifdev1_bytes)
    let g := { g with tx_ifdev1_bytes := tx_bytes }
    let call2 := NetCall.display_ifdev1_tx_info tx_bytes_diff
    (g, [call1, call2])
  | .ifdev2 rx_bytes tx_bytes =>
    let rx_bytes_diff := to_long (rx_bytes - g.rx_ifdev2_bytes)
    let g := { g with rx_ifdev2_bytes := rx_bytes }
    let call1 := NetCall.display_ifdev2_rx_info rx_bytes_diff
    let tx_bytes_diff := to_long (tx_bytes - g.tx_ifdev2_bytes)
    let g := { g with tx_ifdev2_bytes := tx_bytes }
    let call2 := NetCall.display_ifdev2_tx_info tx_bytes_diff
    (g, [call1, call2])
  | .other => (g, [])

/-- The function `display_net_info` over the lines of `/proc/net/dev`. -/
def display_net_info (g : NetCounters) (lines : List NetDevLine) : NetCounters × List NetCall :=
  lines.foldl (fun acc line =>
    let step := display_net_info_line acc.1 line
    (step.1, acc.2 ++ step.2)) (g, [])

/-! ## Power / idle state, input watcher and scheduler -/

/-- The state shared by the input watcher and the scheduler: the globals
`last_time` and `update_screen`, and the level last written to the line
`st7789_backlight_pin` (1 = backlight on). -/
structure PowerState where
  last_time : Int
  update_screen : Bool
  backlight : Nat
  deriving DecidableEq, Repr

/-- The power state when the scheduler loop is first entered and no button
was pressed: `update_screen` has its initial value `true`, `gpio_open` has
requested the backlight line with the value 1, and `update_status` has set
`last_time` to the start time `tv_sec`. -/
def initial_power (tv_sec : Int) : PowerState :=
  { last_time := tv_sec, update_screen := true, backlight := 1 }

/-- One pass of the `while (service_running)` loop of
`user_button_read_thread`: `readed_status` is the value returned by
`gpiod_line_get_value(user_button_pin)` and `tv_sec` the time then read. -/
def user_button_read_thread_poll (readed_status : Int) (tv_sec : Int) (p : PowerState) :
    PowerState :=
  if readed_status = 0 then
    { last_time := tv_sec, update_screen := true, backlight := 1 }
  else p

/-- The locals of `update_status` that live across loop iterations. -/
structure SchedulerLocals where
  current_time : Int
  previouse_time : Int
  nanoseconds : Int
  diff : Int
  deriving DecidableEq, Repr

/-- What one scheduler iteration does to the outside, in order. -/
inductive Action where
  | display_time_info
  | display_net_info
  | display_cpu_info
  | display_ram_info
  | display_temp_info
  | display_uptime_info
  | display_fs1_info
  | display_fs2_info
  | backlight (value : Nat)
  | usleep (usec : Int)
  deriving DecidableEq, Repr

/-- The locals as `update_status` sets them before its loop, from the first
clock reading `(tv_sec, tv_nsec)`. -/
def initial_locals (tv_sec tv_nsec : Int) : SchedulerLocals :=
  { current_time := tv_sec, previouse_time := 0, nanoseconds := tv_nsec, diff := 500 }

/-- One iteration of the `while (service_running)` loop of `update_status`.
`update_fs_time` and `sleep_after` are `unsigned int` globals, compared with
differences of `time_t` in 64-bit signed arithmetic. `check_sda`, `check_sdb`
are the filesystem flags, `(tv_sec, tv_nsec)` the clock reading taken after the
field updates. `usleep` carries the value of `1000000 - diff`. -/
def update_status_iteration (update_fs_time sleep_after : Nat) (check_sda check_sdb : Bool)
    (p : PowerState) (l : SchedulerLocals) (tv_sec tv_nsec : Int) :
    PowerState × SchedulerLocals × List Action :=
  let (p1, l1, actions) :=
    if p.update_screen then
      let periodic := [Action.display_time_info, Action.display_net_info,
        Action.display_cpu_info, Action.display_ram_info, Action.display_temp_info,
        Action.display_uptime_info]
      let (l1, fs) :=
        if (update_fs_time : Int) < l.current_time - l.previouse_time then
          ({ l with previouse_time := l.current_time },
            (if check_sda then [Action.display_fs1_info] else []) ++
            (if check_sdb then [Action.display_fs2_info] else []))
        else (l, [])
      if (sleep_after : Int) < l.current_time - p.last_time then
        ({ p with update_screen := false, backlight := 0 }, l1,
          periodic ++ fs ++ [Action.backlight 0])
      else (p, l1, periodic ++ fs)
    else (p, l, [])
  let diff := (((to_int ((tv_nsec - l1.nanoseconds).tdiv 1000)).natAbs : Int) + l1.diff).tdiv 2
  (p1, { l1 with diff := diff, current_time := tv_sec, nanoseconds := tv_nsec },
    actions ++ [Action.usleep (1000000 - diff)])

/-- Successive scheduler iterations, one per clock reading, with no watcher
activity in between. -/
def update_status_run (update_fs_time sleep_after : Nat) (check_sda check_sdb : Bool) :
    PowerState × SchedulerLocals → List (Int × Int) → PowerState × SchedulerLocals
  | state, [] => state
  | state, ts :: rest =>
    let next := update_status_iteration update_fs_time sleep_after check_sda check_sdb
      state.1 state.2 ts.1 ts.2
    update_status_run update_fs_time sleep_after check_sda check_sdb (next.1, next.2.1) rest

/-! ## Display protocol driver: bus, select line and commands -/

def ST7789_SLPOUT : Nat := 0x11
def ST7789_INVON : Nat := 0x21
def ST7789_DISPON : Nat := 0x29
def ST7789_CASET : Nat := 0x2A
def ST7789_RASET : Nat := 0x2B
def ST7789_RAMWR : Nat := 0x2C
def ST7789_MADCTL : Nat := 0x36
def ST7789_COLMOD : Nat := 0x3A
def ST7789_PORCTRL : Nat := 0xB2
def ST7789_GCTRL : Nat := 0xB7
def ST7789_VCOMS : Nat := 0xBB
def ST7789_LCMCTRL : Nat := 0xC0
def ST7789_VDVVRHEN : Nat := 0xC2
def ST7789_VRHS : Nat := 0xC3
def ST7789_VDVS : Nat := 0xC4
def ST7789_FRCTRL2 : Nat := 0xC6
def ST7789_PWCTRL1 : Nat := 0xD0
def ST7789_PVGAMCTRL : Nat := 0xE0
def ST7789_NVGAMCTRL : Nat := 0xE1
def ST7789_MADCTL_MY : Nat := 0x80
def ST7789_MADCTL_MV : Nat := 0x20

/-- The macro `ST7789_LANDSCAPE_ROT180`, `ST7789_MADCTL_MY | ST7789_MADCTL_MV`;
its only use is as a whole initializer, so the missing parentheses do not
matter. -/
def ST7789_LANDSCAPE_ROT180 : Nat := ST7789_MADCTL_MY ||| ST7789_MADCTL_MV

/-- What `spi_transfer` is asked to send: the bytes found at a pointer to a
command or parameter array, or `len` bytes of a pixel buffer starting at the
byte offset `offset`. -/
inductive Payload where
  | bytes (data : List Nat)
  | pixels (offset len : Nat)
  deriving DecidableEq, Repr

/-- The system and library calls of the display driver that can fail. -/
inductive BusOp where
  | open_spi_device
  | ioctl_wr_mode
  | ioctl_wr_bits_per_word
  | ioctl_wr_max_speed_hz
  | set_reset_pin (value : Nat)
  | set_data_pin (value : Nat)
  | spi_transfer (payload : Payload)
  deriving DecidableEq, Repr

/-- One attempted call: the call, whether it succeeded, and the level of the
data/command select line `st7789_data_pin` while it was made. -/
structure BusEvent where
  op : BusOp
  ok : Bool
  data_pin : Nat
  deriving DecidableEq, Repr

/-- The outside world of the driver. `failing k` tells whether the call made
when `k` calls are already in the trace fails, so every pattern of failures is
some `failing`. `data_pin` is the level of the select line: the value of the
last successful `gpiod_line_set_value(st7789_data_pin, ..)`. -/
structure Bus where
  failing : Nat → Bool
  data_pin : Nat
  trace : List BusEvent

/-- The world after `gpio_open`, which requests the data line with the
value 1, for a given pattern of failures. -/
def Bus.start (failing : Nat → Bool) : Bus :=
  { failing := failing, data_pin := 1, trace := [] }

/-- Attempt one call: it is appended to the trace, and a successful
`set_data_pin` changes the level of the select line. -/
def Bus.attempt (bus : Bus) (op : BusOp) : Bool × Bus :=
  let ok := !(bus.failing bus.trace.length)
  (ok,
    { bus with
      data_pin :=
        match op with
        | BusOp.set_data_pin value => if ok then value else bus.data_pin
        | _ => bus.data_pin
      trace := bus.trace ++ [{ op := op, ok := ok, data_pin := bus.data_pin }] })

/-- The function `spi_transfer(data, data_size)`: one `ioctl` transfer;
0 on success and -1 on failure. -/
def spi_transfer (payload : Payload) (bus : Bus) : Int × Bus :=
  let a := bus.attempt (BusOp.spi_transfer payload)
  if a.1 = false then (-1, a.2) else (0, a.2)

/-- The function `spi_write_register(instruction, data, data_size)`; `data` is
`none` for a `NULL` pointer, and the parameter transfer sends the first
`data_size` bytes of `data`. -/
def spi_write_register (instruction : Nat) (data : Option (List Nat)) (data_size : Nat)
    (bus : Bus) : Int × Bus :=
  let a := bus.attempt (BusOp.set_data_pin 0)
  if a.1 = false then (-1, a.2)
  else
    let b := spi_transfer (Payload.bytes [instruction]) a.2
    if b.1 < 0 then (-1, b.2)
    else
      let c := b.2.attempt (BusOp.set_data_pin 1)
      if c.1 = false then (-1, c.2)
      else
        match data with
        | some bytes =>
          if data_size ≠ 0 then
            let d := spi_transfer (Payload.bytes (bytes.take data_size)) c.2
            if d.1 < 0 then (-1, d.2) else (0, d.2)
          else (0, c.2)
        | none => (0, c.2)

/-- The sixteen statements `result += spi_write_register(..)` of
`lcd_screen_open`, in order: the command, the parameter array (with the
contents of its initializer) and its `sizeof`. -/
def lcd_screen_open_commands : List (Nat × Option (List Nat) × Nat) := [
  (ST7789_SLPOUT, none, 0),
  (ST7789_COLMOD, some [0x05], 1),
  (ST7789_PORCTRL, some [0x0C, 0x0C, 0x00, 0x33, 0x33], 5),
  (ST7789_GCTRL, some [0x35], 1),
  (ST7789_VCOMS, some [0x19], 1),
  (ST7789_LCMCTRL, some [0x2C], 1),
  (ST7789_VDVVRHEN, some [0x01, 0xFF], 2),
  (ST7789_VRHS, some [0x12], 1),
  (ST7789_VDVS, some [0x20], 1),
  (ST7789_FRCTRL2, some [0x0F], 1),
  (ST7789_PWCTRL1, some [0xA4, 0xA1], 2),
  (ST7789_PVGAMCTRL, some [0xD0, 0x04, 0x0D, 0x11, 0x13, 0x2B, 0x3F, 0x54, 0x4C, 0x18, 0x0D,
    0x0B, 0x1F, 0x23], 14),
  (ST7789_NVGAMCTRL, some [0xD0, 0x04, 0x0C, 0x11, 0x13, 0x2C, 0x3F, 0x44, 0x51, 0x2F, 0x1F,
    0x1F, 0x20, 0x23], 14),
  (ST7789_INVON, some [0x0E], 1),
  (ST7789_DISPON, some [0x00], 1),
  (ST7789_MADCTL, some [uint8 ST7789_LANDSCAPE_ROT180], 1)]

/-- A run of statements `result += spi_write_register(..)`, one per list
entry, from the running `result` and world. -/
def write_registers (commands : List (Nat × Option (List Nat) × Nat)) (s : Int × Bus) :
    Int × Bus :=
  commands.foldl (fun s command =>
    let r := spi_write_register command.1 command.2.1 command.2.2 s.2
    (s.1 + r.1, r.2)) s

/-- The function `lcd_screen_open`: open the device, four `ioctl` settings
(the maximum speed is set twice), the reset pulse, then the sixteen
configuration commands. The two `usleep(120000)` calls are not shown. -/
def lcd_screen_open (bus : Bus) : Int × Bus :=
  let result : Int := 0
  let a := bus.attempt BusOp.open_spi_device
  if a.1 = false then (-1, a.2)
  else
    let b := a.2.attempt BusOp.ioctl_wr_mode
    if b.1 = false then (-1, b.2)
    else
      let c := b.2.attempt BusOp.ioctl_wr_bits_per_word
      if c.1 = false then (-1, c.2)
      else
        let d := c.2.attempt BusOp.ioctl_wr_max_speed_hz
        if d.1 = false then (-1, d.2)
        else
          let e := d.2.attempt BusOp.ioctl_wr_max_speed_hz
          if e.1 = false then (-1, e.2)
          else
            let f := e.2.attempt (BusOp.set_reset_pin 0)
            if f.1 = false then (-1, f.2)
            else
              let g := f.2.attempt (BusOp.set_reset_pin 1)
              if g.1 = false then (-1, g.2)
              else write_registers lcd_screen_open_commands (result, g.2)

/-- The bus part of `write_text_to_display`, from
`result += spi_write_register(ST7789_CASET, caset, 4)` to `return result`.
`none` when the fuel of the streaming loop runs out. -/
def write_text_to_display_bus (data_size : Nat) (caset raset : List Nat) (fuel : Nat)
    (bus : Bus) : Option (Int × Bus) :=
  let result : Int := 0
  let s1 := spi_write_register ST7789_CASET (some caset) 4 bus
  let result := result + s1.1
  let s2 := spi_write_register ST7789_RASET (some raset) 4 s1.2
  let result := result + s2.1
  let s3 := spi_write_register ST7789_RAMWR none 0 s2.2
  let result := result + s3.1
  pixel_stream_loop (fun offset len (s : Int × Bus) =>
    let t := spi_transfer (Payload.pixels offset len) s.2
    (s.1 + t.1, t.2)) data_size fuel 0 (result, s3.2)

/-- The function `write_text_to_display(buffer, data_size, text, text_lenght,
text_color, window_color, caset, raset)`: the rasterizing loops, then the bus
part. The result is the return value, the buffer and the world. -/
def write_text_to_display (buffer : Buffer) (data_size : Nat) (text : Nat → Int)
    (text_lenght text_color window_color : Nat) (caset raset : List Nat) (fuel : Nat)
    (bus : Bus) : Option (Int × Buffer × Bus) :=
  match write_text_to_display_raster buffer data_size text text_lenght text_color
      window_color with
  | none => none
  | some buffer1 =>
    match write_text_to_display_bus data_size caset raset fuel bus with
    | none => none
    | some r => some (r.1, buffer1, r.2)

/-- The loop `for (uint16_t index = 0; index < 40; index++)
result += spi_transfer((uint8_t*)(buffer)+(index * 1920 * 2), 1920 * 2);` of
`flush_buffer`, entered with `rem = 40 - index`. -/
def flush_buffer_loop : Nat → Nat → Int × Bus → Int × Bus
  | 0, _, s => s
  | rem + 1, index, s =>
    let t := spi_transfer (Payload.pixels (index * 1920 * 2) (1920 * 2)) s.2
    flush_buffer_loop rem (index + 1) (s.1 + t.1, t.2)

/-- The function `flush_buffer(buffer)`: the window commands for the whole
screen, the memory-write command and the forty transfers. -/
def flush_buffer (bus : Bus) : Int × Bus :=
  let result : Int := 0
  let s1 := spi_write_register ST7789_CASET (some flush_buffer_caset) 4 bus
  let result := result + s1.1
  let s2 := spi_write_register ST7789_RASET (some flush_buffer_raset) 4 s1.2
  let result := result + s2.1
  let s3 := spi_write_register ST7789_RAMWR none 0 s2.2
  let result := result + s3.1
  flush_buffer_loop 40 0 (result, s3.2)

/-! ## Field updates (`display_*_info`) -/

/-- The characters of a `char` array into which `sprintf` has written `s`:
the characters of `s`, then the terminating 0. The array elements after the
terminator are indeterminate; they are shown as 0, which lies outside the
glyph table. -/
def c_string (s : String) : Nat → Int :=
  fun i =>
    match s.toList.get? i with
    | some c => (c.toNat : Int)
    | none => 0

/-- The string `cpu_string` (a `char[10]`) of `display_cpu_info`, built with
`sprintf(cpu_string, "%3d%%", (int)(atof(cpu_avg_string) * 100 / 4))`; `percent`
is the `int` value of the floating-point expression. -/
def display_cpu_info_cpu_string (percent : Int) : Option String :=
  sprintf 10 (printf_d false 3 percent ++ ['%'])

/-- The string `ram_string` (a `char[10]`) of `display_ram_info`, built with
`sprintf(ram_string, "%3d%%", (int)(100 - (atol(free_ram) * 100 / atol(total_ram))))`
from the two numbers read from `/proc/meminfo`; the arithmetic is `long`, so
the product and the difference wrap. `none` for a division by zero. -/
def display_ram_info_ram_string (total_ram free_ram : Int) : Option String :=
  if total_ram = 0 then none
  else sprintf 10 (printf_d false 3
    (to_int (to_long (100 - (to_long (free_ram * 100)).tdiv total_ram))) ++ ['%'])

/-- The string `fs1_string` (a `char[10]`) of `display_fs1_info`, built with
`sprintf(fs1_string, "%3d%%", ((stat.f_blocks - stat.f_bfree) * 100 / stat.f_blocks))`.
The fields are `fsblkcnt_t`, an unsigned 64-bit type, so the difference and
the product are taken modulo `2^64`; `%3d` reads the quotient as an `int`.
`none` for a division by zero. -/
def display_fs1_info_fs1_string (f_blocks f_bfree : Nat) : Option String :=
  if f_blocks = 0 then none
  else sprintf 10 (printf_d false 3 (to_int
    (((f_blocks + 18446744073709551616 - f_bfree) % 18446744073709551616 * 100)
      % 18446744073709551616 / f_blocks : Nat)) ++ ['%'])

/-- The string `fs2_string` of `display_fs2_info`, built like `fs1_string`. -/
def display_fs2_info_fs2_string (f_blocks f_bfree : Nat) : Option String :=
  if f_blocks = 0 then none
  else sprintf 10 (printf_d false 3 (to_int
    (((f_blocks + 18446744073709551616 - f_bfree) % 18446744073709551616 * 100)
      % 18446744073709551616 / f_blocks : Nat)) ++ ['%'])

/-- The percent texts as the specification words them: the integer `q`
right-justified in width 3, followed by the percent sign. -/
def percent_text (q : Int) : String :=
  String.mk (printf_d false 3 q ++ ['%'])

/-- The function `display_time_info`. `current_time` is the value of
`time(NULL)` and `time_string` the array filled by `strftime`; `buffer` is the
function's static buffer. The statement
`result + write_text_to_display(..);` computes a sum and drops it. -/
def display_time_info (current_time : Int) (time_string : Nat → Int) (buffer : Buffer)
    (text_color window_color : Nat) (fuel : Nat) (bus : Bus) : Option (Int × Buffer × Bus) :=
  let result : Int := 0
  if 0 < current_time then
    match write_text_to_display buffer (FONT_HEIGHT * TIME_DATA_WIDTH) time_string
        TIME_DATA_LENGHT text_color window_color display_time_info_caset
        display_time_info_raset fuel bus with
    | none => none
    | some w =>
      let _sum := result + w.1
      some (result, w.2.1, w.2.2)
  else some (result, buffer, bus)

/-- The function `display_ifdev1_rx_info`. -/
def display_ifdev1_rx_info (rx_bytes_diff : Int) (buffer : Buffer)
    (text_color window_color : Nat) (fuel : Nat) (bus : Bus) : Option (Int × Buffer × Bus) :=
  let result : Int := 0
  match display_ifdev1_rx_info_net_data_string rx_bytes_diff with
  | none => none
  | some net_data_string =>
    match write_text_to_display buffer (FONT_HEIGHT * NET_DATA_WIDTH)
        (c_string net_data_string)
        NET_DATA_LENGHT text_color window_color display_ifdev1_rx_info_caset
        display_ifdev1_rx_info_raset fuel bus with
    | none => none
    | some w =>
      let _sum := result + w.1
      some (result, w.2.1, w.2.2)

/-- The function `display_ifdev1_tx_info`. -/
def display_ifdev1_tx_info (tx_bytes_diff : Int) (buffer : Buffer)
    (text_color window_color : Nat) (fuel : Nat) (bus : Bus) : Option (Int × Buffer × Bus) :=
  let result : Int := 0
  match display_ifdev1_tx_info_net_data_string tx_bytes_diff with
  | none => none
  | some net_data_string =>
    match write_text_to_display buffer (FONT_HEIGHT * NET_DATA_WIDTH)
        (c_string net_data_string)
        NET_DATA_LENGHT text_color window_color display_ifdev1_tx_info_caset
        display_ifdev1_tx_info_raset fuel bus with
    | none => none
    | some w =>
      let _sum := result + w.1
      some (result, w.2.1, w.2.2)

/-- The function `display_ifdev2_rx_info`. -/
def display_ifdev2_rx_info (rx_bytes_diff : Int) (buffer : Buffer)
    (text_color window_color : Nat) (fuel : Nat) (bus : Bus) : Option (Int × Buffer × Bus) :=
  let result : Int := 0
  match display_ifdev2_rx_info_net_data_string rx_bytes_diff with
  | none => none
  | some net_data_string =>
    match write_text_to_display buffer (FONT_HEIGHT * NET_DATA_WIDTH)
        (c_string net_data_string)
        NET_DATA_LENGHT text_color window_color display_ifdev2_rx_info_caset
        display_ifdev2_rx_info_raset fuel bus with
    | none => none
    | some w =>
      let _sum := result + w.1
      some (result, w.2.1, w.2.2)

/-- The function `display_ifdev2_tx_info`. -/
def display_ifdev2_tx_info (tx_bytes_diff : Int) (buffer : Buffer)
    (text_color window_color : Nat) (fuel : Nat) (bus : Bus) : Option (Int × Buffer × Bus) :=
  let result : Int := 0
  match display_ifdev2_tx_info_net_data_string tx_bytes_diff with
  | none => none
  | some net_data_string =>
    match write_text_to_display buffer (FONT_HEIGHT * NET_DATA_WIDTH)
        (c_string net_data_string)
        NET_DATA_LENGHT text_color window_color display_ifdev2_tx_info_caset
        display_ifdev2_tx_info_raset fuel bus with
    | none => none
    | some w =>
      let _sum := result + w.1
      some (result, w.2.1, w.2.2)

/-- The function `display_cpu_info`. `loadavg` is `none` when `/proc/loadavg`
cannot be opened or read, else the `int` percent computed from it. -/
def display_cpu_info (loadavg : Option Int) (buffer : Buffer)
    (text_color window_color : Nat) (fuel : Nat) (bus : Bus) : Option (Int × Buffer × Bus) :=
  let result : Int := 0
  match loadavg with
  | none => some (result, buffer, bus)
  | some percent =>
    match display_cpu_info_cpu_string percent with
    | none => none
    | some cpu_string =>
      match write_text_to_display buffer (FONT_HEIGHT * CPU_DATA_WIDTH) (c_string cpu_string)
          CPU_DATA_LENGHT text_color window_color display_cpu_info_caset
          display_cpu_info_raset fuel bus with
      | none => none
      | some w =>
        let _sum := result + w.1
        some (result, w.2.1, w.2.2)

/-- The function `display_ram_info`. `meminfo` is `none` when `/proc/meminfo`
cannot be opened or read, else the numbers `atol(total_ram)` and
`atol(free_ram)` of its first and third line. -/
def display_ram_info (meminfo : Option (Int × Int)) (buffer : Buffer)
    (text_color window_color : Nat) (fuel : Nat) (bus : Bus) : Option (Int × Buffer × Bus) :=
  let result : Int := 0
  match meminfo with
  | none => some (result, buffer, bus)
  | some m =>
    match display_ram_info_ram_string m.1 m.2 with
    | none => none
    | some ram_string =>
      match write_text_to_display buffer (FONT_HEIGHT * RAM_DATA_WIDTH) (c_string ram_string)
          RAM_DATA_LENGHT text_color window_color display_ram_info_caset
          display_ram_info_raset fuel bus with
      | none => none
      | some w =>
        let _sum := result + w.1
        some (result, w.2.1, w.2.2)

/-- The function `display_temp_info`. `temp_string` is `none` when the thermal
zone file cannot be opened or read, else the array filled by `fgets`. -/
def display_temp_info (temp_string : Option (Nat → Int)) (buffer : Buffer)
    (text_color window_color : Nat) (fuel : Nat) (bus : Bus) : Option (Int × Buffer × Bus) :=
  let result : Int := 0
  match temp_string with
  | none => some (result, buffer, bus)
  | some text =>
    match write_text_to_display buffer (FONT_HEIGHT * TEMP_DATA_WIDTH) text
        TEMP_DATA_LENGHT text_color window_color display_temp_info_caset
        display_temp_info_raset fuel bus with
    | none => none
    | some w =>
      let _sum := result + w.1
      some (result, w.2.1, w.2.2)

/-- The function `display_uptime_info`. `uptime` is `none` when `/proc/uptime`
cannot be opened or read, else `atol(uptime_data_string)`. -/
def display_uptime_info (uptime : Option Int) (buffer : Buffer)
    (text_color window_color : Nat) (fuel : Nat) (bus : Bus) : Option (Int × Buffer × Bus) :=
  let result : Int := 0
  match uptime with
  | none => some (result, buffer, bus)
  | some seconds =>
    match display_uptime_info_uptime_string seconds with
    | none => none
    | some uptime_string =>
      match write_text_to_display buffer (FONT_HEIGHT * UPT_DATA_WIDTH)
          (c_string uptime_string)
          UPT_DATA_LENGHT text_color window_color display_uptime_info_caset
          display_uptime_info_raset fuel bus with
      | none => none
      | some w =>
        let _sum := result + w.1
        some (result, w.2.1, w.2.2)

/-- The function `display_fs1_info`. `stat` is `none` when `statvfs` fails,
else the fields `f_blocks` and `f_bfree`. -/
def display_fs1_info (stat : Option (Nat × Nat)) (buffer : Buffer)
    (text_color window_color : Nat) (fuel : Nat) (bus : Bus) : Option (Int × Buffer × Bus) :=
  let result : Int := 0
  match stat with
  | none => some (result, buffer, bus)
  | some st =>
    match display_fs1_info_fs1_string st.1 st.2 with
    | none => none
    | some fs1_string =>
      match write_text_to_display buffer (FONT_HEIGHT * FS1_DATA_WIDTH) (c_string fs1_string)
          FS1_DATA_LENGHT text_color window_color display_fs1_info_caset
          display_fs1_info_raset fuel bus with
      | none => none
      | some w =>
        let _sum := result + w.1
        some (result, w.2.1, w.2.2)

/-- The function `display_fs2_info`. -/
def display_fs2_info (stat : Option (Nat × Nat)) (buffer : Buffer)
    (text_color window_color : Nat) (fuel : Nat) (bus : Bus) : Option (Int × Buffer × Bus) :=
  let result : Int := 0
  match stat with
  | none => some (result, buffer, bus)
  | some st =>
    match display_fs2_info_fs2_string st.1 st.2 with
    | none => none
    | some fs2_string =>
      match write_text_to_display buffer (FONT_HEIGHT * FS2_DATA_WIDTH) (c_string fs2_string)
          FS2_DATA_LENGHT text_color window_color display_fs2_info_caset
          display_fs2_info_raset fuel bus with
      | none => none
      | some w =>
        let _sum := result + w.1
        some (result, w.2.1, w.2.2)

/-- The write that a field update performs: the region it addresses, the
length of its static buffer `uint16_t buffer[..]`, and the arguments
`data_size` and `text_lenght` of its call of `write_text_to_display`. -/
structure FieldCall where
  region : Region
  buffer_length : Nat
  data_size : Nat
  text_lenght : Nat

/-- The writes of the eleven field updates, in the order of `field_regions`:
each buffer is declared with `FONT_HEIGHT * .._DATA_WIDTH` elements and each
call passes `FONT_HEIGHT * .._DATA_WIDTH` and `.._DATA_LENGHT`. -/
def field_calls : List FieldCall := [
  ⟨⟨TIME_DATA_X1, TIME_DATA_Y1, TIME_DATA_X2, TIME_DATA_Y2,
    display_time_info_caset, display_time_info_raset⟩,
    FONT_HEIGHT * TIME_DATA_WIDTH, FONT_HEIGHT * TIME_DATA_WIDTH, TIME_DATA_LENGHT⟩,
  ⟨⟨IFDEV1_RX_DATA_X1, IFDEV1_RX_DATA_Y1, IFDEV1_RX_DATA_X2, IFDEV1_RX_DATA_Y2,
    display_ifdev1_rx_info_caset, display_ifdev1_rx_info_raset⟩,
    FONT_HEIGHT * NET_DATA_WIDTH, FONT_HEIGHT * NET_DATA_WIDTH, NET_DATA_LENGHT⟩,
  ⟨⟨IFDEV1_TX_DATA_X1, IFDEV1_TX_DATA_Y1, IFDEV1_TX_DATA_X2, IFDEV1_TX_DATA_Y2,
    display_ifdev1_tx_info_caset, display_ifdev1_tx_info_raset⟩,
    FONT_HEIGHT * NET_DATA_WIDTH, FONT_HEIGHT * NET_DATA_WIDTH, NET_DATA_LENGHT⟩,
  ⟨⟨IFDEV2_RX_DATA_X1, IFDEV2_RX_DATA_Y1, IFDEV2_RX_DATA_X2, IFDEV2_RX_DATA_Y2,
    display_ifdev2_rx_info_caset, display_ifdev2_rx_info_raset⟩,
    FONT_HEIGHT * NET_DATA_WIDTH, FONT_HEIGHT * NET_DATA_WIDTH, NET_DATA_LENGHT⟩,
  ⟨⟨IFDEV2_TX_DATA_X1, IFDEV2_TX_DATA_Y1, IFDEV2_TX_DATA_X2, IFDEV2_TX_DATA_Y2,
    display_ifdev2_tx_info_caset, display_ifdev2_tx_info_raset⟩,
    FONT_HEIGHT * NET_DATA_WIDTH, FONT_HEIGHT * NET_DATA_WIDTH, NET_DATA_LENGHT⟩,
  ⟨⟨CPU_DATA_X1, CPU_DATA_Y1, CPU_DATA_X2, CPU_DATA_Y2,
    display_cpu_info_caset, display_cpu_info_raset⟩,
    FONT_HEIGHT * CPU_DATA_WIDTH, FONT_HEIGHT * CPU_DATA_WIDTH, CPU_DATA_LENGHT⟩,
  ⟨⟨RAM_DATA_X1, RAM_DATA_Y1, RAM_DATA_X2, RAM_DATA_Y2,
    display_ram_info_caset, display_ram_info_raset⟩,
    FONT_HEIGHT * RAM_DATA_WIDTH, FONT_HEIGHT * RAM_DATA_WIDTH, RAM_DATA_LENGHT⟩,
  ⟨⟨TEMP_DATA_X1, TEMP_DATA_Y1, TEMP_DATA_X2, TEMP_DATA_Y2,
    display_temp_info_caset, display_temp_info_raset⟩,
    FONT_HEIGHT * TEMP_DATA_WIDTH, FONT_HEIGHT * TEMP_DATA_WIDTH, TEMP_DATA_LENGHT⟩,
  ⟨⟨UPT_DATA_X1, UPT_DATA_Y1, UPT_DATA_X2, UPT_DATA_Y2,
    display_uptime_info_caset, display_uptime_info_raset⟩,
    FONT_HEIGHT * UPT_DATA_WIDTH, FONT_HEIGHT * UPT_DATA_WIDTH, UPT_DATA_LENGHT⟩,
  ⟨⟨FS1_DATA_X1, FS1_DATA_Y1, FS1_DATA_X2, FS1_DATA_Y2,
    display_fs1_info_caset, display_fs1_info_raset⟩,
    FONT_HEIGHT * FS1_DATA_WIDTH, FONT_HEIGHT * FS1_DATA_WIDTH, FS1_DATA_LENGHT⟩,
  ⟨⟨FS2_DATA_X1, FS2_DATA_Y1, FS2_DATA_X2, FS2_DATA_Y2,
    display_fs2_info_caset, display_fs2_info_raset⟩,
    FONT_HEIGHT * FS2_DATA_WIDTH, FONT_HEIGHT * FS2_DATA_WIDTH, FS2_DATA_LENGHT⟩]

/-! ## Full framebuffer and drawing primitives -/

/-- The array `uint16_t buffer[SCREEN_HEIGHT][SCREEN_WIDTH]` of
`display_fixed_info`, reached through `uint16_t buffer[][SCREEN_WIDTH]`: row
and column to pixel value. -/
abbrev Frame := Nat → Nat → Nat

/-- The store `buffer[row][col] = val`: `none` when the row or the column lies
outside the array. -/
def Frame.store (buffer : Frame) (row col val : Nat) : Option Frame :=
  if row < SCREEN_HEIGHT ∧ col < SCREEN_WIDTH then
    some (fun r c => if r = row ∧ c = col then val else buffer r c)
  else none

/-- Conversion of an `int` value to `uint16_t`, as for an argument passed to a
`uint16_t` parameter. -/
def uint16 (x : Int) : Nat := (x % 65536).toNat

/-- The loop `for (int i = x1; i < x2; i++) buffer[y][i] = color;` of
`buffer_write_h_line`, entered with `rem = x2 - i` passes still to go. -/
def buffer_write_h_line_loop (x2 y color : Nat) : Nat → Nat → Frame → Option Frame
  | 0, _, buffer => some buffer
  | rem + 1, i, buffer =>
    if i < x2 then
      match buffer.store y i color with
      | none => none
      | some buffer1 => buffer_write_h_line_loop x2 y color rem (i + 1) buffer1
    else some buffer

/-- The function `buffer_write_h_line(buffer, x1, x2, y, color)`. -/
def buffer_write_h_line (buffer : Frame) (x1 x2 y color : Nat) : Option Frame :=
  buffer_write_h_line_loop x2 y color (x2 - x1) x1 buffer

/-- The loop `for (int j = y + 4; j < y + h - 4; j++)
buffer_write_h_line(buffer, x, x + w, j, color);` of `buffer_write_rectangle`,
entered with `rem` passes still to go. `j` and the bound are `int`. -/
def buffer_write_rectangle_loop (x y w h color : Nat) : Nat → Int → Frame → Option Frame
  | 0, _, buffer => some buffer
  | rem + 1, j, buffer =>
    if j < (y : Int) + h - 4 then
      match buffer_write_h_line buffer x (uint16 ((x : Int) + w)) (uint16 j) color with
      | none => none
      | some buffer1 => buffer_write_rectangle_loop x y w h color rem (j + 1) buffer1
    else some buffer

/-- The function `buffer_write_rectangle(buffer, x, y, w, h, color)`. The
arguments of the calls are computed in `int` and converted to `uint16_t`. -/
def buffer_write_rectangle (buffer : Frame) (x y w h color : Nat) : Option Frame := do
  let b1 ← buffer_write_h_line buffer (uint16 ((x : Int) + 4)) (uint16 ((x : Int) + w - 4))
    y color
  let b2 ← buffer_write_h_line b1 (uint16 ((x : Int) + 3)) (uint16 ((x : Int) + w - 3))
    (uint16 ((y : Int) + 1)) color
  let b3 ← buffer_write_h_line b2 (uint16 ((x : Int) + 2)) (uint16 ((x : Int) + w - 2))
    (uint16 ((y : Int) + 2)) color
  let b4 ← buffer_write_h_line b3 (uint16 ((x : Int) + 1)) (uint16 ((x : Int) + w - 1))
    (uint16 ((y : Int) + 3)) color
  let b5 ← buffer_write_rectangle_loop x y w h color
    (((y : Int) + h - 4) - ((y : Int) + 4)).toNat ((y : Int) + 4) b4
  let b6 ← buffer_write_h_line b5 (uint16 ((x : Int) + 1)) (uint16 ((x : Int) + w - 1))
    (uint16 ((y : Int) + h - 4)) color
  let b7 ← buffer_write_h_line b6 (uint16 ((x : Int) + 2)) (uint16 ((x : Int) + w - 2))
    (uint16 ((y : Int) + h - 3)) color
  let b8 ← buffer_write_h_line b7 (uint16 ((x : Int) + 3)) (uint16 ((x : Int) + w - 3))
    (uint16 ((y : Int) + h - 2)) color
  buffer_write_h_line b8 (uint16 ((x : Int) + 4)) (uint16 ((x : Int) + w - 4))
    (uint16 ((y : Int) + h - 1)) color

/-- The corner inset of `buffer_write_rectangle` as the specification words it,
for row `t` of a rectangle of height `h`: 4, 3, 2, 1 on the first four rows,
1, 2, 3, 4 on the last four, 0 in between. -/
def rectangle_inset (h t : Nat) : Nat :=
  if t < 4 then 4 - t else if t + 4 < h then 0 else t + 5 - h

/-- The pixel set of a rounded rectangle as the specification words it: row
`y + t` with `t < h`, columns from `x + inset(t)` up to `x + w - inset(t)`. -/
def rectangle_pixel (x y w h row col : Nat) : Prop :=
  y ≤ row ∧ row < y + h ∧ x + rectangle_inset h (row - y) ≤ col ∧
    col + rectangle_inset h (row - y) < x + w

instance (x y w h row col : Nat) : Decidable (rectangle_pixel x y w h row col) := by
  unfold rectangle_pixel; infer_instance

/-- The inner loop of `buffer_write_string`,
`for (uint16_t j = 0; j < FONT_WIDTH && (x + j) < SCREEN_WIDTH; j++)
buffer[y + i][x + j] = (char_row << j) & 0x8000 ? text_color : window_color;`,
entered with `rem = FONT_WIDTH - j`; `row` is the value of `y + i`. -/
def buffer_write_string_j (x row char_row text_color window_color : Nat) :
    Nat → Nat → Frame → Option Frame
  | 0, _, buffer => some buffer
  | rem + 1, j, buffer =>
    if x + j < SCREEN_WIDTH then
      match buffer.store row (x + j) (pixel char_row j text_color window_color) with
      | none => none
      | some buffer1 =>
        buffer_write_string_j x row char_row text_color window_color rem (j + 1) buffer1
    else some buffer

/-- The loop `for (uint16_t i = 0; i < FONT_HEIGHT && (y + i) < SCREEN_HEIGHT; i++)`
of `buffer_write_string` for the character `c = *string_ptr`, entered with
`rem = FONT_HEIGHT - i`. Each pass reads `font[c - 31][i]`. -/
def buffer_write_string_i (x y : Nat) (c : Int) (text_color window_color : Nat) :
    Nat → Nat → Frame → Option Frame
  | 0, _, buffer => some buffer
  | rem + 1, i, buffer =>
    if y + i < SCREEN_HEIGHT then
      match font_row c i with
      | none => none
      | some char_row =>
        match buffer_write_string_j x (y + i) char_row text_color window_color FONT_WIDTH 0
            buffer with
        | none => none
        | some buffer1 =>
          buffer_write_string_i x y c text_color window_color rem (i + 1) buffer1
    else some buffer

/-- The function `buffer_write_string(buffer, x, y, string_ptr, text_color,
window_color)`. The string is the list of its characters up to the
terminator: the end of the list, or a 0 in it, ends the `while (*string_ptr)`
loop. `x` is a `uint16_t`, so `x += FONT_WIDTH` is taken modulo 65536. -/
def buffer_write_string (buffer : Frame) (x y : Nat) (string_ptr : List Int)
    (text_color window_color : Nat) : Option Frame :=
  match string_ptr with
  | [] => some buffer
  | c :: rest =>
    if c = 0 then some buffer
    else
      match buffer_write_string_i x y c text_color window_color FONT_HEIGHT 0 buffer with
      | none => none
      | some buffer1 =>
        buffer_write_string buffer1 ((x + FONT_WIDTH) % 65536) y rest text_color window_color

/-- The start column that `display_fixed_info` passes to `buffer_write_string`
for a centred string of `strlen` characters,
`(FONT_WIDTH * MAX_CHARS_IN_LINE / 2) - (FONT_WIDTH * strlen(..) / 2)`.
`MAX_CHARS_IN_LINE` is the macro `SCREEN_WIDTH / FONT_WIDTH` without
parentheses, so the first operand is `FONT_WIDTH * SCREEN_WIDTH / FONT_WIDTH / 2`.
The second operand and the difference are `size_t` (64 bits, unsigned); the
parameter is a `uint16_t`. -/
def display_fixed_info_centred_x (strlen : Nat) : Nat :=
  ((FONT_WIDTH * SCREEN_WIDTH / FONT_WIDTH / 2 + 18446744073709551616
      - (FONT_WIDTH * strlen % 18446744073709551616) / 2) % 18446744073709551616) % 65536

/-- A rectangle `(x, y, w, h)` drawn by `display_fixed_info`. -/
structure Square where
  x : Nat
  y : Nat
  w : Nat
  h : Nat

def SQUARE1_X : Nat := 10
def SQUARE1_Y : Nat := 11
def SQUARE1_W : Nat := 300
def SQUARE1_H : Nat := 46
def SQUARE2_X : Nat := 10
def SQUARE2_Y : Nat := 64
def SQUARE2_W : Nat := 300
def SQUARE2_H : Nat := 90
def SQUARE3_X : Nat := 10
def SQUARE3_Y : Nat := 161
def SQUARE3_W : Nat := 111
def SQUARE3_H : Nat := 68
def SQUARE4_X : Nat := 128
def SQUARE4_Y : Nat := 161
def SQUARE4_W : Nat := 182
def SQUARE4_H : Nat := 68

/-- The rectangles of the four calls `buffer_write_rectangle(buffer, SQUAREn_X,
SQUAREn_Y, SQUAREn_W, SQUAREn_H, window_color)` of `display_fixed_info`. -/
def display_fixed_info_squares : List Square := [
  ⟨SQUARE1_X, SQUARE1_Y, SQUARE1_W, SQUARE1_H⟩,
  ⟨SQUARE2_X, SQUARE2_Y, SQUARE2_W, SQUARE2_H⟩,
  ⟨SQUARE3_X, SQUARE3_Y, SQUARE3_W, SQUARE3_H⟩,
  ⟨SQUARE4_X, SQUARE4_Y, SQUARE4_W, SQUARE4_H⟩]

/-- The four calls `buffer_write_rectangle(buffer, SQUAREn_X, SQUAREn_Y,
SQUAREn_W, SQUAREn_H, window_color)` of `display_fixed_info`, run in order on
the buffer as the background fill left it. -/
def display_fixed_info_rectangles (buffer : Frame) (window_color : Nat) : Option Frame := do
  let b1 ← buffer_write_rectangle buffer SQUARE1_X SQUARE1_Y SQUARE1_W SQUARE1_H window_color
  let b2 ← buffer_write_rectangle b1 SQUARE2_X SQUARE2_Y SQUARE2_W SQUARE2_H window_color
  let b3 ← buffer_write_rectangle b2 SQUARE3_X SQUARE3_Y SQUARE3_W SQUARE3_H window_color
  buffer_write_rectangle b3 SQUARE4_X SQUARE4_Y SQUARE4_W SQUARE4_H window_color

/-- Whether the pixel `(row, col)` lies in the region `[x1, x2) x [y1, y2)`. -/
def Region.contains (region : Region) (row col : Nat) : Prop :=
  region.y1 ≤ row ∧ row < region.y2 ∧ region.x1 ≤ col ∧ col < region.x2

/-! ## Sequential model of the scheduler and the input watcher -/

/-- An atomic step of the sequential model: an iteration of the scheduler loop
with the clock reading it takes, or a pass of the input watcher with the line
value and the time it reads. -/
inductive ModelStep where
  | tick (tv_sec tv_nsec : Int)
  | poll (readed_status tv_sec : Int)
  deriving DecidableEq, Repr

/-- One atomic step on the shared power state and the scheduler's locals. -/
def model_step (update_fs_time sleep_after : Nat) (check_sda check_sdb : Bool)
    (state : PowerState × SchedulerLocals) : ModelStep → PowerState × SchedulerLocals
  | ModelStep.tick tv_sec tv_nsec =>
    let next := update_status_iteration update_fs_time sleep_after check_sda check_sdb
      state.1 state.2 tv_sec tv_nsec
    (next.1, next.2.1)
  | ModelStep.poll readed_status tv_sec =>
    (user_button_read_thread_poll readed_status tv_sec state.1, state.2)

/-- A run of atomic steps, in order. -/
def model_run (update_fs_time sleep_after : Nat) (check_sda check_sdb : Bool)
    (state : PowerState × SchedulerLocals) (steps : List ModelStep) :
    PowerState × SchedulerLocals :=
  steps.foldl (model_step update_fs_time sleep_after check_sda check_sdb) state

/-- The condition under which an iteration of the scheduler loop enters the
filesystem block: `update_screen` and
`update_fs_time < (current_time - previouse_time)`. -/
def fs_refresh_due (update_fs_time : Nat) (state : PowerState × SchedulerLocals) : Prop :=
  state.1.update_screen = true ∧
    (update_fs_time : Int) < state.2.current_time - state.2.previouse_time

instance (update_fs_time : Nat) (state : PowerState × SchedulerLocals) :
    Decidable (fs_refresh_due update_fs_time state) := by
  unfold fs_refresh_due; infer_instance

/-! ## Temperature text -/

/-- The characters that the C library call `fgets(s, size, stream)` stores
before the terminator when `stream` holds these characters next: `rem`
characters at most, the last one a newline if one is met. -/
def fgets_chars : Nat → List Char → List Char
  | 0, _ => []
  | _, [] => []
  | rem + 1, c :: rest => if c = Char.ofNat 10 then [c] else c :: fgets_chars rem rest

/-- The C library call `fgets(s, size, stream)`: at most `size - 1` characters. -/
def fgets (size : Nat) (stream : List Char) : List Char :=
  fgets_chars (size - 1) stream

/-- The text of `/sys/class/thermal/thermal_zone0/temp` for a reading of `m`
millidegrees, as the specification words it: `m` in decimal without leading
zeros; the kernel ends the line with a newline. -/
def thermal_zone0_temp (m : Nat) : List Char :=
  Nat.toDigits 10 m ++ [Char.ofNat 10]

/-- The array `temp_string` of `display_temp_info` after
`fgets(temp_string, 9, filePointer)` for a reading of `m` millidegrees. -/
def display_temp_info_temp_string (m : Nat) : Nat → Int :=
  c_string (String.mk (fgets 9 (thermal_zone0_temp m)))

/-- As the specification words it: the text `s` fills a field of `text_lenght`
glyphs from the glyph table: it has at least `text_lenght` characters and the
first `text_lenght` of them have codes in 31..126. -/
def field_text_in_table (s : String) (text_lenght : Nat) : Prop :=
  text_lenght ≤ s.length ∧ ∀ i, i < text_lenght → 31 ≤ c_string s i ∧ c_string s i ≤ 126

/-! ## Theorems: glyph rasterizer -/

theorem pixel_eq_testBit (char_row k tc wc : Nat) (hk : k ≤ 15) :
    pixel char_row k tc wc = if char_row.testBit (15 - k) then tc else wc := by
  unfold pixel
  have h : (char_row <<< k) &&& 0x8000 = ((char_row <<< k).testBit 15).toNat * 2 ^ 15 := by
    have := Nat.and_two_pow (char_row <<< k) 15
    simpa using this
  rw [h, Nat.testBit_shiftLeft]
  have hd : decide (15 ≥ k) = true := by simpa using hk
  rw [hd]
  cases char_row.testBit (15 - k) <;> simp

theorem raster_k_apply (data_size n i j row tc wc : Nat) :
    ∀ (rem k : Nat) (b : Buffer), i * FONT_WIDTH + (k + rem) ≤ data_size → ∀ p,
      raster_k data_size n i j row tc wc rem k b p =
        if (j * n * FONT_WIDTH + i * FONT_WIDTH) + k ≤ p ∧
            p < (j * n * FONT_WIDTH + i * FONT_WIDTH) + k + rem
        then pixel row (p - (j * n * FONT_WIDTH + i * FONT_WIDTH)) tc wc else b p := by
  intro rem
  induction rem with
  | zero =>
    intro k b _ p
    rw [raster_k, if_neg (by omega)]
  | succ rem ih =>
    intro k b hds p
    have hg : i * FONT_WIDTH + k < data_size := by omega
    rw [raster_k, if_pos hg, ih (k + 1) _ (by omega) p]
    unfold Buffer.store
    by_cases hp : p = j * n * FONT_WIDTH + (i * FONT_WIDTH + k)
    · subst hp
      have e : j * n * FONT_WIDTH + (i * FONT_WIDTH + k) - (j * n * FONT_WIDTH + i * FONT_WIDTH) = k := by omega
      rw [if_neg (by omega), if_pos rfl, if_pos (by omega), e]
    · simp only [if_neg hp]
      by_cases hw : (j * n * FONT_WIDTH + i * FONT_WIDTH) + (k + 1) ≤ p ∧
            p < (j * n * FONT_WIDTH + i * FONT_WIDTH) + (k + 1) + rem
      · rw [if_pos hw, if_pos (by omega)]
      · rw [if_neg hw, if_neg (by omega)]

theorem window_iff (M i j p : Nat) (hi : i * 11 + 11 ≤ M) :
    (j * M + i * 11 ≤ p ∧ p < j * M + i * 11 + 11) ↔ (p / M = j ∧ (p % M) / 11 = i) := by
  have hM : 0 < M := by omega
  constructor
  · rintro ⟨h1, h2⟩
    obtain ⟨s, rfl⟩ : ∃ s, p = s + j * M := ⟨p - j * M, by omega⟩
    have hs : s < M := by omega
    rw [Nat.add_mul_div_right s j hM, Nat.add_mul_mod_self_right, Nat.div_eq_of_lt hs,
      Nat.mod_eq_of_lt hs]
    omega
  · rintro ⟨h1, h2⟩
    have h3 := Nat.div_add_mod p M
    have h4 := Nat.mod_lt p hM
    rw [h1, Nat.mul_comm] at h3
    omega

theorem window_sub (M i j p : Nat) (hi : i * 11 + 11 ≤ M)
    (h : j * M + i * 11 ≤ p ∧ p < j * M + i * 11 + 11) :
    p - (j * M + i * 11) = (p % M) % 11 := by
  have hM : 0 < M := by omega
  obtain ⟨h1, h2⟩ := h
  obtain ⟨s, rfl⟩ : ∃ s, p = s + j * M := ⟨p - j * M, by omega⟩
  have hs : s < M := by omega
  rw [Nat.add_mul_mod_self_right, Nat.mod_eq_of_lt hs]
  omega

theorem font_row_defined (c : Int) (h1 : 31 ≤ c) (h2 : c ≤ 126) (j : Nat) (hj : j < 16) :
    ∃ row, font_row c j = some row := by
  have key : ∀ idx, idx < 96 → ∀ j, j < 16 →
      ((font.get? idx).bind (fun glyph => glyph.get? j)).isSome = true := by decide
  obtain ⟨idx, hidx⟩ : ∃ idx : Nat, c - 31 = (idx : Int) := ⟨(c - 31).toNat, by omega⟩
  have hlt : idx < 96 := by omega
  have := key idx hlt j hj
  unfold font_row
  rw [if_pos (by omega), hidx, Int.toNat_ofNat]
  exact Option.isSome_iff_exists.mp this

theorem raster_j_apply (data_size n i : Nat) (c : Int) (tc wc : Nat) (hi : i < n)
    (hds : n * 11 ≤ data_size) :
    ∀ (rem j : Nat) (b : Buffer),
      (∀ j2, j ≤ j2 → j2 < j + rem → ∃ row, font_row c j2 = some row) →
      ∃ out, raster_j data_size n i c tc wc rem j b = some out ∧
        ∀ p, out p =
          if (j ≤ p / (n * 11) ∧ p / (n * 11) < j + rem) ∧ (p % (n * 11)) / 11 = i
          then pixel ((font_row c (p / (n * 11))).getD 0) ((p % (n * 11)) % 11) tc wc
          else b p := by
  intro rem
  induction rem with
  | zero =>
    intro j b _
    refine ⟨b, rfl, fun p => ?_⟩
    rw [if_neg (by omega)]
  | succ rem ih =>
    intro j b hrows
    obtain ⟨row, hrow⟩ := hrows j (Nat.le_refl j) (by omega)
    obtain ⟨out, hout, hval⟩ := ih (j + 1)
      (raster_k data_size n i j row tc wc FONT_WIDTH 0 b)
      (fun j2 h1 h2 => hrows j2 (by omega) (by omega))
    refine ⟨out, ?_, fun p => ?_⟩
    · rw [raster_j, hrow]
      exact hout
    · rw [hval p, raster_k_apply data_size n i j row tc wc FONT_WIDTH 0 b
        (by simp only [FONT_WIDTH]; omega) p]
      have hw := window_iff (n * 11) i j p (by omega)
      have hs := window_sub (n * 11) i j p (by omega)
      simp only [FONT_WIDTH, Nat.mul_assoc, Nat.add_zero] at hw hs ⊢
      by_cases hwin : j * (n * 11) + i * 11 ≤ p ∧ p < j * (n * 11) + i * 11 + 11
      · have hq := hw.mp hwin
        rw [if_neg (by omega), if_pos hwin, if_pos (by omega), hs hwin, hq.1, hrow]
        rfl
      · rw [if_neg hwin]
        have hnq : ¬ (p / (n * 11) = j ∧ p % (n * 11) / 11 = i) := fun h => hwin (hw.mpr h)
        by_cases hc : (j + 1 ≤ p / (n * 11) ∧ p / (n * 11) < j + 1 + rem) ∧ p % (n * 11) / 11 = i
        · rw [if_pos hc, if_pos (by omega)]
        · rw [if_neg hc, if_neg (by omega)]

theorem raster_i_apply (data_size n : Nat) (text : Nat → Int) (tc wc : Nat)
    (hds : n * 11 ≤ data_size) :
    ∀ (rem i : Nat) (b : Buffer), i + rem ≤ n →
      (∀ i2, i ≤ i2 → i2 < i + rem → ∀ j, j < 16 → ∃ row, font_row (text i2) j = some row) →
      ∃ out, raster_i data_size n text tc wc rem i b = some out ∧
        ∀ p, out p =
          if (i ≤ (p % (n * 11)) / 11 ∧ (p % (n * 11)) / 11 < i + rem) ∧ p / (n * 11) < 16
          then pixel ((font_row (text ((p % (n * 11)) / 11)) (p / (n * 11))).getD 0)
            ((p % (n * 11)) % 11) tc wc
          else b p := by
  intro rem
  induction rem with
  | zero =>
    intro i b _ _
    refine ⟨b, rfl, fun p => ?_⟩
    rw [if_neg (by omega)]
  | succ rem ih =>
    intro i b hle hrows
    obtain ⟨b1, hb1, hval1⟩ := raster_j_apply data_size n i (text i) tc wc (by omega) hds
      FONT_HEIGHT 0 b (fun j2 _ h2 => hrows i (Nat.le_refl i) (by omega) j2
        (by simp only [FONT_HEIGHT] at h2; omega))
    obtain ⟨out, hout, hval⟩ := ih (i + 1) b1 (by omega)
      (fun i2 h1 h2 => hrows i2 (by omega) (by omega))
    refine ⟨out, ?_, fun p => ?_⟩
    · rw [raster_i, hb1]
      exact hout
    · rw [hval p, hval1 p]
      simp only [FONT_HEIGHT]
      generalize p / (n * 11) = q
      generalize p % (n * 11) / 11 = ci
      by_cases hc : ci = i
      · by_cases hq : q < 16
        · rw [if_neg (by omega), if_pos (by omega), if_pos (by omega), hc]
        · rw [if_neg (by omega), if_neg (by omega), if_neg (by omega)]
      · by_cases hc2 : (i + 1 ≤ ci ∧ ci < i + 1 + rem) ∧ q < 16
        · rw [if_pos hc2, if_pos (by omega)]
        · rw [if_neg hc2, if_neg (by omega), if_neg (by omega)]

theorem index_decompose (n r i k : Nat) (hi : i < n) (hk : k < 11) :
    (r * (11 * n) + 11 * i + k) / (n * 11) = r ∧
    (r * (11 * n) + 11 * i + k) % (n * 11) / 11 = i ∧
    (r * (11 * n) + 11 * i + k) % (n * 11) % 11 = k := by
  have hM : 0 < n * 11 := by omega
  have e : r * (11 * n) + 11 * i + k = (11 * i + k) + r * (n * 11) := by ring
  have hs : 11 * i + k < n * 11 := by omega
  rw [e, Nat.add_mul_div_right _ _ hM, Nat.add_mul_mod_self_right, Nat.div_eq_of_lt hs,
    Nat.mod_eq_of_lt hs]
  omega

theorem index_compose (n p : Nat) (hn : 1 ≤ n) :
    p = (p / (n * 11)) * (11 * n) + 11 * (p % (n * 11) / 11) + p % (n * 11) % 11 ∧
    p % (n * 11) / 11 < n ∧ p % (n * 11) % 11 < 11 ∧ (p / (n * 11) < 16 ↔ p < 176 * n) := by
  have hM : 0 < n * 11 := by omega
  have h1 := Nat.div_add_mod p (n * 11)
  have h2 := Nat.mod_lt p hM
  have h3 : p / (n * 11) < 16 ↔ p < 16 * (n * 11) := Nat.div_lt_iff_lt_mul hM
  have e : (p / (n * 11)) * (11 * n) = n * 11 * (p / (n * 11)) := by ring
  rw [e]
  generalize p / (n * 11) = q at *
  generalize p % (n * 11) = s at *
  generalize n * 11 * q = t at *
  omega

theorem raster_closed_form (n : Nat) (hn : 1 ≤ n) (text : Nat → Int)
    (htext : ∀ i, i < n → 31 ≤ text i ∧ text i ≤ 126) (tc wc : Nat) (buffer : Buffer) :
    ∃ out, write_text_to_display_raster buffer (16 * 11 * n) text n tc wc = some out ∧
      ∀ p, out p =
        if p < 176 * n
        then pixel ((font_row (text ((p % (n * 11)) / 11)) (p / (n * 11))).getD 0)
          ((p % (n * 11)) % 11) tc wc
        else buffer p := by
  obtain ⟨out, hout, hval⟩ := raster_i_apply (16 * 11 * n) n text tc wc (by omega) n 0 buffer
    (by omega) (fun i2 _ h2 j hj => font_row_defined (text i2) (htext i2 (by omega)).1
      (htext i2 (by omega)).2 j hj)
  refine ⟨out, hout, fun p => ?_⟩
  rw [hval p]
  obtain ⟨_, h2, _, h4⟩ := index_compose n p hn
  by_cases hp : p < 176 * n
  · rw [if_pos hp, if_pos ⟨⟨Nat.zero_le _, by omega⟩, h4.mpr hp⟩]
  · rw [if_neg hp, if_neg (fun h => hp (h4.mp h.2))]

/-- Claim C1. For a field of `n >= 1` characters whose codes lie in 31..126,
`write_text_to_display` called with `data_size = 16*11*n` rasterizes so that the
pixel at index `r*(11*n) + 11*i + k` (row `r < 16`, character `i < n`, column
`k < 11`) is `text_color` when bit `15-k` of `font[text[i]-31][r]` is set and
`window_color` otherwise; the indices so written are exactly those below
`176*n`, every index from `176*n` on keeps its value, and the first `176*n`
entries do not depend on what the buffer held before. (`text_lenght` is a
`uint8_t`, so calls have `n <= 255`; the statement does not need the bound.) -/
theorem write_text_to_display_fills_buffer (n : Nat) (hn : 1 ≤ n) (text : Nat → Int)
    (htext : ∀ i, i < n → 31 ≤ text i ∧ text i ≤ 126) (text_color window_color : Nat)
    (buffer : Buffer) :
    ∃ out, write_text_to_display_raster buffer (16 * 11 * n) text n text_color window_color
        = some out ∧
      (∀ r i k, r < 16 → i < n → k < 11 → ∃ row, font_row (text i) r = some row ∧
        out (r * (11 * n) + 11 * i + k)
          = if row.testBit (15 - k) then text_color else window_color) ∧
      (∀ p, p < 176 * n → ∃ r i k, r < 16 ∧ i < n ∧ k < 11 ∧ p = r * (11 * n) + 11 * i + k) ∧
      (∀ p, 176 * n ≤ p → out p = buffer p) ∧
      (∀ buffer2 out2,
        write_text_to_display_raster buffer2 (16 * 11 * n) text n text_color window_color
          = some out2 → ∀ p, p < 176 * n → out2 p = out p) := by
  obtain ⟨out, hout, hval⟩ := raster_closed_form n hn text htext text_color window_color buffer
  refine ⟨out, hout, ?_, ?_, ?_, ?_⟩
  · intro r i k hr hi hk
    obtain ⟨row, hrow⟩ := font_row_defined (text i) (htext i hi).1 (htext i hi).2 r hr
    refine ⟨row, hrow, ?_⟩
    obtain ⟨d1, d2, d3⟩ := index_decompose n r i k hi hk
    have hlt : r * (11 * n) + 11 * i + k < 176 * n := by
      have := (index_compose n (r * (11 * n) + 11 * i + k) hn).2.2.2
      rw [d1] at this
      exact this.mp hr
    rw [hval, if_pos hlt, d1, d2, d3, hrow, Option.getD_some, pixel_eq_testBit _ _ _ _ (by omega)]
  · intro p hp
    obtain ⟨h1, h2, h3, h4⟩ := index_compose n p hn
    exact ⟨_, _, _, h4.mpr hp, h2, h3, h1⟩
  · intro p hp
    rw [hval, if_neg (by omega)]
  · intro buffer2 out2 hout2 p hp
    obtain ⟨out3, hout3, hval3⟩ :=
      raster_closed_form n hn text htext text_color window_color buffer2
    rw [hout3] at hout2
    cases hout2
    rw [hval, hval3, if_pos hp, if_pos hp]

theorem write_text_to_display_fills_buffer_witness :
    (∀ i, i < 1 → 31 ≤ (65 : Int) ∧ (65 : Int) ≤ 126) ∧
    ∃ out, write_text_to_display_raster (fun _ => 0) (16 * 11 * 1) (fun _ => 65) 1 0xffff 0x8e11
        = some out ∧
      out (2 * (11 * 1) + 11 * 0 + 3) = 0x8e11 ∧ out (2 * (11 * 1) + 11 * 0 + 4) = 0xffff := by
  refine ⟨fun _ _ => by decide, ?_⟩
  obtain ⟨out, h1, h2, -⟩ := write_text_to_display_fills_buffer 1 (by decide) (fun _ => 65)
    (fun _ _ => ⟨by norm_num, by norm_num⟩) 0xffff 0x8e11 (fun _ => 0)
  have hrow : font_row 65 2 = some 0x0F00 := by decide
  refine ⟨out, h1, ?_, ?_⟩
  · obtain ⟨row, hr, hv⟩ := h2 2 0 3 (by decide) (by decide) (by decide)
    rw [hrow] at hr
    cases hr
    rw [hv]
    decide
  · obtain ⟨row, hr, hv⟩ := h2 2 0 4 (by decide) (by decide) (by decide)
    rw [hrow] at hr
    cases hr
    rw [hv]
    decide

set_option maxRecDepth 20000 in
/-- Row 2 of the glyph `A` (`0x0F00`) as rasterized into a one-glyph field,
computed by running the loops. -/
theorem write_text_to_display_raster_row_of_A :
    (write_text_to_display_raster (fun _ => 0) 176 (fun _ => 65) 1 1 2).map
      (fun out => (List.range 11).map (fun k => out (2 * 11 + k)))
      = some [2, 2, 2, 2, 1, 1, 1, 1, 2, 2, 2] := by
  decide

/-! ## Theorems: text formatting -/

theorem net_data_string_table (v : Int) :
    display_ifdev1_rx_info_net_data_string v
      = sprintf 10 (printf_d false 3 (byte_rate_table v).1 ++ [(byte_rate_table v).2]) := by
  unfold display_ifdev1_rx_info_net_data_string byte_rate_table
  by_cases h1 : 999999999 < v
  · simp [h1, show ¬ v < 1000 by omega, show ¬ v < 1000000 by omega,
      show ¬ v < 1000000000 by omega]
  · by_cases h2 : 999999 < v
    · simp [h1, h2, show ¬ v < 1000 by omega, show ¬ v < 1000000 by omega,
        show v < 1000000000 by omega]
    · by_cases h3 : 999 < v
      · simp [h1, h2, h3, show ¬ v < 1000 by omega, show v < 1000000 by omega]
      · simp [h1, h2, h3, show v < 1000 by omega]

/-- Claim C3 as stated fails: the byte-rate value 1,500,000,000 is not
formatted as "1430M". -/
theorem not_1430M_for_1500000000 :
    display_ifdev1_rx_info_net_data_string 1500000000 ≠ some "1430M" := by decide

/-- Claim C3, amended. The byte-rate value 1,500,000,000 is formatted as
"  1M": the value divided by `1024^3`, which is 1, with the unit letter `M`. -/
theorem byte_rate_of_1500000000 :
    display_ifdev1_rx_info_net_data_string 1500000000 = some "  1M" ∧
    (1500000000 : Int).tdiv (1024 * 1024 * 1024) = 1 := by decide

theorem to_int_of_range (x : Int) (h1 : -2147483648 ≤ x) (h2 : x < 2147483648) : to_int x = x := by
  unfold to_int
  omega

/-! ## Theorems: addressing windows and pixel streaming -/

/-- Claim C5. For each of the eleven volatile field regions and for the
full-screen region, the column-address bytes equal
`[x1>>8, x1&0xff, x2>>8, (x2-1)&0xff]` and decode, as two big-endian 16-bit
numbers, to the start `x1` and the inclusive end `x2-1`; the row-address bytes
likewise decode to `y1` and `y2-1`. The region `x1 = 126`, `x2 = 126+44`
encodes as `[0, 126, 0, 169]`. -/
theorem window_bytes_encode_regions :
    field_regions.length = 11 ∧
    (∀ r ∈ screen_region :: field_regions,
      r.caset = [r.x1 >>> 8, r.x1 &&& 0xff, r.x2 >>> 8, (r.x2 - 1) &&& 0xff] ∧
      big_endian16 (r.caset.getD 0 0) (r.caset.getD 1 0) = r.x1 ∧
      big_endian16 (r.caset.getD 2 0) (r.caset.getD 3 0) = r.x2 - 1 ∧
      r.raset = [r.y1 >>> 8, r.y1 &&& 0xff, r.y2 >>> 8, (r.y2 - 1) &&& 0xff] ∧
      big_endian16 (r.raset.getD 0 0) (r.raset.getD 1 0) = r.y1 ∧
      big_endian16 (r.raset.getD 2 0) (r.raset.getD 3 0) = r.y2 - 1) ∧
    IFDEV1_RX_DATA_X1 = 126 ∧ IFDEV1_RX_DATA_X2 = 126 + 44 ∧
    display_ifdev1_rx_info_caset = [0, 126, 0, 169] := by
  decide

theorem window_bytes_encode_regions_witness :
    screen_region.caset = [0, 0, 1, 63] ∧
    big_endian16 (screen_region.caset.getD 2 0) (screen_region.caset.getD 3 0)
      = screen_region.x2 - 1 :=
  ⟨by decide,
    (window_bytes_encode_regions.2.1 screen_region (List.mem_cons_self _ _)).2.2.1⟩

theorem stream_from (data_size : Nat) (hds : data_size ≤ 30720) :
    ∀ (m k fuel : Nat) (log : List (Nat × Nat)),
      k + m = (2 * data_size + 4095) / 4096 → m < fuel →
      pixel_stream_loop (fun offset len log => log ++ [(offset, len)]) data_size fuel
          (4096 * k) log
        = some (log ++ (List.range' k m).map (fun k =>
            (4096 * k, if data_size * 2 < 4096 * k + 4096 then data_size * 2 - 4096 * k
              else 4096))) := by
  intro m
  induction m with
  | zero =>
    intro k fuel log hk hfuel
    obtain ⟨fuel, rfl⟩ : ∃ f, fuel = f + 1 := ⟨fuel - 1, by omega⟩
    rw [pixel_stream_loop, if_neg (by omega)]
    simp
  | succ m ih =>
    intro k fuel log hk hfuel
    obtain ⟨fuel, rfl⟩ : ∃ f, fuel = f + 1 := ⟨fuel - 1, by omega⟩
    rw [pixel_stream_loop, if_pos (by omega)]
    have hnext : (4096 * k + 4096) % 65536 = 4096 * (k + 1) := by omega
    rw [hnext, ih (k + 1) fuel _ (by omega) (by omega)]
    simp [List.range'_succ]

/-- Claim C6. For `0 <= data_size <= 30720` the pixel-streaming loop of
`write_text_to_display` terminates (any fuel above the count suffices) after
exactly `ceil(2*data_size / 4096)` transfers; transfer `k` starts at byte
offset `4096*k`; every transfer is at most 4096 bytes long, every one but the
last exactly 4096, the last `2*data_size - 4096*(count-1)`; every byte below
`2*data_size` lies in exactly one transfer, and each transfer ends where the
next begins, the last one at `2*data_size`. -/
theorem pixel_stream_loop_chunks (data_size : Nat) (hds : data_size ≤ 30720) :
    (∀ fuel, (2 * data_size + 4095) / 4096 < fuel →
      write_text_to_display_transfers data_size fuel
        = some ((List.range ((2 * data_size + 4095) / 4096)).map (fun k =>
            (4096 * k,
              if k + 1 < (2 * data_size + 4095) / 4096 then 4096
              else 2 * data_size - 4096 * ((2 * data_size + 4095) / 4096 - 1))))) ∧
    (∀ k, k < (2 * data_size + 4095) / 4096 →
      1 ≤ (if k + 1 < (2 * data_size + 4095) / 4096 then 4096
            else 2 * data_size - 4096 * ((2 * data_size + 4095) / 4096 - 1)) ∧
      (if k + 1 < (2 * data_size + 4095) / 4096 then 4096
            else 2 * data_size - 4096 * ((2 * data_size + 4095) / 4096 - 1)) ≤ 4096) ∧
    (∀ b, b < 2 * data_size → ∃! k, k < (2 * data_size + 4095) / 4096 ∧ 4096 * k ≤ b ∧
      b < 4096 * k + (if k + 1 < (2 * data_size + 4095) / 4096 then 4096
            else 2 * data_size - 4096 * ((2 * data_size + 4095) / 4096 - 1))) ∧
    (∀ k, k < (2 * data_size + 4095) / 4096 →
      4096 * k + (if k + 1 < (2 * data_size + 4095) / 4096 then 4096
            else 2 * data_size - 4096 * ((2 * data_size + 4095) / 4096 - 1))
        = if k + 1 < (2 * data_size + 4095) / 4096 then 4096 * (k + 1) else 2 * data_size) := by
  refine ⟨?_, ?_, ?_, ?_⟩
  · intro fuel hfuel
    unfold write_text_to_display_transfers
    have h := stream_from data_size hds ((2 * data_size + 4095) / 4096) 0 fuel []
      (by omega) hfuel
    rw [Nat.mul_zero] at h
    rw [h, List.nil_append, List.range_eq_range']
    congr 1
    apply List.map_congr_left
    intro k hk
    rw [List.mem_range'_1] at hk
    congr 1
    split_ifs <;> omega
  · intro k hk
    split_ifs <;> omega
  · intro b hb
    refine ⟨b / 4096, ⟨by omega, by omega, ?_⟩, ?_⟩
    · split_ifs <;> omega
    · rintro k ⟨h1, h2, h3⟩
      split_ifs at h3 <;> omega
  · intro k hk
    split_ifs <;> omega

theorem pixel_stream_loop_chunks_witness :
    3344 ≤ 30720 ∧
    write_text_to_display_transfers 3344 3 = some [(0, 4096), (4096, 2592)] :=
  ⟨by decide, ((pixel_stream_loop_chunks 3344 (by decide)).1 3 (by decide)).trans (by decide)⟩

/-! ## Theorems: power state, scheduler and counters -/

theorem iteration_power (update_fs_time sleep_after : Nat) (check_sda check_sdb : Bool)
    (p : PowerState) (l : SchedulerLocals) (tv_sec tv_nsec : Int) :
    (update_status_iteration update_fs_time sleep_after check_sda check_sdb p l tv_sec tv_nsec).1
      = if p.update_screen = true ∧ (sleep_after : Int) < l.current_time - p.last_time
        then { p with update_screen := false, backlight := 0 } else p := by
  unfold update_status_iteration
  by_cases hu : p.update_screen = true
  · by_cases hs : (sleep_after : Int) < l.current_time - p.last_time
    · by_cases hf : (update_fs_time : Int) < l.current_time - l.previouse_time <;>
        simp [hu, hs, hf]
    · by_cases hf : (update_fs_time : Int) < l.current_time - l.previouse_time <;>
        simp [hu, hs, hf]
  · simp [hu]

theorem iteration_current_time (update_fs_time sleep_after : Nat) (check_sda check_sdb : Bool)
    (p : PowerState) (l : SchedulerLocals) (tv_sec tv_nsec : Int) :
    (update_status_iteration update_fs_time sleep_after check_sda check_sdb p l tv_sec
      tv_nsec).2.1.current_time = tv_sec := by
  unfold update_status_iteration
  by_cases hu : p.update_screen = true
  · by_cases hs : (sleep_after : Int) < l.current_time - p.last_time
    · by_cases hf : (update_fs_time : Int) < l.current_time - l.previouse_time <;>
        simp [hu, hs, hf]
    · by_cases hf : (update_fs_time : Int) < l.current_time - l.previouse_time <;>
        simp [hu, hs, hf]
  · simp [hu]

theorem iteration_actions (update_fs_time sleep_after : Nat) (check_sda check_sdb : Bool)
    (p : PowerState) (l : SchedulerLocals) (tv_sec tv_nsec : Int) :
    ∃ usec, (update_status_iteration update_fs_time sleep_after check_sda check_sdb p l tv_sec
      tv_nsec).2.2
      = (if p.update_screen = true then
          [Action.display_time_info, Action.display_net_info, Action.display_cpu_info,
            Action.display_ram_info, Action.display_temp_info, Action.display_uptime_info] ++
          (if (update_fs_time : Int) < l.current_time - l.previouse_time then
            (if check_sda = true then [Action.display_fs1_info] else []) ++
            (if check_sdb = true then [Action.display_fs2_info] else []) else []) ++
          (if (sleep_after : Int) < l.current_time - p.last_time then [Action.backlight 0]
            else [])
        else []) ++ [Action.usleep usec] := by
  unfold update_status_iteration
  by_cases hu : p.update_screen = true
  · by_cases hs : (sleep_after : Int) < l.current_time - p.last_time
    · by_cases hf : (update_fs_time : Int) < l.current_time - l.previouse_time <;>
        simp [hu, hs, hf]
    · by_cases hf : (update_fs_time : Int) < l.current_time - l.previouse_time <;>
        simp [hu, hs, hf]
  · simp [hu]

theorem run_idle (update_fs_time sleep_after : Nat) (check_sda check_sdb : Bool)
    (readings : List (Int × Int)) :
    ∀ (p : PowerState) (l : SchedulerLocals), p.update_screen = false →
      (update_status_run update_fs_time sleep_after check_sda check_sdb (p, l) readings).1 = p := by
  induction readings with
  | nil => intro p l _; rfl
  | cons ts rest ih =>
    intro p l hp
    rw [update_status_run]
    have h := iteration_power update_fs_time sleep_after check_sda check_sdb p l ts.1 ts.2
    rw [if_neg (by simp [hp])] at h
    have h2 := ih (update_status_iteration update_fs_time sleep_after check_sda check_sdb p l
      ts.1 ts.2).1 (update_status_iteration update_fs_time sleep_after check_sda check_sdb p l
      ts.1 ts.2).2.1 (by rw [h]; exact hp)
    rw [h] at h2
    simpa [h] using h2

/-- Claim C7. Idle round trip. From the initial Awake state at time `t0` with
no button press, the pass that reads the clock value `now` leaves the state
Awake; the tick that observes `now`, with `now - last_time > sleep_after`,
yields Idle (backlight 0, `update_screen` false); the state stays Idle through
any further ticks at any times; and a button press then yields Awake
(backlight 1, `update_screen` true, `last_time` the time of the press). -/
theorem idle_round_trip (update_fs_time sleep_after : Nat) (check_sda check_sdb : Bool)
    (t0 nsec0 now nsec1 tv_sec2 tv_nsec2 : Int) (hnow : (sleep_after : Int) < now - t0)
    (later : List (Int × Int)) (press_time : Int) :
    (update_status_run update_fs_time sleep_after check_sda check_sdb
      (initial_power t0, initial_locals t0 nsec0) [(now, nsec1)]).1 = initial_power t0 ∧
    (update_status_run update_fs_time sleep_after check_sda check_sdb
      (initial_power t0, initial_locals t0 nsec0) [(now, nsec1), (tv_sec2, tv_nsec2)]).1
      = { last_time := t0, update_screen := false, backlight := 0 } ∧
    (update_status_run update_fs_time sleep_after check_sda check_sdb
      (initial_power t0, initial_locals t0 nsec0)
      ((now, nsec1) :: (tv_sec2, tv_nsec2) :: later)).1
      = { last_time := t0, update_screen := false, backlight := 0 } ∧
    user_button_read_thread_poll 0 press_time
      (update_status_run update_fs_time sleep_after check_sda check_sdb
        (initial_power t0, initial_locals t0 nsec0)
        ((now, nsec1) :: (tv_sec2, tv_nsec2) :: later)).1
      = { last_time := press_time, update_screen := true, backlight := 1 } := by
  have h1 := iteration_power update_fs_time sleep_after check_sda check_sdb
    (initial_power t0) (initial_locals t0 nsec0) now nsec1
  have c1 := iteration_current_time update_fs_time sleep_after check_sda check_sdb
    (initial_power t0) (initial_locals t0 nsec0) now nsec1
  rw [if_neg (by simp [initial_power, initial_locals])] at h1
  have hrun : ∀ rest, update_status_run update_fs_time sleep_after check_sda check_sdb
      (initial_power t0, initial_locals t0 nsec0) ((now, nsec1) :: (tv_sec2, tv_nsec2) :: rest)
      = update_status_run update_fs_time sleep_after check_sda check_sdb
        ((update_status_iteration update_fs_time sleep_after check_sda check_sdb
          (update_status_iteration update_fs_time sleep_after check_sda check_sdb
            (initial_power t0) (initial_locals t0 nsec0) now nsec1).1
          (update_status_iteration update_fs_time sleep_after check_sda check_sdb
            (initial_power t0) (initial_locals t0 nsec0) now nsec1).2.1 tv_sec2 tv_nsec2).1,
         (update_status_iteration update_fs_time sleep_after check_sda check_sdb
          (update_status_iteration update_fs_time sleep_after check_sda check_sdb
            (initial_power t0) (initial_locals t0 nsec0) now nsec1).1
          (update_status_iteration update_fs_time sleep_after check_sda check_sdb
            (initial_power t0) (initial_locals t0 nsec0) now nsec1).2.1 tv_sec2 tv_nsec2).2.1)
        rest := fun _ => rfl
  have h3 : ∀ rest, (update_status_run update_fs_time sleep_after check_sda check_sdb
      (initial_power t0, initial_locals t0 nsec0)
      ((now, nsec1) :: (tv_sec2, tv_nsec2) :: rest)).1
      = { last_time := t0, update_screen := false, backlight := 0 } := by
    intro rest
    rw [hrun rest]
    generalize update_status_iteration update_fs_time sleep_after check_sda check_sdb
      (initial_power t0) (initial_locals t0 nsec0) now nsec1 = A at h1 c1 ⊢
    obtain ⟨pA, lA, aA⟩ := A
    simp only at h1 c1
    subst h1
    have h2 := iteration_power update_fs_time sleep_after check_sda check_sdb
      (initial_power t0) lA tv_sec2 tv_nsec2
    rw [c1, if_pos ⟨rfl, hnow⟩] at h2
    have h4 := run_idle update_fs_time sleep_after check_sda check_sdb rest
      (update_status_iteration update_fs_time sleep_after check_sda check_sdb
        (initial_power t0) lA tv_sec2 tv_nsec2).1
      (update_status_iteration update_fs_time sleep_after check_sda check_sdb
        (initial_power t0) lA tv_sec2 tv_nsec2).2.1 (by rw [h2])
    rw [h4, h2]
    rfl
  refine ⟨h1, h3 [], h3 later, ?_⟩
  rw [h3 later]
  rfl

theorem idle_round_trip_witness :
    ((3600 : Nat) : Int) < 4601 - 1000 ∧
    user_button_read_thread_poll 0 9000
      (update_status_run 300 3600 true false (initial_power 1000, initial_locals 1000 0)
        [(4601, 0), (4602, 0), (4603, 0)]).1
      = { last_time := 9000, update_screen := true, backlight := 1 } :=
  ⟨by decide,
    (idle_round_trip 300 3600 true false 1000 0 4601 0 4602 0 (by decide) [(4603, 0)] 9000).2.2.2⟩

/-- Claim C8. A scheduler iteration changes the power state only thus: when
`update_screen` is true and `sleep_after < current_time - last_time` (strictly)
it clears `update_screen` and writes 0 to the backlight line; in every other
case (equality, and every iteration taken in Idle) the power state is the same
afterwards and the backlight line is not written. Each of the six periodic
field updates is performed in an iteration exactly when `update_screen` was
true at its start. -/
theorem update_status_iteration_power_and_updates (update_fs_time sleep_after : Nat)
    (check_sda check_sdb : Bool) (p : PowerState) (l : SchedulerLocals) (tv_sec tv_nsec : Int) :
    (p.update_screen = true ∧ (sleep_after : Int) < l.current_time - p.last_time →
      (update_status_iteration update_fs_time sleep_after check_sda check_sdb p l tv_sec
        tv_nsec).1 = { last_time := p.last_time, update_screen := false, backlight := 0 } ∧
      Action.backlight 0 ∈ (update_status_iteration update_fs_time sleep_after check_sda
        check_sdb p l tv_sec tv_nsec).2.2) ∧
    (¬ (p.update_screen = true ∧ (sleep_after : Int) < l.current_time - p.last_time) →
      (update_status_iteration update_fs_time sleep_after check_sda check_sdb p l tv_sec
        tv_nsec).1 = p ∧
      ∀ value, Action.backlight value ∉ (update_status_iteration update_fs_time sleep_after
        check_sda check_sdb p l tv_sec tv_nsec).2.2) ∧
    (∀ a ∈ [Action.display_time_info, Action.display_net_info, Action.display_cpu_info,
        Action.display_ram_info, Action.display_temp_info, Action.display_uptime_info],
      (a ∈ (update_status_iteration update_fs_time sleep_after check_sda check_sdb p l tv_sec
        tv_nsec).2.2 ↔ p.update_screen = true)) := by
  obtain ⟨usec, hact⟩ := iteration_actions update_fs_time sleep_after check_sda check_sdb p l
    tv_sec tv_nsec
  have hpow := iteration_power update_fs_time sleep_after check_sda check_sdb p l tv_sec tv_nsec
  refine ⟨?_, ?_, ?_⟩
  · intro h
    rw [hpow, if_pos h, hact]
    simp [h.1, h.2]
  · intro h
    rw [hpow, if_neg h, hact]
    refine ⟨rfl, fun value => ?_⟩
    by_cases hu : p.update_screen = true
    · have hs : ¬ (sleep_after : Int) < l.current_time - p.last_time := fun hs => h ⟨hu, hs⟩
      by_cases hf : (update_fs_time : Int) < l.current_time - l.previouse_time <;>
        cases check_sda <;> cases check_sdb <;> simp [hu, hs, hf]
    · simp [hu]
  · intro a ha
    rw [hact]
    by_cases hu : p.update_screen = true
    · simp only [hu, if_true, iff_true]
      simp only [List.mem_cons, List.mem_singleton, List.not_mem_nil, or_false] at ha
      rcases ha with rfl | rfl | rfl | rfl | rfl | rfl <;> simp
    · simp only [hu, if_false, iff_false]
      simp only [List.mem_cons, List.mem_singleton, List.not_mem_nil, or_false] at ha
      rcases ha with rfl | rfl | rfl | rfl | rfl | rfl <;> simp

theorem update_status_iteration_power_and_updates_witness :
    ((initial_power 0).update_screen = true ∧ ((3600 : Nat) : Int) < 3601 - 0) ∧
    (update_status_iteration 300 3600 true false (initial_power 0)
      { current_time := 3601, previouse_time := 0, nanoseconds := 0, diff := 500 } 3602 0).1
      = { last_time := 0, update_screen := false, backlight := 0 } :=
  ⟨by decide,
    ((update_status_iteration_power_and_updates 300 3600 true false (initial_power 0)
      { current_time := 3601, previouse_time := 0, nanoseconds := 0, diff := 500 } 3602 0).1
      (by decide)).1⟩

/-- Claim C9. For every power state and every time `now`, a watcher poll that
reads the button line as 0 gives `last_time = now`, `update_screen = true` and
the backlight line written 1; a poll that reads any other value leaves the
power state unchanged. -/
theorem button_press_wakes (p : PowerState) (now : Int) :
    user_button_read_thread_poll 0 now p
      = { last_time := now, update_screen := true, backlight := 1 } ∧
    ∀ readed_status : Int, readed_status ≠ 0 →
      user_button_read_thread_poll readed_status now p = p := by
  refine ⟨rfl, fun v hv => ?_⟩
  unfold user_button_read_thread_poll
  rw [if_neg hv]

theorem button_press_wakes_witness :
    (1 : Int) ≠ 0 ∧
    user_button_read_thread_poll 1 50 { last_time := 7, update_screen := false, backlight := 0 }
      = { last_time := 7, update_screen := false, backlight := 0 } :=
  ⟨by decide,
    (button_press_wakes { last_time := 7, update_screen := false, backlight := 0 } 50).2 1
      (by decide)⟩

/-! ## Theorems: scheduler smoothing -/

theorem iteration_diff (update_fs_time sleep_after : Nat) (check_sda check_sdb : Bool)
    (p : PowerState) (l : SchedulerLocals) (tv_sec tv_nsec : Int) :
    (update_status_iteration update_fs_time sleep_after check_sda check_sdb p l tv_sec
      tv_nsec).2.1.diff
      = (((to_int ((tv_nsec - l.nanoseconds).tdiv 1000)).natAbs : Int) + l.diff).tdiv 2 ∧
    (update_status_iteration update_fs_time sleep_after check_sda check_sdb p l tv_sec
      tv_nsec).2.1.nanoseconds = tv_nsec := by
  unfold update_status_iteration
  by_cases hu : p.update_screen = true
  · by_cases hs : (sleep_after : Int) < l.current_time - p.last_time
    · by_cases hf : (update_fs_time : Int) < l.current_time - l.previouse_time <;>
        simp [hu, hs, hf]
    · by_cases hf : (update_fs_time : Int) < l.current_time - l.previouse_time <;>
        simp [hu, hs, hf]
  · simp [hu]

theorem iteration_usleep (update_fs_time sleep_after : Nat) (check_sda check_sdb : Bool)
    (p : PowerState) (l : SchedulerLocals) (tv_sec tv_nsec : Int) (usec : Int) :
    Action.usleep usec ∈ (update_status_iteration update_fs_time sleep_after check_sda
      check_sdb p l tv_sec tv_nsec).2.2 ↔
    usec = 1000000 - (update_status_iteration update_fs_time sleep_after check_sda check_sdb
      p l tv_sec tv_nsec).2.1.diff := by
  unfold update_status_iteration
  by_cases hu : p.update_screen = true
  · by_cases hs : (sleep_after : Int) < l.current_time - p.last_time
    · by_cases hf : (update_fs_time : Int) < l.current_time - l.previouse_time <;>
        cases check_sda <;> cases check_sdb <;> simp [hu, hs, hf]
    · by_cases hf : (update_fs_time : Int) < l.current_time - l.previouse_time <;>
        cases check_sda <;> cases check_sdb <;> simp [hu, hs, hf]
  · simp [hu]

theorem smoothing_step (B raw diff : Int) (h0 : 0 ≤ diff) (h1 : diff ≤ B) (hr0 : 0 ≤ raw)
    (hr : raw ≤ B) : 0 ≤ (raw + diff).tdiv 2 ∧ (raw + diff).tdiv 2 ≤ B := by
  rw [Int.tdiv_eq_ediv (by omega) (by norm_num)]
  omega

theorem run_diff_bounded (update_fs_time sleep_after : Nat) (check_sda check_sdb : Bool)
    (B : Int) (pre : List (Int × Int)) :
    ∀ (p : PowerState) (l : SchedulerLocals), 0 ≤ l.diff → l.diff ≤ B →
      List.Chain (fun a b : Int => ((to_int ((b - a).tdiv 1000)).natAbs : Int) ≤ B)
        l.nanoseconds (pre.map Prod.snd) →
      0 ≤ (update_status_run update_fs_time sleep_after check_sda check_sdb (p, l) pre).2.diff ∧
      (update_status_run update_fs_time sleep_after check_sda check_sdb (p, l) pre).2.diff ≤ B ∧
      (update_status_run update_fs_time sleep_after check_sda check_sdb (p, l)
        pre).2.nanoseconds = (l.nanoseconds :: pre.map Prod.snd).getLast (by simp) := by
  induction pre with
  | nil => intro p l h0 h1 _; exact ⟨h0, h1, rfl⟩
  | cons r rest ih =>
    intro p l h0 h1 hc
    rw [List.map_cons, List.chain_cons] at hc
    obtain ⟨hd, hn⟩ := iteration_diff update_fs_time sleep_after check_sda check_sdb p l r.1 r.2
    have hb := smoothing_step B _ l.diff h0 h1 (Int.natCast_nonneg _) hc.1
    rw [← hd] at hb
    rw [update_status_run]
    have := ih (update_status_iteration update_fs_time sleep_after check_sda check_sdb p l
      r.1 r.2).1 (update_status_iteration update_fs_time sleep_after check_sda check_sdb p l
      r.1 r.2).2.1 hb.1 hb.2 (by rw [hn]; exact hc.2)
    refine ⟨this.1, this.2.1, ?_⟩
    rw [this.2.2]
    simp [hn, List.getLast_cons]

theorem chain_left {R : Int → Int → Prop} (l1 l2 : List Int) :
    ∀ a, List.Chain R a (l1 ++ l2) → List.Chain R a l1 := by
  induction l1 with
  | nil => intro a _; exact List.Chain.nil
  | cons b l1 ih =>
    intro a h
    rw [List.cons_append, List.chain_cons] at h
    exact List.Chain.cons h.1 (ih b h.2)

theorem chain_next {R : Int → Int → Prop} (l1 l2 : List Int) (b : Int) :
    ∀ a, List.Chain R a (l1 ++ b :: l2) → R ((a :: l1).getLast (by simp)) b := by
  induction l1 with
  | nil =>
    intro a h
    rw [List.nil_append, List.chain_cons] at h
    exact h.1
  | cons c l1 ih =>
    intro a h
    rw [List.cons_append, List.chain_cons] at h
    have := ih c h.2
    simpa [List.getLast_cons] using this

theorem raw_of_timespec (a b : Int) (ha0 : 0 ≤ a) (ha : a < 1000000000) (hb0 : 0 ≤ b)
    (hb : b < 1000000000) :
    ((to_int ((b - a).tdiv 1000)).natAbs : Int) = (((b - a).natAbs / 1000 : Nat) : Int) ∧
    ((to_int ((b - a).tdiv 1000)).natAbs : Int) < 1000000 := by
  have h1 : (b - a).tdiv 1000 = if 0 ≤ b - a then (b - a) / 1000 else -((a - b) / 1000) := by
    split_ifs with h
    · exact Int.tdiv_eq_ediv h (by norm_num)
    · have e : b - a = -(a - b) := by ring
      rw [e, Int.neg_tdiv, Int.tdiv_eq_ediv (by omega) (by norm_num)]
  have h2 : to_int ((b - a).tdiv 1000) = (b - a).tdiv 1000 := by
    unfold to_int
    rw [h1]
    split_ifs <;> omega
  rw [h2, h1]
  split_ifs <;> omega

/-- Claim C11. Scheduler smoothing. `diff` starts at 500 and each iteration
sets `diff = (raw + diff) / 2` with `raw = abs((tv_nsec - nanoseconds) / 1000)`.
For every bound `B >= 500` and every sequence of clock readings whose raw
values are all at most `B`, `diff` lies in `[0, B]` after every iteration (after
every prefix `pre` of the readings); for `B = 500` this is the bound 0..500.
When every raw value is below 1,000,000 the value `1000000 - diff` handed to
`usleep` is at least 1 in every iteration. For nanosecond fields of a valid
`timespec` the raw value equals `|tv_nsec - nanoseconds| / 1000` and is below
1,000,000. -/
theorem smoothed_diff_bounded (update_fs_time sleep_after : Nat) (check_sda check_sdb : Bool)
    (p0 : PowerState) (t0 nsec0 : Int) (readings pre post : List (Int × Int))
    (hsplit : readings = pre ++ post) :
    (∀ B : Int, 500 ≤ B →
      List.Chain (fun a b : Int => ((to_int ((b - a).tdiv 1000)).natAbs : Int) ≤ B)
        nsec0 (readings.map Prod.snd) →
      0 ≤ (update_status_run update_fs_time sleep_after check_sda check_sdb
        (p0, initial_locals t0 nsec0) pre).2.diff ∧
      (update_status_run update_fs_time sleep_after check_sda check_sdb
        (p0, initial_locals t0 nsec0) pre).2.diff ≤ B) ∧
    (List.Chain (fun a b : Int => ((to_int ((b - a).tdiv 1000)).natAbs : Int) < 1000000)
        nsec0 (readings.map Prod.snd) →
      ∀ r rest, post = r :: rest → ∀ usec,
        Action.usleep usec ∈ (update_status_iteration update_fs_time sleep_after check_sda
          check_sdb
          (update_status_run update_fs_time sleep_after check_sda check_sdb
            (p0, initial_locals t0 nsec0) pre).1
          (update_status_run update_fs_time sleep_after check_sda check_sdb
            (p0, initial_locals t0 nsec0) pre).2 r.1 r.2).2.2 →
        1 ≤ usec) ∧
    (∀ a b : Int, 0 ≤ a → a < 1000000000 → 0 ≤ b → b < 1000000000 →
      ((to_int ((b - a).tdiv 1000)).natAbs : Int) = (((b - a).natAbs / 1000 : Nat) : Int) ∧
      ((to_int ((b - a).tdiv 1000)).natAbs : Int) < 1000000) := by
  subst hsplit
  refine ⟨?_, ?_, fun a b ha0 ha hb0 hb => raw_of_timespec a b ha0 ha hb0 hb⟩
  · intro B hB hc
    rw [List.map_append] at hc
    have h := run_diff_bounded update_fs_time sleep_after check_sda check_sdb B pre p0
      (initial_locals t0 nsec0) (by simp [initial_locals]) (by simpa [initial_locals] using hB)
      (chain_left _ _ _ hc)
    exact ⟨h.1, h.2.1⟩
  · intro hc r rest hpost usec hmem
    subst hpost
    rw [List.map_append, List.map_cons] at hc
    have hc2 : List.Chain (fun a b : Int => ((to_int ((b - a).tdiv 1000)).natAbs : Int) ≤ 999999)
        nsec0 (pre.map Prod.snd ++ r.2 :: rest.map Prod.snd) :=
      List.Chain.imp (fun a b h => by omega) hc
    have h := run_diff_bounded update_fs_time sleep_after check_sda check_sdb 999999 pre p0
      (initial_locals t0 nsec0) (by simp [initial_locals]) (by simp [initial_locals])
      (chain_left _ _ _ hc2)
    have hr := chain_next _ _ _ _ hc2
    rw [iteration_usleep] at hmem
    obtain ⟨hd, -⟩ := iteration_diff update_fs_time sleep_after check_sda check_sdb
      (update_status_run update_fs_time sleep_after check_sda check_sdb
        (p0, initial_locals t0 nsec0) pre).1
      (update_status_run update_fs_time sleep_after check_sda check_sdb
        (p0, initial_locals t0 nsec0) pre).2 r.1 r.2
    rw [hd] at hmem
    rw [h.2.2] at hmem
    have hb := smoothing_step 999999 _ _ h.1 h.2.1 (Int.natCast_nonneg _) hr
    simp only [initial_locals] at hb hmem
    omega

theorem smoothed_diff_bounded_witness :
    0 ≤ (update_status_run 300 3600 true false (initial_power 0, initial_locals 0 0)
      [(1, 300000), (2, 600000)]).2.diff ∧
    (update_status_run 300 3600 true false (initial_power 0, initial_locals 0 0)
      [(1, 300000), (2, 600000)]).2.diff ≤ 500 :=
  (smoothed_diff_bounded 300 3600 true false (initial_power 0) 0 0
    [(1, 300000), (2, 600000)] [(1, 300000), (2, 600000)] [] rfl).1 500 (by decide)
    (List.Chain.cons (by decide) (List.Chain.cons (by decide) List.Chain.nil))

/-! ## Theorems: display protocol driver -/

theorem spi_transfer_eq (payload : Payload) (bus : Bus) :
    spi_transfer payload bus =
      (if bus.failing bus.trace.length = true then -1 else 0,
        Bus.mk bus.failing bus.data_pin
          (bus.trace ++ [⟨BusOp.spi_transfer payload, !(bus.failing bus.trace.length),
            bus.data_pin⟩])) := by
  unfold spi_transfer Bus.attempt
  cases h : bus.failing bus.trace.length <;> simp [h]

theorem spi_write_register_eq (instruction : Nat) (data : Option (List Nat)) (data_size : Nat)
    (bus : Bus) :
    spi_write_register instruction data data_size bus =
      if bus.failing bus.trace.length = true then
        (-1, Bus.mk bus.failing bus.data_pin
          (bus.trace ++ [⟨BusOp.set_data_pin 0, false, bus.data_pin⟩]))
      else if bus.failing (bus.trace.length + 1) = true then
        (-1, Bus.mk bus.failing 0
          (bus.trace ++ [⟨BusOp.set_data_pin 0, true, bus.data_pin⟩,
            ⟨BusOp.spi_transfer (Payload.bytes [instruction]), false, 0⟩]))
      else if bus.failing (bus.trace.length + 2) = true then
        (-1, Bus.mk bus.failing 0
          (bus.trace ++ [⟨BusOp.set_data_pin 0, true, bus.data_pin⟩,
            ⟨BusOp.spi_transfer (Payload.bytes [instruction]), true, 0⟩,
            ⟨BusOp.set_data_pin 1, false, 0⟩]))
      else if data.isSome = true ∧ data_size ≠ 0 then
        (if bus.failing (bus.trace.length + 3) = true then -1 else 0,
          Bus.mk bus.failing 1
            (bus.trace ++ [⟨BusOp.set_data_pin 0, true, bus.data_pin⟩,
              ⟨BusOp.spi_transfer (Payload.bytes [instruction]), true, 0⟩,
              ⟨BusOp.set_data_pin 1, true, 0⟩,
              ⟨BusOp.spi_transfer (Payload.bytes ((data.getD []).take data_size)),
                !(bus.failing (bus.trace.length + 3)), 1⟩]))
      else
        (0, Bus.mk bus.failing 1
          (bus.trace ++ [⟨BusOp.set_data_pin 0, true, bus.data_pin⟩,
            ⟨BusOp.spi_transfer (Payload.bytes [instruction]), true, 0⟩,
            ⟨BusOp.set_data_pin 1, true, 0⟩])) := by
  unfold spi_write_register
  simp only [spi_transfer_eq]
  unfold Bus.attempt
  cases h0 : bus.failing bus.trace.length
  · cases h1 : bus.failing (bus.trace.length + 1)
    · cases h2 : bus.failing (bus.trace.length + 2)
      · cases data with
        | none => simp [h0, h1, h2]
        | some bytes =>
          by_cases hds : data_size = 0
          · simp [h0, h1, h2, hds]
          · cases h3 : bus.failing (bus.trace.length + 3) <;>
              simp [h0, h1, h2, h3, hds, Nat.add_assoc]
      · simp [h0, h1, h2]
    · simp [h0, h1]
  · simp [h0]

/-- Claim C14. In every execution of `spi_write_register(instruction, data, n)`
the calls it makes, `new`, are at most four and in this order: the select line
is set to 0; the command byte is transferred, with the line at 0, only if that
succeeded; the line is set to 1 only if the transfer succeeded; the parameter
bytes are transferred, with the line at 1, only if that succeeded and `data` is
not null and `n` is not 0. The result is 0 or -1, it is 0 exactly when every
call made succeeded, and a failed call is the last one made. -/
theorem spi_write_register_protocol (instruction : Nat) (data : Option (List Nat))
    (data_size : Nat) (bus : Bus) :
    ∃ new : List BusEvent,
      (spi_write_register instruction data data_size bus).2.trace = bus.trace ++ new ∧
      new.length ≤ 4 ∧
      (∃ ok, new[0]? = some ⟨BusOp.set_data_pin 0, ok, bus.data_pin⟩) ∧
      (∀ e, new[1]? = some e →
        e.op = BusOp.spi_transfer (Payload.bytes [instruction]) ∧ e.data_pin = 0 ∧
        new[0]? = some ⟨BusOp.set_data_pin 0, true, bus.data_pin⟩) ∧
      (∀ e, new[2]? = some e →
        e.op = BusOp.set_data_pin 1 ∧
        new[1]? = some ⟨BusOp.spi_transfer (Payload.bytes [instruction]), true, 0⟩) ∧
      (∀ e, new[3]? = some e →
        ∃ bytes, data = some bytes ∧ data_size ≠ 0 ∧
          e.op = BusOp.spi_transfer (Payload.bytes (bytes.take data_size)) ∧ e.data_pin = 1 ∧
          new[1]? = some ⟨BusOp.spi_transfer (Payload.bytes [instruction]), true, 0⟩ ∧
          new[2]? = some ⟨BusOp.set_data_pin 1, true, 0⟩) ∧
      ((spi_write_register instruction data data_size bus).1 = 0 ∨
        (spi_write_register instruction data data_size bus).1 = -1) ∧
      ((spi_write_register instruction data data_size bus).1 = 0 ↔ ∀ e ∈ new, e.ok = true) ∧
      (∀ k e, new[k]? = some e → e.ok = false → new.length = k + 1) := by
  rw [spi_write_register_eq]
  by_cases h0 : bus.failing bus.trace.length = true
  · rw [if_pos h0]
    refine ⟨[⟨BusOp.set_data_pin 0, false, bus.data_pin⟩], rfl, by simp, ⟨false, rfl⟩,
      by simp, by simp, by simp, by simp, by simp, ?_⟩
    intro k e hk _
    match k, hk with
    | 0, _ => rfl
  · rw [if_neg h0]
    by_cases h1 : bus.failing (bus.trace.length + 1) = true
    · rw [if_pos h1]
      refine ⟨[⟨BusOp.set_data_pin 0, true, bus.data_pin⟩,
        ⟨BusOp.spi_transfer (Payload.bytes [instruction]), false, 0⟩], rfl, by simp,
        ⟨true, rfl⟩, ?_, by simp, by simp, by simp, by simp, ?_⟩
      · intro e he
        simp at he
        subst he
        simp
      · intro k e hk hf
        match k, hk with
        | 0, hk => simp at hk; subst hk; simp at hf
        | 1, _ => rfl
    · rw [if_neg h1]
      by_cases h2 : bus.failing (bus.trace.length + 2) = true
      · rw [if_pos h2]
        refine ⟨[⟨BusOp.set_data_pin 0, true, bus.data_pin⟩,
          ⟨BusOp.spi_transfer (Payload.bytes [instruction]), true, 0⟩,
          ⟨BusOp.set_data_pin 1, false, 0⟩], rfl, by simp,
          ⟨true, rfl⟩, ?_, ?_, by simp, by simp, by simp, ?_⟩
        · intro e he
          simp at he
          subst he
          simp
        · intro e he
          simp at he
          subst he
          simp
        · intro k e hk hf
          match k, hk with
          | 0, hk => simp at hk; subst hk; simp at hf
          | 1, hk => simp at hk; subst hk; simp at hf
          | 2, _ => rfl
      · rw [if_neg h2]
        by_cases hd : data.isSome = true ∧ data_size ≠ 0
        · rw [if_pos hd]
          obtain ⟨bytes, rfl⟩ := Option.isSome_iff_exists.mp hd.1
          refine ⟨[⟨BusOp.set_data_pin 0, true, bus.data_pin⟩,
            ⟨BusOp.spi_transfer (Payload.bytes [instruction]), true, 0⟩,
            ⟨BusOp.set_data_pin 1, true, 0⟩,
            ⟨BusOp.spi_transfer (Payload.bytes (bytes.take data_size)),
              !(bus.failing (bus.trace.length + 3)), 1⟩], rfl, by simp,
            ⟨true, rfl⟩, ?_, ?_, ?_, ?_, ?_, ?_⟩
          · intro e he
            simp at he
            subst he
            simp
          · intro e he
            simp at he
            subst he
            simp
          · intro e he
            simp at he
            subst he
            exact ⟨bytes, rfl, hd.2, rfl, rfl, rfl, rfl⟩
          · cases bus.failing (bus.trace.length + 3) <;> simp
          · cases bus.failing (bus.trace.length + 3) <;> simp
          · intro k e hk hf
            match k, hk with
            | 0, hk => simp at hk; subst hk; simp at hf
            | 1, hk => simp at hk; subst hk; simp at hf
            | 2, hk => simp at hk; subst hk; simp at hf
            | 3, _ => rfl
        · rw [if_neg hd]
          refine ⟨[⟨BusOp.set_data_pin 0, true, bus.data_pin⟩,
            ⟨BusOp.spi_transfer (Payload.bytes [instruction]), true, 0⟩,
            ⟨BusOp.set_data_pin 1, true, 0⟩], rfl, by simp,
            ⟨true, rfl⟩, ?_, ?_, by simp, by simp, by simp, ?_⟩
          · intro e he
            simp at he
            subst he
            simp
          · intro e he
            simp at he
            subst he
            simp
          · intro k e hk hf
            match k, hk with
            | 0, hk => simp at hk; subst hk; simp at hf
            | 1, hk => simp at hk; subst hk; simp at hf
            | 2, hk => simp at hk; subst hk; simp at hf

theorem spi_write_register_protocol_witness :
    (spi_write_register ST7789_RAMWR none 0 (Bus.start (fun _ => false))).1 = 0 ∨
    (spi_write_register ST7789_RAMWR none 0 (Bus.start (fun _ => false))).1 = -1 := by
  obtain ⟨new, h⟩ := spi_write_register_protocol ST7789_RAMWR none 0 (Bus.start (fun _ => false))
  exact h.2.2.2.2.2.2.1

theorem spi_write_register_summary (instruction : Nat) (data : Option (List Nat))
    (data_size : Nat) (bus : Bus) :
    ∃ new : List BusEvent,
      (spi_write_register instruction data data_size bus).2.trace = bus.trace ++ new ∧
      (spi_write_register instruction data data_size bus).2.failing = bus.failing ∧
      (spi_write_register instruction data data_size bus).1
        = -((new.countP (fun e => !e.ok) : Nat) : Int) ∧
      new.countP (fun e => !e.ok) ≤ 1 ∧
      ((spi_write_register instruction data data_size bus).1 = 0 →
        (spi_write_register instruction data data_size bus).2.data_pin = 1) ∧
      (∀ e ∈ new, ∀ offset len, e.op ≠ BusOp.spi_transfer (Payload.pixels offset len)) ∧
      new.countP (fun e => decide (e.op = BusOp.set_data_pin 0)) = 1 := by
  rw [spi_write_register_eq]
  by_cases h0 : bus.failing bus.trace.length = true
  · rw [if_pos h0]
    exact ⟨_, rfl, rfl, by simp, by simp, by simp, by simp, by simp⟩
  · rw [if_neg h0]
    by_cases h1 : bus.failing (bus.trace.length + 1) = true
    · rw [if_pos h1]
      exact ⟨_, rfl, rfl, by simp, by simp, by simp, by simp, by simp [List.countP_cons]⟩
    · rw [if_neg h1]
      by_cases h2 : bus.failing (bus.trace.length + 2) = true
      · rw [if_pos h2]
        exact ⟨_, rfl, rfl, by simp, by simp, by simp, by simp, by simp [List.countP_cons]⟩
      · rw [if_neg h2]
        by_cases hd : data.isSome = true ∧ data_size ≠ 0
        · rw [if_pos hd]
          refine ⟨_, rfl, rfl, ?_, ?_, by simp, by simp, by simp [List.countP_cons]⟩
          · cases bus.failing (bus.trace.length + 3) <;> simp [List.countP_cons]
          · cases bus.failing (bus.trace.length + 3) <;> simp [List.countP_cons]
        · rw [if_neg hd]
          exact ⟨_, rfl, rfl, by simp, by simp, by simp, by simp, by simp [List.countP_cons]⟩

set_option maxRecDepth 100000 in
/-- Claim C12. When every call succeeds, `lcd_screen_open` returns 0 and makes
exactly these calls: the device open, the four bus settings, the reset pulse
(reset line 0, then 1), and then the sixteen commands SLPOUT 0x11, COLMOD 0x3A
(0x05), PORCTRL 0xB2 (5 bytes), GCTRL 0xB7, VCOMS 0xBB, LCMCTRL 0xC0, VDVVRHEN
0xC2 (2), VRHS 0xC3, VDVS 0xC4, FRCTRL2 0xC6, PWCTRL1 0xD0 (2), PVGAMCTRL 0xE0
(14), NVGAMCTRL 0xE1 (14), INVON 0x21 (1), DISPON 0x29 (1) and MADCTL 0x36
with the value `MY | MV = 0xA0`, each as: select line 0, command byte, select
line 1, parameter bytes (parameter counts in brackets, 1 where none is given,
0 for SLPOUT). -/
theorem lcd_screen_open_command_sequence :
    (lcd_screen_open (Bus.start (fun _ => false))).1 = 0 ∧
    (lcd_screen_open (Bus.start (fun _ => false))).2.trace =
      [⟨BusOp.open_spi_device, true, 1⟩, ⟨BusOp.ioctl_wr_mode, true, 1⟩,
        ⟨BusOp.ioctl_wr_bits_per_word, true, 1⟩, ⟨BusOp.ioctl_wr_max_speed_hz, true, 1⟩,
        ⟨BusOp.ioctl_wr_max_speed_hz, true, 1⟩,
        ⟨BusOp.set_reset_pin 0, true, 1⟩, ⟨BusOp.set_reset_pin 1, true, 1⟩] ++
      List.flatMap
        [(0x11, []), (0x3A, [0x05]), (0xB2, [0x0C, 0x0C, 0x00, 0x33, 0x33]), (0xB7, [0x35]),
          (0xBB, [0x19]), (0xC0, [0x2C]), (0xC2, [0x01, 0xFF]), (0xC3, [0x12]), (0xC4, [0x20]),
          (0xC6, [0x0F]), (0xD0, [0xA4, 0xA1]),
          (0xE0, [0xD0, 0x04, 0x0D, 0x11, 0x13, 0x2B, 0x3F, 0x54, 0x4C, 0x18, 0x0D, 0x0B, 0x1F,
            0x23]),
          (0xE1, [0xD0, 0x04, 0x0C, 0x11, 0x13, 0x2C, 0x3F, 0x44, 0x51, 0x2F, 0x1F, 0x1F, 0x20,
            0x23]),
          (0x21, [0x0E]), (0x29, [0x00]), (0x36, [0xA0])]
        (fun (command : Nat × List Nat) =>
          [⟨BusOp.set_data_pin 0, true, 1⟩,
            ⟨BusOp.spi_transfer (Payload.bytes [command.1]), true, 0⟩,
            ⟨BusOp.set_data_pin 1, true, 0⟩] ++
          (if command.2 = [] then []
            else [⟨BusOp.spi_transfer (Payload.bytes command.2), true, 1⟩])) ∧
    lcd_screen_open_commands.map (fun c => (c.1, c.2.2)) =
      [(0x11, 0), (0x3A, 1), (0xB2, 5), (0xB7, 1), (0xBB, 1), (0xC0, 1), (0xC2, 2), (0xC3, 1),
        (0xC4, 1), (0xC6, 1), (0xD0, 2), (0xE0, 14), (0xE1, 14), (0x21, 1), (0x29, 1),
        (0x36, 1)] ∧
    ST7789_MADCTL_MY ||| ST7789_MADCTL_MV = 0xA0 := by
  decide

theorem pixel_stream_loop_fold {σ : Type} (step : Nat → Nat → σ → σ) (data_size : Nat) :
    ∀ (fuel index : Nat) (s : σ) (log : List (Nat × Nat)),
      (pixel_stream_loop step data_size fuel index s = none ∧
        pixel_stream_loop (fun offset len log => log ++ [(offset, len)]) data_size fuel index
          log = none) ∨
      ∃ rest, pixel_stream_loop (fun offset len log => log ++ [(offset, len)]) data_size fuel
          index log = some (log ++ rest) ∧
        pixel_stream_loop step data_size fuel index s
          = some (rest.foldl (fun s p => step p.1 p.2 s) s) := by
  intro fuel
  induction fuel with
  | zero => intro index s log; exact Or.inl ⟨rfl, rfl⟩
  | succ fuel ih =>
    intro index s log
    by_cases h : index < data_size * 2
    · rw [pixel_stream_loop, if_pos h, pixel_stream_loop, if_pos h]
      rcases ih ((index + 4096) % 65536)
        (step index (if data_size * 2 < index + 4096 then data_size * 2 - index else 4096) s)
        (log ++ [(index, if data_size * 2 < index + 4096 then data_size * 2 - index else 4096)])
        with hn | ⟨rest, h1, h2⟩
      · exact Or.inl hn
      · refine Or.inr ⟨(index, if data_size * 2 < index + 4096 then data_size * 2 - index
          else 4096) :: rest, ?_, ?_⟩
        · rw [h1, List.append_assoc]; rfl
        · rw [h2]; rfl
    · refine Or.inr ⟨[], ?_, ?_⟩
      · rw [pixel_stream_loop, if_neg h, List.append_nil]
      · rw [pixel_stream_loop, if_neg h]; rfl

theorem pixel_transfers_fold (chunks : List (Nat × Nat)) :
    ∀ s : Int × Bus, ∃ new : List BusEvent,
      (chunks.foldl (fun (s : Int × Bus) p =>
        ((s.1 + (spi_transfer (Payload.pixels p.1 p.2) s.2).1,
          (spi_transfer (Payload.pixels p.1 p.2) s.2).2) : Int × Bus)) s).2.trace
        = s.2.trace ++ new ∧
      (chunks.foldl (fun (s : Int × Bus) p =>
        ((s.1 + (spi_transfer (Payload.pixels p.1 p.2) s.2).1,
          (spi_transfer (Payload.pixels p.1 p.2) s.2).2) : Int × Bus)) s).2.data_pin
        = s.2.data_pin ∧
      (chunks.foldl (fun (s : Int × Bus) p =>
        ((s.1 + (spi_transfer (Payload.pixels p.1 p.2) s.2).1,
          (spi_transfer (Payload.pixels p.1 p.2) s.2).2) : Int × Bus)) s).1
        = s.1 - ((new.countP (fun e => !e.ok) : Nat) : Int) ∧
      new.map (fun e => e.op)
        = chunks.map (fun p => BusOp.spi_transfer (Payload.pixels p.1 p.2)) ∧
      (∀ e ∈ new, e.data_pin = s.2.data_pin) := by
  induction chunks with
  | nil => intro s; exact ⟨[], by simp, rfl, by simp, rfl, by simp⟩
  | cons p rest ih =>
    intro s
    obtain ⟨new, t, d, r, o, hp⟩ := ih (s.1 + (spi_transfer (Payload.pixels p.1 p.2) s.2).1,
      (spi_transfer (Payload.pixels p.1 p.2) s.2).2)
    rw [List.foldl_cons]
    rw [spi_transfer_eq] at t d r hp ⊢
    simp only at t d r hp
    refine ⟨⟨BusOp.spi_transfer (Payload.pixels p.1 p.2), !(s.2.failing s.2.trace.length),
      s.2.data_pin⟩ :: new, ?_, d, ?_, ?_, ?_⟩
    · rw [t, List.append_assoc]; rfl
    · rw [r]
      cases s.2.failing s.2.trace.length <;> simp [List.countP_cons]; ring
    · simp [o]
    · intro e he
      rcases List.mem_cons.mp he with rfl | h
      · rfl
      · exact hp e h

theorem flush_buffer_loop_fold : ∀ (rem index : Nat) (s : Int × Bus),
    flush_buffer_loop rem index s
      = ((List.range' index rem).map (fun k => (k * 1920 * 2, 1920 * 2))).foldl
          (fun (s : Int × Bus) p =>
            ((s.1 + (spi_transfer (Payload.pixels p.1 p.2) s.2).1,
              (spi_transfer (Payload.pixels p.1 p.2) s.2).2) : Int × Bus)) s := by
  intro rem
  induction rem with
  | zero => intro index s; rfl
  | succ rem ih =>
    intro index s
    rw [flush_buffer_loop, ih, List.range'_succ, List.map_cons, List.foldl_cons]

theorem raster_j_some (data_size n i : Nat) (c : Int) (tc wc : Nat) (h1 : 31 ≤ c)
    (h2 : c ≤ 126) :
    ∀ (rem j : Nat) (b : Buffer), j + rem ≤ 16 →
      ∃ out, raster_j data_size n i c tc wc rem j b = some out := by
  intro rem
  induction rem with
  | zero => intro j b _; exact ⟨b, rfl⟩
  | succ rem ih =>
    intro j b hj
    obtain ⟨row, hrow⟩ := font_row_defined c h1 h2 j (by omega)
    rw [raster_j, hrow]
    exact ih (j + 1) _ (by omega)

theorem raster_i_some (data_size n : Nat) (text : Nat → Int) (tc wc : Nat) :
    ∀ (rem i : Nat) (b : Buffer), (∀ i2, i ≤ i2 → i2 < i + rem → 31 ≤ text i2 ∧ text i2 ≤ 126) →
      ∃ out, raster_i data_size n text tc wc rem i b = some out := by
  intro rem
  induction rem with
  | zero => intro i b _; exact ⟨b, rfl⟩
  | succ rem ih =>
    intro i b ht
    obtain ⟨b1, hb1⟩ := raster_j_some data_size n i (text i) tc wc
      (ht i (Nat.le_refl i) (by omega)).1 (ht i (Nat.le_refl i) (by omega)).2 FONT_HEIGHT 0 b
      (by simp [FONT_HEIGHT])
    rw [raster_i, hb1]
    exact ih (i + 1) b1 (fun i2 h3 h4 => ht i2 (by omega) (by omega))

theorem write_text_to_display_bus_eq (data_size : Nat) (caset raset : List Nat) (fuel : Nat)
    (bus : Bus) :
    write_text_to_display_bus data_size caset raset fuel bus =
      pixel_stream_loop (fun offset len (s : Int × Bus) =>
          ((s.1 + (spi_transfer (Payload.pixels offset len) s.2).1,
            (spi_transfer (Payload.pixels offset len) s.2).2) : Int × Bus)) data_size fuel 0
        ((spi_write_register ST7789_CASET (some caset) 4 bus).1 +
          (spi_write_register ST7789_RASET (some raset) 4
            (spi_write_register ST7789_CASET (some caset) 4 bus).2).1 +
          (spi_write_register ST7789_RAMWR none 0
            (spi_write_register ST7789_RASET (some raset) 4
              (spi_write_register ST7789_CASET (some caset) 4 bus).2).2).1,
        (spi_write_register ST7789_RAMWR none 0
          (spi_write_register ST7789_RASET (some raset) 4
            (spi_write_register ST7789_CASET (some caset) 4 bus).2).2).2) := by
  unfold write_text_to_display_bus
  simp only [Int.zero_add]

theorem flush_buffer_eq (bus : Bus) :
    flush_buffer bus =
      flush_buffer_loop 40 0
        ((spi_write_register ST7789_CASET (some flush_buffer_caset) 4 bus).1 +
          (spi_write_register ST7789_RASET (some flush_buffer_raset) 4
            (spi_write_register ST7789_CASET (some flush_buffer_caset) 4 bus).2).1 +
          (spi_write_register ST7789_RAMWR none 0
            (spi_write_register ST7789_RASET (some flush_buffer_raset) 4
              (spi_write_register ST7789_CASET (some flush_buffer_caset) 4 bus).2).2).1,
        (spi_write_register ST7789_RAMWR none 0
          (spi_write_register ST7789_RASET (some flush_buffer_raset) 4
            (spi_write_register ST7789_CASET (some flush_buffer_caset) 4 bus).2).2).2) := by
  unfold flush_buffer
  simp only [Int.zero_add]

/-- Claim C16. `write_text_to_display` never aborts in the middle: for every
pattern of failures (and a text within the glyph table, and a `data_size` up to
30720, for which the streaming loop ends) it runs the column-address command,
then the row-address command, then the memory-write command, with results
`r1`, `r2`, `r3` in `{0, -1}`, and then attempts every pixel chunk; its return
value is minus the number of those steps that failed, hence 0 exactly when all
of them succeeded. -/
theorem write_text_to_display_accumulates (buffer : Buffer) (data_size : Nat)
    (text : Nat → Int) (text_lenght text_color window_color : Nat) (caset raset : List Nat)
    (fuel : Nat) (bus : Bus)
    (htext : ∀ i, i < text_lenght → 31 ≤ text i ∧ text i ≤ 126)
    (hds : data_size ≤ 30720) (hfuel : (2 * data_size + 4095) / 4096 < fuel) :
    ∃ (r1 r2 r3 result : Int) (b1 b2 b3 bus1 : Bus) (buffer1 : Buffer) (new : List BusEvent),
      spi_write_register ST7789_CASET (some caset) 4 bus = (r1, b1) ∧
      spi_write_register ST7789_RASET (some raset) 4 b1 = (r2, b2) ∧
      spi_write_register ST7789_RAMWR none 0 b2 = (r3, b3) ∧
      write_text_to_display buffer data_size text text_lenght text_color window_color caset
        raset fuel bus = some (result, buffer1, bus1) ∧
      bus1.trace = b3.trace ++ new ∧
      new.map (fun e => e.op) = (List.range ((2 * data_size + 4095) / 4096)).map (fun k =>
        BusOp.spi_transfer (Payload.pixels (4096 * k)
          (if k + 1 < (2 * data_size + 4095) / 4096 then 4096
            else 2 * data_size - 4096 * ((2 * data_size + 4095) / 4096 - 1)))) ∧
      (r1 = 0 ∨ r1 = -1) ∧ (r2 = 0 ∨ r2 = -1) ∧ (r3 = 0 ∨ r3 = -1) ∧
      result = -((((if r1 = 0 then 0 else 1) + (if r2 = 0 then 0 else 1) +
        (if r3 = 0 then 0 else 1) + new.countP (fun e => !e.ok) : Nat)) : Int) ∧
      (result = 0 ↔ r1 = 0 ∧ r2 = 0 ∧ r3 = 0 ∧ ∀ e ∈ new, e.ok = true) := by
  obtain ⟨buffer1, hb⟩ := raster_i_some data_size text_lenght text text_color window_color
    text_lenght 0 buffer (fun i2 _ h => htext i2 (by omega))
  obtain ⟨n1, -, -, e1, c1, -⟩ := spi_write_register_summary ST7789_CASET (some caset) 4 bus
  obtain ⟨n2, -, -, e2, c2, -⟩ := spi_write_register_summary ST7789_RASET (some raset) 4
    (spi_write_register ST7789_CASET (some caset) 4 bus).2
  obtain ⟨n3, -, -, e3, c3, -⟩ := spi_write_register_summary ST7789_RAMWR none 0
    (spi_write_register ST7789_RASET (some raset) 4
      (spi_write_register ST7789_CASET (some caset) 4 bus).2).2
  have hlog := stream_from data_size hds ((2 * data_size + 4095) / 4096) 0 fuel []
    (by omega) hfuel
  rw [Nat.mul_zero, List.nil_append] at hlog
  have hbus := write_text_to_display_bus_eq data_size caset raset fuel bus
  generalize hs1 : spi_write_register ST7789_CASET (some caset) 4 bus = s1 at *
  generalize hs2 : spi_write_register ST7789_RASET (some raset) 4 s1.2 = s2 at *
  generalize hs3 : spi_write_register ST7789_RAMWR none 0 s2.2 = s3 at *
  rcases pixel_stream_loop_fold (fun offset len (s : Int × Bus) =>
      ((s.1 + (spi_transfer (Payload.pixels offset len) s.2).1,
        (spi_transfer (Payload.pixels offset len) s.2).2) : Int × Bus)) data_size fuel 0
      (s1.1 + s2.1 + s3.1, s3.2) [] with ⟨-, hn⟩ | ⟨rest, hr1, hr2⟩
  · rw [hlog] at hn; cases hn
  · rw [hlog, List.nil_append] at hr1
    cases hr1
    obtain ⟨new, t, -, r, o, -⟩ := pixel_transfers_fold
      ((List.range' 0 ((2 * data_size + 4095) / 4096)).map (fun k =>
        (4096 * k, if data_size * 2 < 4096 * k + 4096 then data_size * 2 - 4096 * k
          else 4096))) (s1.1 + s2.1 + s3.1, s3.2)
    generalize List.foldl _ (s1.1 + s2.1 + s3.1, s3.2) _ = fin at hr2 t r
    rw [← hbus] at hr2
    have ho : new.map (fun e => e.op) = (List.range ((2 * data_size + 4095) / 4096)).map
        (fun k => BusOp.spi_transfer (Payload.pixels (4096 * k)
          (if k + 1 < (2 * data_size + 4095) / 4096 then 4096
            else 2 * data_size - 4096 * ((2 * data_size + 4095) / 4096 - 1)))) := by
      rw [o, List.map_map, List.range_eq_range']
      apply List.map_congr_left
      intro k hk
      rw [List.mem_range'_1] at hk
      simp only [Function.comp]
      congr 2
      split_ifs <;> omega
    have hres : fin.1 = -((((if s1.1 = 0 then 0 else 1) + (if s2.1 = 0 then 0 else 1) +
        (if s3.1 = 0 then 0 else 1) + new.countP (fun e => !e.ok) : Nat)) : Int) := by
      rw [r]
      simp only
      split_ifs <;> push_cast <;> omega
    refine ⟨s1.1, s2.1, s3.1, fin.1, s1.2, s2.2, s3.2, fin.2, buffer1, new, rfl, hs2, hs3, ?_,
      t, ho, by omega, by omega, by omega, hres, ?_⟩
    · unfold write_text_to_display write_text_to_display_raster
      rw [hb, hr2]
    · rw [hres]
      have hc : new.countP (fun e => !e.ok) = 0 ↔ ∀ e ∈ new, e.ok = true := by
        rw [List.countP_eq_zero]
        simp
      constructor
      · intro h
        have h4 : new.countP (fun e => !e.ok) = 0 := by
          split_ifs at h <;> omega
        refine ⟨?_, ?_, ?_, hc.mp h4⟩ <;> (split_ifs at h <;> omega)
      · rintro ⟨h1, h2, h3, h4⟩
        rw [hc.mpr h4]
        simp [h1, h2, h3]

theorem write_text_to_display_accumulates_witness :
    ∃ (result : Int) (buffer1 : Buffer) (bus1 : Bus),
      write_text_to_display (fun _ => 0) 704
        (c_string "500B") 4 0xffff 0x8e11
        display_ifdev1_rx_info_caset display_ifdev1_rx_info_raset 3
        (Bus.start (fun _ => true)) = some (result, buffer1, bus1) := by
  obtain ⟨_, _, _, result, _, _, _, bus1, buffer1, _, _, _, _, h, _⟩ :=
    write_text_to_display_accumulates (fun _ => 0) 704
      (c_string "500B") 4 0xffff 0x8e11
      display_ifdev1_rx_info_caset display_ifdev1_rx_info_raset 3 (Bus.start (fun _ => true))
      (by decide) (by decide) (by decide)
  exact ⟨result, buffer1, bus1, h⟩

set_option maxRecDepth 100000 in
/-- Claim C19. `flush_buffer` sends the column window `[0, 0, 1, 63]`
(columns 0..319) and the row window `[0, 0, 0, 239]` (rows 0..239), then the
memory-write command, then 40 transfers of 3840 bytes at the byte offsets
`3840 * k`; for every pattern of failures the 40 transfers are attempted at
these offsets. Each is no larger than 4096 bytes and together they cover the
`320 * 240 * 2 = 153600` bytes of the framebuffer, each byte exactly once. -/
theorem flush_buffer_full_screen :
    (flush_buffer (Bus.start (fun _ => false))).1 = 0 ∧
    (flush_buffer (Bus.start (fun _ => false))).2.trace =
      [⟨BusOp.set_data_pin 0, true, 1⟩,
        ⟨BusOp.spi_transfer (Payload.bytes [0x2A]), true, 0⟩,
        ⟨BusOp.set_data_pin 1, true, 0⟩,
        ⟨BusOp.spi_transfer (Payload.bytes [0, 0, 1, 63]), true, 1⟩,
        ⟨BusOp.set_data_pin 0, true, 1⟩,
        ⟨BusOp.spi_transfer (Payload.bytes [0x2B]), true, 0⟩,
        ⟨BusOp.set_data_pin 1, true, 0⟩,
        ⟨BusOp.spi_transfer (Payload.bytes [0, 0, 0, 239]), true, 1⟩,
        ⟨BusOp.set_data_pin 0, true, 1⟩,
        ⟨BusOp.spi_transfer (Payload.bytes [0x2C]), true, 0⟩,
        ⟨BusOp.set_data_pin 1, true, 0⟩] ++
      (List.range 40).map (fun k =>
        ⟨BusOp.spi_transfer (Payload.pixels (3840 * k) 3840), true, 1⟩) ∧
    (big_endian16 (flush_buffer_caset.getD 0 0) (flush_buffer_caset.getD 1 0) = 0 ∧
      big_endian16 (flush_buffer_caset.getD 2 0) (flush_buffer_caset.getD 3 0) = 319 ∧
      big_endian16 (flush_buffer_raset.getD 0 0) (flush_buffer_raset.getD 1 0) = 0 ∧
      big_endian16 (flush_buffer_raset.getD 2 0) (flush_buffer_raset.getD 3 0) = 239) ∧
    (∀ bus : Bus, ∃ new : List BusEvent,
      (flush_buffer bus).2.trace =
        (spi_write_register ST7789_RAMWR none 0
          (spi_write_register ST7789_RASET (some flush_buffer_raset) 4
            (spi_write_register ST7789_CASET (some flush_buffer_caset) 4 bus).2).2).2.trace
          ++ new ∧
      new.map (fun e => e.op) = (List.range 40).map (fun k =>
        BusOp.spi_transfer (Payload.pixels (3840 * k) 3840))) ∧
    (3840 ≤ 4096 ∧ 40 * 3840 = SCREEN_WIDTH * SCREEN_HEIGHT * 2 ∧
      SCREEN_WIDTH * SCREEN_HEIGHT * 2 = 153600) ∧
    (∀ b, b < 153600 → ∃! k, k < 40 ∧ 3840 * k ≤ b ∧ b < 3840 * k + 3840) := by
  refine ⟨by decide, by decide, by decide, ?_, by decide, ?_⟩
  · intro bus
    rw [flush_buffer_eq, flush_buffer_loop_fold]
    obtain ⟨new, t, -, -, o, -⟩ := pixel_transfers_fold
      ((List.range' 0 40).map (fun k => (k * 1920 * 2, 1920 * 2)))
      ((spi_write_register ST7789_CASET (some flush_buffer_caset) 4 bus).1 +
          (spi_write_register ST7789_RASET (some flush_buffer_raset) 4
            (spi_write_register ST7789_CASET (some flush_buffer_caset) 4 bus).2).1 +
          (spi_write_register ST7789_RAMWR none 0
            (spi_write_register ST7789_RASET (some flush_buffer_raset) 4
              (spi_write_register ST7789_CASET (some flush_buffer_caset) 4 bus).2).2).1,
        (spi_write_register ST7789_RAMWR none 0
          (spi_write_register ST7789_RASET (some flush_buffer_raset) 4
            (spi_write_register ST7789_CASET (some flush_buffer_caset) 4 bus).2).2).2)
    refine ⟨new, t, ?_⟩
    rw [o]
    decide
  · intro b hb
    refine ⟨b / 3840, ⟨by omega, by omega, by omega⟩, ?_⟩
    rintro k ⟨h1, h2, h3⟩
    omega

theorem flush_buffer_full_screen_witness :
    ∃! k, k < 40 ∧ 3840 * k ≤ 100000 ∧ 100000 < 3840 * k + 3840 :=
  flush_buffer_full_screen.2.2.2.2.2 100000 (by decide)

set_option maxRecDepth 100000 in
/-- Claim C17 fails on the code. With every bus call failing,
`write_text_to_display` returns -4 for the interface 1 RX field, yet
`display_ifdev1_rx_info` returns 0: its statement
`result + write_text_to_display(..);` drops the sum. -/
theorem field_update_drops_write_result :
    display_ifdev1_rx_info_net_data_string 500 = some "500B" ∧
    (write_text_to_display (fun _ => 0) (FONT_HEIGHT * NET_DATA_WIDTH)
        (c_string "500B") NET_DATA_LENGHT 0xffff 0x8e11
        display_ifdev1_rx_info_caset display_ifdev1_rx_info_raset 3
        (Bus.start (fun _ => true))).map (fun r => r.1) = some (-4) ∧
    (display_ifdev1_rx_info 500 (fun _ => 0) 0xffff 0x8e11 3
        (Bus.start (fun _ => true))).map (fun r => r.1) = some 0 := by
  decide

theorem display_info_returns_zero (buffer : Buffer) (text_color window_color fuel : Nat)
    (bus : Bus) (r : Int × Buffer × Bus) :
    (∀ current_time time_string, display_time_info current_time time_string buffer text_color
      window_color fuel bus = some r → r.1 = 0) ∧
    (∀ v, display_ifdev1_rx_info v buffer text_color window_color fuel bus = some r → r.1 = 0) ∧
    (∀ v, display_ifdev1_tx_info v buffer text_color window_color fuel bus = some r → r.1 = 0) ∧
    (∀ v, display_ifdev2_rx_info v buffer text_color window_color fuel bus = some r → r.1 = 0) ∧
    (∀ v, display_ifdev2_tx_info v buffer text_color window_color fuel bus = some r → r.1 = 0) ∧
    (∀ v, display_cpu_info v buffer text_color window_color fuel bus = some r → r.1 = 0) ∧
    (∀ v, display_ram_info v buffer text_color window_color fuel bus = some r → r.1 = 0) ∧
    (∀ v, display_temp_info v buffer text_color window_color fuel bus = some r → r.1 = 0) ∧
    (∀ v, display_uptime_info v buffer text_color window_color fuel bus = some r → r.1 = 0) ∧
    (∀ v, display_fs1_info v buffer text_color window_color fuel bus = some r → r.1 = 0) ∧
    (∀ v, display_fs2_info v buffer text_color window_color fuel bus = some r → r.1 = 0) := by
  refine ⟨?_, ?_, ?_, ?_, ?_, ?_, ?_, ?_, ?_, ?_, ?_⟩
  · intro current_time time_string h
    unfold display_time_info at h
    repeat' split at h
    all_goals first | (cases h; rfl) | cases h
  · intro v h
    unfold display_ifdev1_rx_info at h
    repeat' split at h
    all_goals first | (cases h; rfl) | cases h
  · intro v h
    unfold display_ifdev1_tx_info at h
    repeat' split at h
    all_goals first | (cases h; rfl) | cases h
  · intro v h
    unfold display_ifdev2_rx_info at h
    repeat' split at h
    all_goals first | (cases h; rfl) | cases h
  · intro v h
    unfold display_ifdev2_tx_info at h
    repeat' split at h
    all_goals first | (cases h; rfl) | cases h
  · intro v h
    unfold display_cpu_info at h
    repeat' split at h
    all_goals first | (cases h; rfl) | cases h
  · intro v h
    unfold display_ram_info at h
    repeat' split at h
    all_goals first | (cases h; rfl) | cases h
  · intro v h
    unfold display_temp_info at h
    repeat' split at h
    all_goals first | (cases h; rfl) | cases h
  · intro v h
    unfold display_uptime_info at h
    repeat' split at h
    all_goals first | (cases h; rfl) | cases h
  · intro v h
    unfold display_fs1_info at h
    repeat' split at h
    all_goals first | (cases h; rfl) | cases h
  · intro v h
    unfold display_fs2_info at h
    repeat' split at h
    all_goals first | (cases h; rfl) | cases h

/-! ## Theorems: field updates -/

/-! ## Theorems: decimal digits and field texts -/

theorem toDigitsCore_fuel : ∀ (fuel1 fuel2 n : Nat) (ds : List Char), n < fuel1 → n < fuel2 →
    Nat.toDigitsCore 10 fuel1 n ds = Nat.toDigitsCore 10 fuel2 n ds := by
  intro fuel1
  induction fuel1 with
  | zero => intro fuel2 n ds h; omega
  | succ f1 ih =>
    intro fuel2 n ds h1 h2
    cases fuel2 with
    | zero => omega
    | succ f2 =>
      unfold Nat.toDigitsCore
      simp only
      by_cases h : n / 10 = 0
      · rw [if_pos h, if_pos h]
      · rw [if_neg h, if_neg h]
        exact ih f2 (n / 10) _ (by omega) (by omega)

theorem toDigitsCore_append : ∀ (fuel n : Nat) (ds : List Char),
    Nat.toDigitsCore 10 fuel n ds = Nat.toDigitsCore 10 fuel n [] ++ ds := by
  intro fuel
  induction fuel with
  | zero => intro n ds; rfl
  | succ f ih =>
    intro n ds
    unfold Nat.toDigitsCore
    simp only
    by_cases h : n / 10 = 0
    · rw [if_pos h, if_pos h]; rfl
    · rw [if_neg h, if_neg h, ih _ (_ :: ds), ih _ [_], List.append_assoc]; rfl

/-- The decimal digits of `n`: one digit below 10, else the digits of `n / 10`
followed by the last digit. -/
theorem toDigits_step (n : Nat) :
    Nat.toDigits 10 n =
      if n < 10 then [Nat.digitChar n] else Nat.toDigits 10 (n / 10) ++ [Nat.digitChar (n % 10)] := by
  unfold Nat.toDigits
  rw [Nat.toDigitsCore]
  by_cases h : n < 10
  · rw [if_pos h, if_pos (by omega), Nat.mod_eq_of_lt h]
  · rw [if_neg h, if_neg (by omega), toDigitsCore_append,
      toDigitsCore_fuel n (n / 10 + 1) (n / 10) [] (by omega) (by omega)]

theorem digitChar_digit (d : Nat) (h : d < 10) :
    48 ≤ (Nat.digitChar d).toNat ∧ (Nat.digitChar d).toNat ≤ 57 := by
  interval_cases d <;> decide

theorem toDigits_chars (n : Nat) : ∀ c ∈ Nat.toDigits 10 n, 48 ≤ c.toNat ∧ c.toNat ≤ 57 := by
  induction n using Nat.strong_induction_on with
  | _ n ih =>
    rw [toDigits_step]
    by_cases h : n < 10
    · rw [if_pos h]
      intro c hc
      rw [List.mem_singleton] at hc
      subst hc
      exact digitChar_digit n h
    · rw [if_neg h]
      intro c hc
      rw [List.mem_append, List.mem_singleton] at hc
      rcases hc with hc | hc
      · exact ih (n / 10) (by omega) c hc
      · subst hc
        exact digitChar_digit _ (Nat.mod_lt _ (by norm_num))

theorem toDigits_length_pos (n : Nat) : 1 ≤ (Nat.toDigits 10 n).length := by
  rw [toDigits_step]
  split <;> simp

theorem toDigits_length_le (e : Nat) : ∀ n, n < 10 ^ (e + 1) → (Nat.toDigits 10 n).length ≤ e + 1 := by
  induction e with
  | zero =>
    intro n h
    rw [toDigits_step, if_pos (by simpa using h)]
    simp
  | succ e ih =>
    intro n h
    rw [toDigits_step]
    split
    · simp
    · rw [List.length_append, List.length_singleton]
      have := ih (n / 10) (by rw [Nat.div_lt_iff_lt_mul (by norm_num)]; rw [pow_succ] at h; exact h)
      omega

theorem toDigits_length_ge (e : Nat) : ∀ n, 10 ^ e ≤ n → e + 1 ≤ (Nat.toDigits 10 n).length := by
  induction e with
  | zero => intro n _; exact toDigits_length_pos n
  | succ e ih =>
    intro n h
    have h10 : 10 ≤ n := le_trans (by rw [pow_succ]; have := Nat.one_le_pow e 10 (by norm_num); omega) h
    rw [toDigits_step, if_neg (by omega), List.length_append, List.length_singleton]
    have := ih (n / 10) (by rw [Nat.le_div_iff_mul_le (by norm_num)]; rw [pow_succ] at h; exact h)
    omega

theorem printf_d_length (zero_flag : Bool) (width : Nat) (x : Int) :
    (printf_d zero_flag width x).length =
      max width ((Nat.toDigits 10 x.natAbs).length + if x < 0 then 1 else 0) := by
  unfold printf_d
  simp only
  by_cases hx : x < 0
  · rw [if_pos hx, if_pos hx]
    cases zero_flag
    · simp [List.length_append, List.length_replicate]; omega
    · simp [List.length_append, List.length_replicate]; omega
  · rw [if_neg hx, if_neg hx]
    simp [List.length_append, List.length_replicate]; omega

theorem printf_d_chars (zero_flag : Bool) (width : Nat) (x : Int) :
    ∀ c ∈ printf_d zero_flag width x, 31 ≤ c.toNat ∧ c.toNat ≤ 126 := by
  have hd : ∀ c ∈ Nat.toDigits 10 x.natAbs, 31 ≤ c.toNat ∧ c.toNat ≤ 126 := by
    intro c hc
    have := toDigits_chars _ c hc
    omega
  have hr : ∀ (n : Nat) (a : Char), 31 ≤ a.toNat ∧ a.toNat ≤ 126 →
      ∀ c ∈ List.replicate n a, 31 ≤ c.toNat ∧ c.toNat ≤ 126 := by
    intro n a ha c hc
    rw [List.eq_of_mem_replicate hc]
    exact ha
  unfold printf_d
  simp only
  intro c hc
  by_cases hx : x < 0
  · rw [if_pos hx] at hc
    cases zero_flag
    · simp only [Bool.false_eq_true, if_false, List.mem_append, List.mem_cons] at hc
      rcases hc with hc | hc | hc
      · exact hr _ _ (by decide) c hc
      · subst hc; decide
      · exact hd c hc
    · simp only [if_true, List.mem_append, List.mem_cons] at hc
      rcases hc with hc | hc | hc
      · subst hc; decide
      · exact hr _ _ (by decide) c hc
      · exact hd c hc
  · rw [if_neg hx, List.mem_append] at hc
    rcases hc with hc | hc
    · refine hr _ _ ?_ c hc
      cases zero_flag <;> decide
    · exact hd c hc

theorem field_text_of_chars (l : List Char) (L : Nat) (hl : L ≤ l.length)
    (hc : ∀ c ∈ l, 31 ≤ c.toNat ∧ c.toNat ≤ 126) : field_text_in_table (String.mk l) L := by
  refine ⟨hl, fun i hi => ?_⟩
  unfold c_string
  have hlt : i < l.length := by omega
  have e : (String.mk l).toList = l := rfl
  rw [e, List.get?_eq_get hlt]
  have := hc _ (List.get_mem l i hlt)
  show 31 ≤ ((l.get ⟨i, hlt⟩).toNat : Int) ∧ ((l.get ⟨i, hlt⟩).toNat : Int) ≤ 126
  omega

theorem percent_text_in_table (q : Int) : field_text_in_table (percent_text q) 4 := by
  unfold percent_text
  apply field_text_of_chars
  · rw [List.length_append, printf_d_length]
    simp only [List.length_singleton]
    omega
  · intro c hc
    simp only [List.mem_append, List.mem_singleton] at hc
    rcases hc with hc | hc
    · exact printf_d_chars _ _ _ c hc
    · subst hc; decide

theorem raster_of_field_text (s : String) (L : Nat) (h : field_text_in_table s L)
    (buffer : Buffer) (data_size tc wc : Nat) :
    ∃ out, write_text_to_display_raster buffer data_size (c_string s) L tc wc = some out :=
  raster_i_some data_size L (c_string s) tc wc L 0 buffer (fun i2 _ h2 => h.2 i2 (by omega))

theorem printf_d_3_length (q : Int) :
    (printf_d false 3 q).length = 3 ↔ -99 ≤ q ∧ q ≤ 999 := by
  rw [printf_d_length]
  have h1 := toDigits_length_pos q.natAbs
  by_cases hq : q < 0
  · rw [if_pos hq]
    by_cases h : q.natAbs < 100
    · have := toDigits_length_le 1 q.natAbs (by simpa using h)
      omega
    · have := toDigits_length_ge 2 q.natAbs (by simpa using h)
      omega
  · rw [if_neg hq]
    by_cases h : q.natAbs < 1000
    · have := toDigits_length_le 2 q.natAbs (by simpa using h)
      omega
    · have := toDigits_length_ge 3 q.natAbs (by simpa using h)
      omega

theorem font_row_in_table (c : Int) (j : Nat) (hj : j < 16) :
    (∃ row, font_row c j = some row) ↔ 31 ≤ c ∧ c ≤ 126 := by
  constructor
  · rintro ⟨row, h⟩
    unfold font_row at h
    by_cases h0 : 0 ≤ c - 31
    · rw [if_pos h0] at h
      refine ⟨by omega, ?_⟩
      by_contra hn
      have hlen : font.length = 96 := by decide
      rw [List.get?_eq_none.mpr (by rw [hlen]; omega)] at h
      cases h
    · rw [if_neg h0] at h
      cases h
  · rintro ⟨h1, h2⟩
    exact font_row_defined c h1 h2 j hj

theorem raster_depends_on_field (n : Nat) (hn : 1 ≤ n) (text1 text2 : Nat → Int)
    (h1 : ∀ i, i < n → 31 ≤ text1 i ∧ text1 i ≤ 126) (he : ∀ i, i < n → text2 i = text1 i)
    (tc wc : Nat) (buffer : Buffer) :
    write_text_to_display_raster buffer (16 * 11 * n) text2 n tc wc
      = write_text_to_display_raster buffer (16 * 11 * n) text1 n tc wc := by
  obtain ⟨out1, ho1, hv1⟩ := raster_closed_form n hn text1 h1 tc wc buffer
  obtain ⟨out2, ho2, hv2⟩ := raster_closed_form n hn text2
    (fun i hi => by rw [he i hi]; exact h1 i hi) tc wc buffer
  rw [ho1, ho2]
  congr 1
  funext p
  rw [hv1, hv2]
  by_cases hp : p < 176 * n
  · rw [if_pos hp, if_pos hp, he]
    have := (index_compose n p hn).2.1
    exact this
  · rw [if_neg hp, if_neg hp]

theorem toDigits_thousands (m : Nat) (h : 1000 ≤ m) :
    ∃ d2 d1 d0 : Char, Nat.toDigits 10 m = Nat.toDigits 10 (m / 1000) ++ [d2, d1, d0] := by
  have e1 := toDigits_step m
  rw [if_neg (by omega)] at e1
  have e2 := toDigits_step (m / 10)
  rw [if_neg (by omega)] at e2
  have e3 := toDigits_step (m / 10 / 10)
  rw [if_neg (by omega)] at e3
  have e4 : m / 10 / 10 / 10 = m / 1000 := by omega
  rw [e4] at e3
  refine ⟨Nat.digitChar (m / 10 / 10 % 10), Nat.digitChar (m / 10 % 10), Nat.digitChar (m % 10),
    ?_⟩
  rw [e1, e2, e3]
  simp only [List.append_assoc, List.singleton_append]
  rfl

theorem digit_not_newline (c : Char) (h : 48 ≤ c.toNat ∧ c.toNat ≤ 57) : c ≠ Char.ofNat 10 := by
  intro e
  rw [e] at h
  revert h
  decide

theorem fgets_two (a b : Char) (rest : List Char) (ha : a ≠ Char.ofNat 10) :
    c_string (String.mk (fgets 9 (a :: b :: rest))) 0 = (a.toNat : Int) ∧
    c_string (String.mk (fgets 9 (a :: b :: rest))) 1 = (b.toNat : Int) := by
  unfold fgets c_string
  show (match (fgets_chars 8 (a :: b :: rest)).get? 0 with
      | some c => (c.toNat : Int) | none => 0) = _ ∧
    (match (fgets_chars 8 (a :: b :: rest)).get? 1 with
      | some c => (c.toNat : Int) | none => 0) = _
  rw [fgets_chars, if_neg ha, fgets_chars]
  by_cases hb : b = Char.ofNat 10
  · rw [if_pos hb]; exact ⟨rfl, rfl⟩
  · rw [if_neg hb]; exact ⟨rfl, rfl⟩

theorem temp_string_two_digits (m : Nat) (h : 10 ≤ m) :
    ∃ a b rest, Nat.toDigits 10 m = a :: b :: rest ∧
      display_temp_info_temp_string m 0 = (a.toNat : Int) ∧
      display_temp_info_temp_string m 1 = (b.toNat : Int) := by
  have hl := toDigits_length_ge 1 m (by simpa using h)
  have hc := toDigits_chars m
  unfold display_temp_info_temp_string thermal_zone0_temp
  generalize Nat.toDigits 10 m = ds at hl hc
  match ds, hl, hc with
  | a :: b :: rest, _, hc =>
    exact ⟨a, b, rest, rfl, fgets_two a b (rest ++ [Char.ofNat 10])
      (digit_not_newline a (hc a (by simp)))⟩

theorem temp_string_one_digit (m : Nat) (h : m < 10) :
    display_temp_info_temp_string m 0 = ((Nat.digitChar m).toNat : Int) ∧
    display_temp_info_temp_string m 1 = 10 := by
  unfold display_temp_info_temp_string thermal_zone0_temp
  rw [toDigits_step, if_pos h]
  have := fgets_two (Nat.digitChar m) (Char.ofNat 10) []
    (digit_not_newline _ (digitChar_digit m h))
  exact this

/-! ## Theorems: framebuffer drawing -/

theorem buffer_write_h_line_loop_eq (x2 y color : Nat) (hy : y < 240) (hx : x2 ≤ 320) :
    ∀ (rem i : Nat) (b : Frame), i + rem = x2 →
      buffer_write_h_line_loop x2 y color rem i b =
        some (fun r c => if r = y ∧ i ≤ c ∧ c < x2 then color else b r c) := by
  intro rem
  induction rem with
  | zero =>
    intro i b h
    rw [buffer_write_h_line_loop]
    congr 1
    funext r c
    rw [if_neg (by omega)]
  | succ rem ih =>
    intro i b h
    rw [buffer_write_h_line_loop, if_pos (by omega)]
    have hs : b.store y i color = some (fun r c => if r = y ∧ c = i then color else b r c) := by
      unfold Frame.store
      rw [if_pos ⟨by simpa [SCREEN_HEIGHT] using hy, by simp only [SCREEN_WIDTH]; omega⟩]
    rw [hs]
    simp only
    rw [ih (i + 1) _ (by omega)]
    congr 1
    funext r c
    by_cases h1 : r = y ∧ i + 1 ≤ c ∧ c < x2
    · rw [if_pos h1, if_pos ⟨h1.1, by omega, h1.2.2⟩]
    · rw [if_neg h1]
      by_cases h2 : r = y ∧ c = i
      · rw [if_pos h2, if_pos ⟨h2.1, by omega, by omega⟩]
      · rw [if_neg h2, if_neg (by omega)]

theorem buffer_write_h_line_eq (b : Frame) (x1 x2 y color : Nat) (hy : y < 240) (hx : x2 ≤ 320) :
    buffer_write_h_line b x1 x2 y color =
      some (fun r c => if r = y ∧ x1 ≤ c ∧ c < x2 then color else b r c) := by
  unfold buffer_write_h_line
  by_cases h : x1 ≤ x2
  · exact buffer_write_h_line_loop_eq x2 y color hy hx (x2 - x1) x1 b (by omega)
  · rw [show x2 - x1 = 0 by omega, buffer_write_h_line_loop]
    congr 1
    funext r c
    rw [if_neg (by omega)]

theorem uint16_of_nat (n : Nat) (h : n < 65536) : uint16 (n : Int) = n := by
  unfold uint16
  omega

theorem buffer_write_rectangle_loop_eq (x y w h color : Nat) (hw : x + w ≤ 320)
    (hh : y + h ≤ 240) (h4 : 4 ≤ h) :
    ∀ (rem j : Nat) (b : Frame), j + rem = y + h - 4 →
      buffer_write_rectangle_loop x y w h color rem (j : Int) b =
        some (fun r c => if (j ≤ r ∧ r < y + h - 4) ∧ x ≤ c ∧ c < x + w then color else b r c) := by
  intro rem
  induction rem with
  | zero =>
    intro j b hj
    rw [buffer_write_rectangle_loop]
    congr 1
    funext r c
    rw [if_neg (by omega)]
  | succ rem ih =>
    intro j b hj
    rw [buffer_write_rectangle_loop, if_pos (by omega)]
    rw [show ((x : Int) + w) = ((x + w : Nat) : Int) by push_cast; rfl,
      uint16_of_nat _ (by omega), uint16_of_nat _ (by omega),
      buffer_write_h_line_eq _ _ _ _ _ (by omega) hw]
    simp only
    have := ih (j + 1) (fun r c => if r = j ∧ x ≤ c ∧ c < x + w then color else b r c) (by omega)
    rw [show ((j : Int) + 1) = ((j + 1 : Nat) : Int) by push_cast; rfl, this]
    congr 1
    funext r c
    beta_reduce
    by_cases h1 : (j + 1 ≤ r ∧ r < y + h - 4) ∧ x ≤ c ∧ c < x + w
    · rw [if_pos h1, if_pos ⟨⟨by omega, h1.1.2⟩, h1.2⟩]
    · rw [if_neg h1]
      by_cases h2 : r = j ∧ x ≤ c ∧ c < x + w
      · rw [if_pos h2, if_pos ⟨⟨by omega, by omega⟩, h2.2⟩]
      · rw [if_neg h2, if_neg (by omega)]

theorem ite_chain (P Q : Prop) [Decidable P] [Decidable Q] (a z : Nat) :
    (if P then a else if Q then a else z) = if P ∨ Q then a else z := by
  by_cases hp : P <;> by_cases hq : Q <;> simp [hp, hq]

/-- The pixels written by `buffer_write_rectangle`, for a rectangle of at least
8 by 8 pixels inside the screen. -/
theorem buffer_write_rectangle_eq (buffer : Frame) (x y w h color : Nat) (hw8 : 8 ≤ w)
    (hh8 : 8 ≤ h) (hw : x + w ≤ 320) (hh : y + h ≤ 240) :
    buffer_write_rectangle buffer x y w h color =
      some (fun row col => if rectangle_pixel x y w h row col then color else buffer row col) := by
  unfold buffer_write_rectangle
  have e5 : (((y : Int) + h - 4) - ((y : Int) + 4)).toNat = h - 8 := by omega
  rw [e5]
  have r1 : (x : Int) + 1 = ((x + 1 : Nat) : Int) := by omega
  have r2 : (x : Int) + 2 = ((x + 2 : Nat) : Int) := by omega
  have r3 : (x : Int) + 3 = ((x + 3 : Nat) : Int) := by omega
  have r4 : (x : Int) + 4 = ((x + 4 : Nat) : Int) := by omega
  have s1 : (x : Int) + w - 1 = ((x + w - 1 : Nat) : Int) := by omega
  have s2 : (x : Int) + w - 2 = ((x + w - 2 : Nat) : Int) := by omega
  have s3 : (x : Int) + w - 3 = ((x + w - 3 : Nat) : Int) := by omega
  have s4 : (x : Int) + w - 4 = ((x + w - 4 : Nat) : Int) := by omega
  have t1 : (y : Int) + 1 = ((y + 1 : Nat) : Int) := by omega
  have t2 : (y : Int) + 2 = ((y + 2 : Nat) : Int) := by omega
  have t3 : (y : Int) + 3 = ((y + 3 : Nat) : Int) := by omega
  have t4 : (y : Int) + 4 = ((y + 4 : Nat) : Int) := by omega
  have u1 : (y : Int) + h - 1 = ((y + h - 1 : Nat) : Int) := by omega
  have u2 : (y : Int) + h - 2 = ((y + h - 2 : Nat) : Int) := by omega
  have u3 : (y : Int) + h - 3 = ((y + h - 3 : Nat) : Int) := by omega
  have u4 : (y : Int) + h - 4 = ((y + h - 4 : Nat) : Int) := by omega
  rw [r1, r2, r3, r4, s1, s2, s3, s4, t1, t2, t3, t4, u1, u2, u3, u4]
  simp only [uint16_of_nat _ (show x + 1 < 65536 by omega),
    uint16_of_nat _ (show x + 2 < 65536 by omega), uint16_of_nat _ (show x + 3 < 65536 by omega),
    uint16_of_nat _ (show x + 4 < 65536 by omega), uint16_of_nat _ (show x + w - 1 < 65536 by omega),
    uint16_of_nat _ (show x + w - 2 < 65536 by omega),
    uint16_of_nat _ (show x + w - 3 < 65536 by omega),
    uint16_of_nat _ (show x + w - 4 < 65536 by omega),
    uint16_of_nat _ (show y + 1 < 65536 by omega), uint16_of_nat _ (show y + 2 < 65536 by omega),
    uint16_of_nat _ (show y + 3 < 65536 by omega),
    uint16_of_nat _ (show y + h - 1 < 65536 by omega),
    uint16_of_nat _ (show y + h - 2 < 65536 by omega),
    uint16_of_nat _ (show y + h - 3 < 65536 by omega),
    uint16_of_nat _ (show y + h - 4 < 65536 by omega)]
  rw [buffer_write_h_line_eq _ _ _ _ _ (by omega) (by omega)]
  simp only [Option.bind_eq_bind, Option.some_bind]
  rw [buffer_write_h_line_eq _ _ _ _ _ (by omega) (by omega)]
  simp only [Option.some_bind]
  rw [buffer_write_h_line_eq _ _ _ _ _ (by omega) (by omega)]
  simp only [Option.some_bind]
  rw [buffer_write_h_line_eq _ _ _ _ _ (by omega) (by omega)]
  simp only [Option.some_bind]
  rw [buffer_write_rectangle_loop_eq x y w h color hw hh (by omega) (h - 8) (y + 4) _ (by omega)]
  simp only [Option.some_bind]
  rw [buffer_write_h_line_eq _ _ _ _ _ (by omega) (by omega)]
  simp only [Option.some_bind]
  rw [buffer_write_h_line_eq _ _ _ _ _ (by omega) (by omega)]
  simp only [Option.some_bind]
  rw [buffer_write_h_line_eq _ _ _ _ _ (by omega) (by omega)]
  simp only [Option.some_bind]
  rw [buffer_write_h_line_eq _ _ _ _ _ (by omega) (by omega)]
  clear e5 r1 r2 r3 r4 s1 s2 s3 s4 t1 t2 t3 t4 u1 u2 u3 u4
  congr 1
  funext row col
  have hr : row < y ∨ row = y ∨ row = y + 1 ∨ row = y + 2 ∨ row = y + 3 ∨
      (y + 4 ≤ row ∧ row < y + h - 4) ∨ row = y + h - 4 ∨ row = y + h - 3 ∨
      row = y + h - 2 ∨ row = y + h - 1 ∨ y + h ≤ row := by omega
  have hi : ∀ k, row - y = k → k < 4 → rectangle_inset h (row - y) = 4 - k := by
    intro k h1 h2; unfold rectangle_inset; rw [if_pos (by omega), h1]
  have hm : 4 ≤ row - y → row - y + 4 < h → rectangle_inset h (row - y) = 0 := by
    intro h1 h2; unfold rectangle_inset; rw [if_neg (by omega), if_pos h2]
  have hb : ∀ k, row - y + k + 1 = h → k < 4 → rectangle_inset h (row - y) = 4 - k := by
    intro k h1 h2; unfold rectangle_inset; rw [if_neg (by omega), if_neg (by omega)]; omega
  unfold rectangle_pixel
  rcases hr with hr | hr | hr | hr | hr | hr | hr | hr | hr | hr | hr
  · repeat rw [if_neg (by omega)]
  · simp only [hi 0 (by omega) (by omega)]
    repeat rw [if_neg (by omega)]
    apply if_congr _ rfl rfl
    omega
  · simp only [hi 1 (by omega) (by omega)]
    repeat rw [if_neg (by omega)]
    apply if_congr _ rfl (by rw [if_neg (by omega)])
    omega
  · simp only [hi 2 (by omega) (by omega)]
    repeat rw [if_neg (by omega)]
    apply if_congr _ rfl (by repeat rw [if_neg (by omega)])
    omega
  · simp only [hi 3 (by omega) (by omega)]
    repeat rw [if_neg (by omega)]
    apply if_congr _ rfl (by repeat rw [if_neg (by omega)])
    omega
  · simp only [hm (by omega) (by omega)]
    repeat rw [if_neg (by omega)]
    apply if_congr _ rfl (by repeat rw [if_neg (by omega)])
    omega
  · simp only [hb 3 (by omega) (by omega)]
    repeat rw [if_neg (by omega)]
    apply if_congr _ rfl (by repeat rw [if_neg (by omega)])
    omega
  · simp only [hb 2 (by omega) (by omega)]
    repeat rw [if_neg (by omega)]
    apply if_congr _ rfl (by repeat rw [if_neg (by omega)])
    omega
  · simp only [hb 1 (by omega) (by omega)]
    repeat rw [if_neg (by omega)]
    apply if_congr _ rfl (by repeat rw [if_neg (by omega)])
    omega
  · simp only [hb 0 (by omega) (by omega)]
    apply if_congr _ rfl (by repeat rw [if_neg (by omega)])
    omega
  · repeat rw [if_neg (by omega)]

theorem rectangle_inset_values (h : Nat) (hh8 : 8 ≤ h) :
    rectangle_inset h 0 = 4 ∧ rectangle_inset h 1 = 3 ∧ rectangle_inset h 2 = 2 ∧
    rectangle_inset h 3 = 1 ∧ (∀ t, 4 ≤ t → t + 5 ≤ h → rectangle_inset h t = 0) ∧
    rectangle_inset h (h - 4) = 1 ∧ rectangle_inset h (h - 3) = 2 ∧
    rectangle_inset h (h - 2) = 3 ∧ rectangle_inset h (h - 1) = 4 := by
  unfold rectangle_inset
  refine ⟨by simp, by simp, by simp, by simp, ?_, ?_, ?_, ?_, ?_⟩
  · intro t h1 h2
    rw [if_neg (by omega), if_pos (by omega)]
  all_goals rw [if_neg (by omega), if_neg (by omega)]; omega

theorem sum_range_ends (f : Nat → Nat) (k : Nat) :
    (Finset.range (k + 8)).sum f =
      (Finset.range k).sum (fun t => f (t + 4)) + f 3 + f 2 + f 1 + f 0
        + f (k + 4) + f (k + 5) + f (k + 6) + f (k + 7) := by
  rw [show k + 8 = k + 4 + 1 + 1 + 1 + 1 by omega, Finset.sum_range_succ, Finset.sum_range_succ,
    Finset.sum_range_succ, Finset.sum_range_succ,
    show k + 4 = k + 1 + 1 + 1 + 1 by omega, Finset.sum_range_succ', Finset.sum_range_succ',
    Finset.sum_range_succ', Finset.sum_range_succ']

theorem rectangle_inset_sum (w h : Nat) (hw8 : 8 ≤ w) (hh8 : 8 ≤ h) :
    (Finset.range h).sum (fun t => w - 2 * rectangle_inset h t) = w * h - 40 := by
  obtain ⟨k, rfl⟩ : ∃ k, h = k + 8 := ⟨h - 8, by omega⟩
  obtain ⟨v0, v1, v2, v3, vm, b1, b2, b3, b4⟩ := rectangle_inset_values (k + 8) hh8
  rw [sum_range_ends]
  have hmid : (Finset.range k).sum (fun t => w - 2 * rectangle_inset (k + 8) (t + 4))
      = k * w := by
    rw [Finset.sum_congr rfl (g := fun _ => w), Finset.sum_const, Finset.card_range, smul_eq_mul]
    intro t ht
    rw [Finset.mem_range] at ht
    rw [vm _ (by omega) (by omega)]
    rfl
  rw [hmid]
  have a1 : k + 4 = k + 8 - 4 := by omega
  have a2 : k + 5 = k + 8 - 3 := by omega
  have a3 : k + 6 = k + 8 - 2 := by omega
  have a4 : k + 7 = k + 8 - 1 := by omega
  rw [a1, a2, a3, a4, b1, b2, b3, b4, v0, v1, v2, v3]
  have : w * (k + 8) = k * w + 8 * w := by ring
  rw [this]
  omega

theorem rectangle_card (x w h : Nat) (hw8 : 8 ≤ w) (hh8 : 8 ≤ h) :
    ((Finset.range h).sigma (fun t =>
      Finset.Ico (x + rectangle_inset h t) (x + w - rectangle_inset h t))).card = w * h - 40 := by
  rw [Finset.card_sigma, ← rectangle_inset_sum w h hw8 hh8]
  apply Finset.sum_congr rfl
  intro t _
  rw [Nat.card_Ico]
  omega

theorem buffer_write_string_j_eq (x row char_row tc wc : Nat) (hrow : row < 240) :
    ∀ (rem j : Nat) (b : Frame), j + rem = 11 →
      buffer_write_string_j x row char_row tc wc rem j b =
        some (fun r c => if r = row ∧ x + j ≤ c ∧ c < x + 11 ∧ c < 320
          then pixel char_row (c - x) tc wc else b r c) := by
  intro rem
  induction rem with
  | zero =>
    intro j b h
    rw [buffer_write_string_j]
    congr 1
    funext r c
    rw [if_neg (by omega)]
  | succ rem ih =>
    intro j b h
    rw [buffer_write_string_j]
    by_cases hx : x + j < SCREEN_WIDTH
    · rw [if_pos hx]
      have hx2 : x + j < 320 := hx
      have hs : b.store row (x + j) (pixel char_row j tc wc) =
          some (fun r c => if r = row ∧ c = x + j then pixel char_row j tc wc else b r c) := by
        unfold Frame.store
        rw [if_pos ⟨hrow, hx⟩]
      rw [hs]
      simp only
      rw [ih (j + 1) _ (by omega)]
      congr 1
      funext r c
      by_cases h1 : r = row ∧ x + (j + 1) ≤ c ∧ c < x + 11 ∧ c < 320
      · rw [if_pos h1, if_pos ⟨h1.1, by omega, h1.2.2⟩]
      · rw [if_neg h1]
        by_cases h2 : r = row ∧ c = x + j
        · rw [if_pos h2, if_pos ⟨h2.1, by omega, by omega, by omega⟩]
          congr 1
          omega
        · rw [if_neg h2, if_neg (by omega)]
    · rw [if_neg hx]
      have hx2 : ¬ x + j < 320 := hx
      congr 1
      funext r c
      rw [if_neg (by omega)]

theorem buffer_write_string_i_eq (x y : Nat) (c : Int) (tc wc : Nat) (h1 : 31 ≤ c)
    (h2 : c ≤ 126) :
    ∀ (rem i : Nat) (b : Frame), i + rem = 16 →
      buffer_write_string_i x y c tc wc rem i b =
        some (fun r col => if (y + i ≤ r ∧ r < y + 16 ∧ r < 240) ∧ x ≤ col ∧ col < x + 11 ∧
            col < 320
          then pixel ((font_row c (r - y)).getD 0) (col - x) tc wc else b r col) := by
  intro rem
  induction rem with
  | zero =>
    intro i b h
    rw [buffer_write_string_i]
    congr 1
    funext r col
    rw [if_neg (by omega)]
  | succ rem ih =>
    intro i b h
    rw [buffer_write_string_i]
    by_cases hy : y + i < SCREEN_HEIGHT
    · rw [if_pos hy]
      have hy2 : y + i < 240 := hy
      obtain ⟨char_row, hrow⟩ := font_row_defined c h1 h2 i (by omega)
      rw [hrow]
      simp only
      rw [show FONT_WIDTH = 11 from rfl,
        buffer_write_string_j_eq x (y + i) char_row tc wc hy2 11 0 b (by omega)]
      simp only
      rw [ih (i + 1) _ (by omega)]
      congr 1
      funext r col
      by_cases c1 : (y + (i + 1) ≤ r ∧ r < y + 16 ∧ r < 240) ∧ x ≤ col ∧ col < x + 11 ∧ col < 320
      · rw [if_pos c1, if_pos ⟨⟨by omega, c1.1.2⟩, c1.2⟩]
      · rw [if_neg c1]
        by_cases c2 : r = y + i ∧ x + 0 ≤ col ∧ col < x + 11 ∧ col < 320
        · rw [if_pos c2, if_pos ⟨⟨by omega, by omega, by omega⟩, by omega, c2.2.2⟩]
          rw [c2.1, Nat.add_sub_cancel_left, hrow]
          rfl
        · rw [if_neg c2, if_neg (by omega)]
    · rw [if_neg hy]
      have hy2 : ¬ y + i < 240 := hy
      congr 1
      funext r col
      rw [if_neg (by omega)]

/-- The frame that `buffer_write_string` leaves, for a string of characters
from the glyph table whose last column does not pass 65535. -/
theorem buffer_write_string_eq (y tc wc : Nat) :
    ∀ (s : List Int) (x : Nat) (b : Frame), (∀ c ∈ s, 31 ≤ c ∧ c ≤ 126) →
      x + 11 * s.length ≤ 65535 →
      buffer_write_string b x y s tc wc =
        some (fun r col => if (y ≤ r ∧ r < y + 16 ∧ r < 240) ∧ x ≤ col ∧
            col < x + 11 * s.length ∧ col < 320
          then pixel ((font_row (s.getD ((col - x) / 11) 0) (r - y)).getD 0) ((col - x) % 11) tc wc
          else b r col) := by
  intro s
  induction s with
  | nil =>
    intro x b _ _
    rw [buffer_write_string]
    congr 1
    funext r col
    rw [if_neg (by simp only [List.length_nil]; omega)]
  | cons c rest ih =>
    intro x b hs hx
    rw [List.length_cons] at hx
    have hc := hs c (List.mem_cons_self c rest)
    rw [buffer_write_string, if_neg (by omega), show FONT_HEIGHT = 16 from rfl,
      buffer_write_string_i_eq x y c tc wc hc.1 hc.2 16 0 b (by omega)]
    simp only
    rw [show FONT_WIDTH = 11 from rfl, Nat.mod_eq_of_lt (by omega),
      ih (x + 11) _ (fun c2 h2 => hs c2 (List.mem_cons_of_mem c h2)) (by omega)]
    congr 1
    funext r col
    rw [List.length_cons]
    by_cases c1 : (y ≤ r ∧ r < y + 16 ∧ r < 240) ∧ x + 11 ≤ col ∧
        col < x + 11 + 11 * rest.length ∧ col < 320
    · rw [if_pos c1, if_pos ⟨c1.1, by omega, by omega, c1.2.2.2⟩]
      have e1 : (col - x) / 11 = (col - (x + 11)) / 11 + 1 := by omega
      have e2 : (col - x) % 11 = (col - (x + 11)) % 11 := by omega
      rw [e1, e2, List.getD_cons_succ]
    · rw [if_neg c1]
      by_cases c2 : (y + 0 ≤ r ∧ r < y + 16 ∧ r < 240) ∧ x ≤ col ∧ col < x + 11 ∧ col < 320
      · rw [if_pos c2, if_pos ⟨⟨by omega, c2.1.2⟩, c2.2.1, by omega, c2.2.2.2⟩]
        have e1 : (col - x) / 11 = 0 := by omega
        have e2 : (col - x) % 11 = col - x := by omega
        rw [e1, e2, List.getD_cons_zero]
      · rw [if_neg c2, if_neg (by omega)]

/-- Claim C22. For `w >= 8`, `h >= 8`, `x + w <= 320` and `y + h <= 240`,
`buffer_write_rectangle` stays inside the buffer and sets to `color` exactly
the pixels (row `y + t`, column `col`) with `t < h` and
`x + inset(t) <= col < x + w - inset(t)`, where `inset` is 4, 3, 2, 1 on rows
0..3, 0 on rows `4..h-5` and 1, 2, 3, 4 on rows `h-4..h-1`; every other pixel
keeps its value. These are `w*h - 40` pixels, and the shape is symmetric top to
bottom (`inset(h-1-t) = inset(t)`) and left to right (column `x + k` is in row
`t` of the shape exactly when `x + (w-1-k)` is). -/
theorem buffer_write_rectangle_shape (buffer : Frame) (x y w h color : Nat) (hw8 : 8 ≤ w)
    (hh8 : 8 ≤ h) (hw : x + w ≤ 320) (hh : y + h ≤ 240) :
    (∃ out, buffer_write_rectangle buffer x y w h color = some out ∧
      (∀ t col, t < h → x + rectangle_inset h t ≤ col → col < x + w - rectangle_inset h t →
        out (y + t) col = color) ∧
      (∀ row col, (¬ ∃ t, t < h ∧ row = y + t ∧ x + rectangle_inset h t ≤ col ∧
        col < x + w - rectangle_inset h t) → out row col = buffer row col)) ∧
    (rectangle_inset h 0 = 4 ∧ rectangle_inset h 1 = 3 ∧ rectangle_inset h 2 = 2 ∧
      rectangle_inset h 3 = 1 ∧ (∀ t, 4 ≤ t → t + 5 ≤ h → rectangle_inset h t = 0) ∧
      rectangle_inset h (h - 4) = 1 ∧ rectangle_inset h (h - 3) = 2 ∧
      rectangle_inset h (h - 2) = 3 ∧ rectangle_inset h (h - 1) = 4) ∧
    ((Finset.range h).sigma (fun t =>
      Finset.Ico (x + rectangle_inset h t) (x + w - rectangle_inset h t))).card = w * h - 40 ∧
    (∀ t, t < h → rectangle_inset h (h - 1 - t) = rectangle_inset h t) ∧
    (∀ t k, t < h → k < w →
      ((x + rectangle_inset h t ≤ x + k ∧ x + k < x + w - rectangle_inset h t) ↔
        (x + rectangle_inset h t ≤ x + (w - 1 - k) ∧
          x + (w - 1 - k) < x + w - rectangle_inset h t))) := by
  refine ⟨⟨_, buffer_write_rectangle_eq buffer x y w h color hw8 hh8 hw hh, ?_, ?_⟩,
    rectangle_inset_values h hh8, rectangle_card x w h hw8 hh8, ?_, ?_⟩
  · intro t col ht h1 h2
    have hi : rectangle_inset h t ≤ 4 := by unfold rectangle_inset; split_ifs <;> omega
    rw [if_pos]
    unfold rectangle_pixel
    rw [Nat.add_sub_cancel_left]
    omega
  · intro row col hn
    rw [if_neg]
    intro hp
    unfold rectangle_pixel at hp
    have hi : rectangle_inset h (row - y) ≤ 4 := by unfold rectangle_inset; split_ifs <;> omega
    exact hn ⟨row - y, by omega, by omega, hp.2.2.1, by omega⟩
  · intro t ht
    unfold rectangle_inset
    split_ifs <;> omega
  · intro t k ht hk
    have hi : rectangle_inset h t ≤ 4 := by unfold rectangle_inset; split_ifs <;> omega
    omega

theorem buffer_write_rectangle_shape_witness :
    ∃ out, buffer_write_rectangle (fun _ _ => 0) 10 11 300 46 1 = some out ∧
      out (11 + 0) 14 = 1 ∧ out 11 13 = 0 := by
  obtain ⟨⟨out, h1, h2, h3⟩, hv, -⟩ := buffer_write_rectangle_shape (fun _ _ => 0) 10 11 300 46 1
    (by decide) (by decide) (by decide) (by decide)
  refine ⟨out, h1, h2 0 14 (by decide) (by rw [hv.1]) (by rw [hv.1]; decide), ?_⟩
  apply h3
  rintro ⟨t, ht, hrow, hc1, hc2⟩
  have : t = 0 := by omega
  subst this
  rw [hv.1] at hc1
  omega

/-- Claim C24. For every buffer of 240 rows by 320 columns, every start
`(x, y)` and every string `s` of characters with codes in 31..126 and
`x + 11 * length <= 65535`, `buffer_write_string` stays inside the buffer
(the result is `some`), sets pixel `(y+i, x+11*g+j)` for glyph `g`, row
`i < 16`, column `j < 11` to `text_color` when bit `15-j` of
`font[s[g]-31][i]` is 1 and to `window_color` otherwise, provided `y+i < 240`
and `x+11*g+j < 320`, and leaves every other pixel unchanged. -/
theorem buffer_write_string_glyphs (buffer : Frame) (x y : Nat) (s : List Int)
    (text_color window_color : Nat) (hs : ∀ c ∈ s, 31 ≤ c ∧ c ≤ 126)
    (hx : x + 11 * s.length ≤ 65535) :
    ∃ out, buffer_write_string buffer x y s text_color window_color = some out ∧
      (∀ g i j, g < s.length → i < 16 → j < 11 → y + i < 240 → x + 11 * g + j < 320 →
        ∃ row, font_row (s.getD g 0) i = some row ∧
          out (y + i) (x + 11 * g + j)
            = if row.testBit (15 - j) then text_color else window_color) ∧
      (∀ row col, (¬ ∃ g i j, g < s.length ∧ i < 16 ∧ j < 11 ∧ row = y + i ∧
          col = x + 11 * g + j ∧ row < 240 ∧ col < 320) → out row col = buffer row col) := by
  refine ⟨_, buffer_write_string_eq y text_color window_color s x buffer hs hx, ?_, ?_⟩
  · intro g i j hg hi hj hr hc
    have hmem : s.getD g 0 ∈ s := by
      rw [List.getD_eq_getElem s 0 hg]
      exact List.getElem_mem hg
    obtain ⟨row, hrow⟩ := font_row_defined (s.getD g 0) (hs _ hmem).1 (hs _ hmem).2 i hi
    refine ⟨row, hrow, ?_⟩
    have e1 : (x + 11 * g + j - x) / 11 = g := by omega
    have e2 : (x + 11 * g + j - x) % 11 = j := by omega
    have e3 : y + i - y = i := by omega
    have hlt : x + 11 * g + j < x + 11 * s.length := by
      have : 11 * (g + 1) ≤ 11 * s.length := Nat.mul_le_mul_left 11 hg
      omega
    rw [if_pos ⟨⟨by omega, by omega, hr⟩, by omega, hlt, hc⟩, e1, e2, e3, hrow,
      Option.getD_some, pixel_eq_testBit _ _ _ _ (by omega)]
  · intro row col hn
    rw [if_neg]
    rintro ⟨⟨h1, h2, h3⟩, h4, h5, h6⟩
    refine hn ⟨(col - x) / 11, row - y, (col - x) % 11, ?_, by omega, Nat.mod_lt _ (by norm_num),
      by omega, ?_, h3, h6⟩
    · rw [Nat.div_lt_iff_lt_mul (by norm_num)]
      omega
    · have := Nat.div_add_mod (col - x) 11
      omega

theorem buffer_write_string_glyphs_witness :
    ∃ out, buffer_write_string (fun _ _ => 0) 315 230 [65] 1 2 = some out ∧
      out (230 + 2) (315 + 11 * 0 + 4) = 1 ∧ out 232 310 = 0 := by
  obtain ⟨out, h1, h2, h3⟩ := buffer_write_string_glyphs (fun _ _ => 0) 315 230 [65] 1 2
    (by decide) (by decide)
  refine ⟨out, h1, ?_, ?_⟩
  · obtain ⟨row, hr, hv⟩ := h2 0 2 4 (by decide) (by decide) (by decide) (by decide) (by decide)
    have hrow : font_row 65 2 = some 0x0F00 := by decide
    have e : [(65 : Int)].getD 0 0 = 65 := rfl
    rw [e, hrow] at hr
    cases hr
    rw [hv]
    decide
  · apply h3
    rintro ⟨g, i, j, hg, hi, hj, hrow, hcol, -, -⟩
    simp only [List.length_singleton] at hg
    omega

theorem rectangle_pixel_of_margin (x y w h x1 y1 x2 y2 row col : Nat)
    (hm : y + 3 ≤ y1 ∧ y2 + 3 ≤ y + h ∧ x + 1 ≤ x1 ∧ x2 + 1 ≤ x + w)
    (hin : y1 ≤ row ∧ row < y2 ∧ x1 ≤ col ∧ col < x2) : rectangle_pixel x y w h row col := by
  unfold rectangle_pixel rectangle_inset
  split_ifs <;> omega

theorem field_regions_margin : ∀ region ∈ field_regions, ∃ sq ∈ display_fixed_info_squares,
    sq.y + 3 ≤ region.y1 ∧ region.y2 + 3 ≤ sq.y + sq.h ∧ sq.x + 1 ≤ region.x1 ∧
      region.x2 + 1 ≤ sq.x + sq.w := by
  decide

theorem four_rectangles (buffer : Frame) (color x1 y1 w1 h1 x2 y2 w2 h2 x3 y3 w3 h3 x4 y4 w4 h4 : Nat)
    (a1 : 8 ≤ w1 ∧ 8 ≤ h1 ∧ x1 + w1 ≤ 320 ∧ y1 + h1 ≤ 240)
    (a2 : 8 ≤ w2 ∧ 8 ≤ h2 ∧ x2 + w2 ≤ 320 ∧ y2 + h2 ≤ 240)
    (a3 : 8 ≤ w3 ∧ 8 ≤ h3 ∧ x3 + w3 ≤ 320 ∧ y3 + h3 ≤ 240)
    (a4 : 8 ≤ w4 ∧ 8 ≤ h4 ∧ x4 + w4 ≤ 320 ∧ y4 + h4 ≤ 240) :
    (buffer_write_rectangle buffer x1 y1 w1 h1 color).bind (fun b1 =>
      (buffer_write_rectangle b1 x2 y2 w2 h2 color).bind (fun b2 =>
        (buffer_write_rectangle b2 x3 y3 w3 h3 color).bind (fun b3 =>
          buffer_write_rectangle b3 x4 y4 w4 h4 color))) =
    some (fun row col =>
      if rectangle_pixel x4 y4 w4 h4 row col then color
      else if rectangle_pixel x3 y3 w3 h3 row col then color
      else if rectangle_pixel x2 y2 w2 h2 row col then color
      else if rectangle_pixel x1 y1 w1 h1 row col then color
      else buffer row col) := by
  rw [buffer_write_rectangle_eq buffer x1 y1 w1 h1 color a1.1 a1.2.1 a1.2.2.1 a1.2.2.2,
    Option.some_bind,
    buffer_write_rectangle_eq _ x2 y2 w2 h2 color a2.1 a2.2.1 a2.2.2.1 a2.2.2.2,
    Option.some_bind,
    buffer_write_rectangle_eq _ x3 y3 w3 h3 color a3.1 a3.2.1 a3.2.2.1 a3.2.2.2,
    Option.some_bind,
    buffer_write_rectangle_eq _ x4 y4 w4 h4 color a4.1 a4.2.1 a4.2.2.1 a4.2.2.2]

theorem display_fixed_info_rectangles_eq (buffer : Frame) (window_color : Nat) :
    display_fixed_info_rectangles buffer window_color = some (fun row col =>
      if rectangle_pixel SQUARE4_X SQUARE4_Y SQUARE4_W SQUARE4_H row col then window_color
      else if rectangle_pixel SQUARE3_X SQUARE3_Y SQUARE3_W SQUARE3_H row col then window_color
      else if rectangle_pixel SQUARE2_X SQUARE2_Y SQUARE2_W SQUARE2_H row col then window_color
      else if rectangle_pixel SQUARE1_X SQUARE1_Y SQUARE1_W SQUARE1_H row col then window_color
      else buffer row col) :=
  four_rectangles buffer window_color SQUARE1_X SQUARE1_Y SQUARE1_W SQUARE1_H
    SQUARE2_X SQUARE2_Y SQUARE2_W SQUARE2_H SQUARE3_X SQUARE3_Y SQUARE3_W SQUARE3_H
    SQUARE4_X SQUARE4_Y SQUARE4_W SQUARE4_H (by decide) (by decide) (by decide) (by decide)

/-- Claim C30. Every pixel of each of the eleven field regions lies in the
pixel set of one of the four rectangles drawn by `display_fixed_info`, corner
insets included; after the four `buffer_write_rectangle` calls every such
pixel holds `window_color`, while a pixel in none of the four sets keeps its
value; and no pixel belongs to two of the eleven field regions. -/
theorem field_regions_inside_windows :
    (∀ region ∈ field_regions, ∀ row col, region.contains row col →
      ∃ sq ∈ display_fixed_info_squares, rectangle_pixel sq.x sq.y sq.w sq.h row col) ∧
    (∀ (buffer : Frame) (window_color : Nat),
      ∃ out, display_fixed_info_rectangles buffer window_color = some out ∧
        (∀ row col, (∃ sq ∈ display_fixed_info_squares,
          rectangle_pixel sq.x sq.y sq.w sq.h row col) → out row col = window_color) ∧
        (∀ row col, (¬ ∃ sq ∈ display_fixed_info_squares,
          rectangle_pixel sq.x sq.y sq.w sq.h row col) → out row col = buffer row col) ∧
        (∀ region ∈ field_regions, ∀ row col, region.contains row col →
          out row col = window_color)) ∧
    List.Pairwise (fun a b : Region => ∀ row col, ¬ (a.contains row col ∧ b.contains row col))
      field_regions := by
  have part1 : ∀ region ∈ field_regions, ∀ row col, region.contains row col →
      ∃ sq ∈ display_fixed_info_squares, rectangle_pixel sq.x sq.y sq.w sq.h row col := by
    intro region hr row col hin
    obtain ⟨sq, hsq, hm⟩ := field_regions_margin region hr
    exact ⟨sq, hsq, rectangle_pixel_of_margin _ _ _ _ _ _ _ _ row col hm hin⟩
  have painted : ∀ (buffer : Frame) (window_color row col : Nat),
      (∃ sq ∈ display_fixed_info_squares, rectangle_pixel sq.x sq.y sq.w sq.h row col) →
      (if rectangle_pixel SQUARE4_X SQUARE4_Y SQUARE4_W SQUARE4_H row col then window_color
      else if rectangle_pixel SQUARE3_X SQUARE3_Y SQUARE3_W SQUARE3_H row col then window_color
      else if rectangle_pixel SQUARE2_X SQUARE2_Y SQUARE2_W SQUARE2_H row col then window_color
      else if rectangle_pixel SQUARE1_X SQUARE1_Y SQUARE1_W SQUARE1_H row col then window_color
      else buffer row col) = window_color := by
    intro buffer window_color row col h
    obtain ⟨sq, hsq, hp⟩ := h
    simp only [display_fixed_info_squares, List.mem_cons, List.mem_singleton,
      List.not_mem_nil, or_false] at hsq
    split_ifs with h4 h3 h2 h1
    · rfl
    · rfl
    · rfl
    · rfl
    · rcases hsq with rfl | rfl | rfl | rfl
      · exact absurd hp h1
      · exact absurd hp h2
      · exact absurd hp h3
      · exact absurd hp h4
  refine ⟨part1, ?_, ?_⟩
  · intro buffer window_color
    refine ⟨_, display_fixed_info_rectangles_eq buffer window_color, ?_, ?_, ?_⟩
    · intro row col h
      exact painted buffer window_color row col h
    · intro row col h
      have n1 : ¬ rectangle_pixel SQUARE1_X SQUARE1_Y SQUARE1_W SQUARE1_H row col :=
        fun hp => h ⟨⟨SQUARE1_X, SQUARE1_Y, SQUARE1_W, SQUARE1_H⟩,
          by simp [display_fixed_info_squares], hp⟩
      have n2 : ¬ rectangle_pixel SQUARE2_X SQUARE2_Y SQUARE2_W SQUARE2_H row col :=
        fun hp => h ⟨⟨SQUARE2_X, SQUARE2_Y, SQUARE2_W, SQUARE2_H⟩,
          by simp [display_fixed_info_squares], hp⟩
      have n3 : ¬ rectangle_pixel SQUARE3_X SQUARE3_Y SQUARE3_W SQUARE3_H row col :=
        fun hp => h ⟨⟨SQUARE3_X, SQUARE3_Y, SQUARE3_W, SQUARE3_H⟩,
          by simp [display_fixed_info_squares], hp⟩
      have n4 : ¬ rectangle_pixel SQUARE4_X SQUARE4_Y SQUARE4_W SQUARE4_H row col :=
        fun hp => h ⟨⟨SQUARE4_X, SQUARE4_Y, SQUARE4_W, SQUARE4_H⟩,
          by simp [display_fixed_info_squares], hp⟩
      show (if _ then _ else _) = _
      rw [if_neg n4, if_neg n3, if_neg n2, if_neg n1]
    · intro region hr row col hin
      exact painted buffer window_color row col (part1 region hr row col hin)
  · have sep : List.Pairwise (fun a b : Region =>
        a.x2 ≤ b.x1 ∨ b.x2 ≤ a.x1 ∨ a.y2 ≤ b.y1 ∨ b.y2 ≤ a.y1) field_regions := by
      decide
    refine sep.imp ?_
    intro a b hs row col hc
    unfold Region.contains at hc
    omega

theorem field_regions_inside_windows_witness :
    ∃ sq ∈ display_fixed_info_squares, rectangle_pixel sq.x sq.y sq.w sq.h 53 58 :=
  field_regions_inside_windows.1 _ (List.mem_cons_self _ _) 53 58
    ⟨by decide, by decide, by decide, by decide⟩

/-- Claim C23 fails on the code. For every length `n < 30` the start column
passed for a centred string is `160 - 11*n/2`, not `159 - 11*n/2`: the macro
`MAX_CHARS_IN_LINE` is `SCREEN_WIDTH / FONT_WIDTH` without parentheses, so
`FONT_WIDTH * MAX_CHARS_IN_LINE / 2` is `11 * 320 / 11 / 2 = 160` where
`11 * 29 / 2 = 159` was meant. "Waiting..." (10 glyphs) starts at 105, not
104; "Device not ready" (16 glyphs) at 72, not 71. -/
theorem centred_start_column :
    (List.range 30).map display_fixed_info_centred_x
      = (List.range 30).map (fun n => 160 - 11 * n / 2) ∧
    display_fixed_info_centred_x 10 = 105 ∧ 159 - 11 * 10 / 2 = 104 ∧
    display_fixed_info_centred_x 16 = 72 ∧ 159 - 11 * 16 / 2 = 71 ∧
    FONT_WIDTH * SCREEN_WIDTH / FONT_WIDTH / 2 = 160 ∧ FONT_WIDTH * 29 / 2 = 159 := by
  decide

/-! ## Theorems: scheduler and watcher model -/

theorem iteration_previouse_time (update_fs_time sleep_after : Nat) (check_sda check_sdb : Bool)
    (p : PowerState) (l : SchedulerLocals) (tv_sec tv_nsec : Int) :
    (update_status_iteration update_fs_time sleep_after check_sda check_sdb p l tv_sec
      tv_nsec).2.1.previouse_time
      = if p.update_screen = true ∧ (update_fs_time : Int) < l.current_time - l.previouse_time
        then l.current_time else l.previouse_time := by
  unfold update_status_iteration
  by_cases hu : p.update_screen = true
  · by_cases hs : (sleep_after : Int) < l.current_time - p.last_time
    · by_cases hf : (update_fs_time : Int) < l.current_time - l.previouse_time <;>
        simp [hu, hs, hf]
    · by_cases hf : (update_fs_time : Int) < l.current_time - l.previouse_time <;>
        simp [hu, hs, hf]
  · simp [hu]

theorem iteration_fs_actions (update_fs_time sleep_after : Nat) (check_sda check_sdb : Bool)
    (p : PowerState) (l : SchedulerLocals) (tv_sec tv_nsec : Int) :
    (Action.display_fs1_info ∈ (update_status_iteration update_fs_time sleep_after check_sda
        check_sdb p l tv_sec tv_nsec).2.2 ↔
      p.update_screen = true ∧ (update_fs_time : Int) < l.current_time - l.previouse_time ∧
        check_sda = true) ∧
    (Action.display_fs2_info ∈ (update_status_iteration update_fs_time sleep_after check_sda
        check_sdb p l tv_sec tv_nsec).2.2 ↔
      p.update_screen = true ∧ (update_fs_time : Int) < l.current_time - l.previouse_time ∧
        check_sdb = true) := by
  obtain ⟨usec, h⟩ := iteration_actions update_fs_time sleep_after check_sda check_sdb p l
    tv_sec tv_nsec
  rw [h]
  by_cases hu : p.update_screen = true
  · by_cases hf : (update_fs_time : Int) < l.current_time - l.previouse_time
    · by_cases hs : (sleep_after : Int) < l.current_time - p.last_time <;>
        cases check_sda <;> cases check_sdb <;> simp [hu, hf, hs]
    · by_cases hs : (sleep_after : Int) < l.current_time - p.last_time <;> simp [hu, hf, hs]
  · simp [hu]

theorem model_tick_previouse_time (update_fs_time sleep_after : Nat) (check_sda check_sdb : Bool)
    (state : PowerState × SchedulerLocals) (tv_sec tv_nsec : Int) :
    (model_step update_fs_time sleep_after check_sda check_sdb state
        (ModelStep.tick tv_sec tv_nsec)).2.previouse_time
      = if fs_refresh_due update_fs_time state
        then state.2.current_time else state.2.previouse_time := by
  unfold model_step fs_refresh_due
  simp only [iteration_previouse_time]

theorem model_run_keeps_previouse_time (update_fs_time sleep_after : Nat)
    (check_sda check_sdb : Bool) :
    ∀ (mid : List ModelStep) (state : PowerState × SchedulerLocals),
      (∀ pre step rest, mid = pre ++ step :: rest →
        (∃ tv_sec tv_nsec, step = ModelStep.tick tv_sec tv_nsec) →
        ¬ fs_refresh_due update_fs_time
          (model_run update_fs_time sleep_after check_sda check_sdb state pre)) →
      (model_run update_fs_time sleep_after check_sda check_sdb state mid).2.previouse_time
        = state.2.previouse_time := by
  intro mid
  induction mid with
  | nil => intro state _; rfl
  | cons st rest ih =>
    intro state h
    have h0 : (∃ tv_sec tv_nsec, st = ModelStep.tick tv_sec tv_nsec) →
        ¬ fs_refresh_due update_fs_time state := h [] st rest rfl
    have hstep : (model_step update_fs_time sleep_after check_sda check_sdb state
        st).2.previouse_time = state.2.previouse_time := by
      cases st with
      | tick tv_sec tv_nsec =>
        rw [model_tick_previouse_time, if_neg (h0 ⟨tv_sec, tv_nsec, rfl⟩)]
      | poll readed_status tv_sec => rfl
    have := ih (model_step update_fs_time sleep_after check_sda check_sdb state st)
      (fun pre step rest2 e ht => h (st :: pre) step rest2 (by rw [e]; rfl) ht)
    unfold model_run at this ⊢
    rw [List.foldl_cons, this, hstep]

theorem poll_power_invariant (readed_status tv_sec : Int) (p : PowerState)
    (h : p.backlight = if p.update_screen then 1 else 0) :
    (user_button_read_thread_poll readed_status tv_sec p).backlight
      = if (user_button_read_thread_poll readed_status tv_sec p).update_screen then 1 else 0 := by
  unfold user_button_read_thread_poll
  split_ifs <;> simp_all

theorem model_step_power_invariant (update_fs_time sleep_after : Nat) (check_sda check_sdb : Bool)
    (state : PowerState × SchedulerLocals) (step : ModelStep)
    (h : state.1.backlight = if state.1.update_screen then 1 else 0) :
    (model_step update_fs_time sleep_after check_sda check_sdb state step).1.backlight
      = if (model_step update_fs_time sleep_after check_sda check_sdb state step).1.update_screen
        then 1 else 0 := by
  cases step with
  | tick tv_sec tv_nsec =>
    unfold model_step
    simp only [iteration_power]
    split_ifs <;> simp_all
  | poll readed_status tv_sec =>
    exact poll_power_invariant readed_status tv_sec state.1 h

theorem model_run_power_invariant (update_fs_time sleep_after : Nat) (check_sda check_sdb : Bool) :
    ∀ (steps : List ModelStep) (state : PowerState × SchedulerLocals),
      (state.1.backlight = if state.1.update_screen then 1 else 0) →
      (model_run update_fs_time sleep_after check_sda check_sdb state steps).1.backlight
        = if (model_run update_fs_time sleep_after check_sda check_sdb state steps).1.update_screen
          then 1 else 0 := by
  intro steps
  induction steps with
  | nil => intro state h; exact h
  | cons st rest ih =>
    intro state h
    exact ih _ (model_step_power_invariant update_fs_time sleep_after check_sda check_sdb state
      st h)

/-- Claim C28. In the sequential model whose atomic steps are scheduler
iterations and watcher passes, started with `update_screen` true and the
backlight line at 1 (any `last_time`, any scheduler locals), every reachable
state has the backlight at 1 exactly when `update_screen` is true, and at 0
exactly when it is false. -/
theorem backlight_follows_update_screen (update_fs_time sleep_after : Nat)
    (check_sda check_sdb : Bool) (last_time : Int) (l : SchedulerLocals)
    (steps : List ModelStep) :
    (initial_power last_time).update_screen = true ∧ (initial_power last_time).backlight = 1 ∧
    ((model_run update_fs_time sleep_after check_sda check_sdb (initial_power last_time, l)
        steps).1.backlight = 1 ↔
      (model_run update_fs_time sleep_after check_sda check_sdb (initial_power last_time, l)
        steps).1.update_screen = true) ∧
    ((model_run update_fs_time sleep_after check_sda check_sdb (initial_power last_time, l)
        steps).1.backlight = 0 ↔
      (model_run update_fs_time sleep_after check_sda check_sdb (initial_power last_time, l)
        steps).1.update_screen = false) := by
  have h := model_run_power_invariant update_fs_time sleep_after check_sda check_sdb steps
    (initial_power last_time, l) rfl
  refine ⟨rfl, rfl, ?_, ?_⟩
  · rw [h]; split_ifs <;> simp_all
  · rw [h]; split_ifs <;> simp_all

/-- Claim C21. In an iteration of the scheduler loop, `display_fs1_info`
(`display_fs2_info`) is called if and only if `update_screen` is true,
`update_fs_time < current_time - previouse_time` strictly, and `check_sda`
(`check_sdb`) is true; `previouse_time` becomes `current_time` exactly when the
first two conditions hold. Hence, over any run of scheduler iterations and
watcher passes, when a refresh is due at one iteration (scheduler time
`state.2.current_time`) and the next iteration at which one is due comes
after the steps `mid`, the scheduler time then is more than `update_fs_time`
later; and a filesystem whose flag is false is refreshed by no iteration. -/
theorem fs_refresh_gating (update_fs_time sleep_after : Nat) (check_sda check_sdb : Bool) :
    (∀ (p : PowerState) (l : SchedulerLocals) (tv_sec tv_nsec : Int),
      (Action.display_fs1_info ∈ (update_status_iteration update_fs_time sleep_after check_sda
          check_sdb p l tv_sec tv_nsec).2.2 ↔
        p.update_screen = true ∧ (update_fs_time : Int) < l.current_time - l.previouse_time ∧
          check_sda = true) ∧
      (Action.display_fs2_info ∈ (update_status_iteration update_fs_time sleep_after check_sda
          check_sdb p l tv_sec tv_nsec).2.2 ↔
        p.update_screen = true ∧ (update_fs_time : Int) < l.current_time - l.previouse_time ∧
          check_sdb = true) ∧
      (update_status_iteration update_fs_time sleep_after check_sda check_sdb p l tv_sec
          tv_nsec).2.1.previouse_time
        = if p.update_screen = true ∧ (update_fs_time : Int) < l.current_time - l.previouse_time
          then l.current_time else l.previouse_time) ∧
    (∀ (state : PowerState × SchedulerLocals) (tv_sec tv_nsec : Int) (mid : List ModelStep),
      fs_refresh_due update_fs_time state →
      (∀ pre step rest, mid = pre ++ step :: rest →
        (∃ sec nsec, step = ModelStep.tick sec nsec) →
        ¬ fs_refresh_due update_fs_time
          (model_run update_fs_time sleep_after check_sda check_sdb
            (model_step update_fs_time sleep_after check_sda check_sdb state
              (ModelStep.tick tv_sec tv_nsec)) pre)) →
      fs_refresh_due update_fs_time
        (model_run update_fs_time sleep_after check_sda check_sdb
          (model_step update_fs_time sleep_after check_sda check_sdb state
            (ModelStep.tick tv_sec tv_nsec)) mid) →
      (update_fs_time : Int) <
        (model_run update_fs_time sleep_after check_sda check_sdb
          (model_step update_fs_time sleep_after check_sda check_sdb state
            (ModelStep.tick tv_sec tv_nsec)) mid).2.current_time - state.2.current_time) ∧
    (check_sda = false → ∀ (p : PowerState) (l : SchedulerLocals) (tv_sec tv_nsec : Int),
      Action.display_fs1_info ∉ (update_status_iteration update_fs_time sleep_after check_sda
          check_sdb p l tv_sec tv_nsec).2.2) ∧
    (check_sdb = false → ∀ (p : PowerState) (l : SchedulerLocals) (tv_sec tv_nsec : Int),
      Action.display_fs2_info ∉ (update_status_iteration update_fs_time sleep_after check_sda
          check_sdb p l tv_sec tv_nsec).2.2) := by
  refine ⟨?_, ?_, ?_, ?_⟩
  · intro p l tv_sec tv_nsec
    obtain ⟨h1, h2⟩ := iteration_fs_actions update_fs_time sleep_after check_sda check_sdb p l
      tv_sec tv_nsec
    exact ⟨h1, h2, iteration_previouse_time update_fs_time sleep_after check_sda check_sdb p l
      tv_sec tv_nsec⟩
  · intro state tv_sec tv_nsec mid hdue hmid hlast
    have h1 := model_run_keeps_previouse_time update_fs_time sleep_after check_sda check_sdb mid _
      hmid
    have h2 := model_tick_previouse_time update_fs_time sleep_after check_sda check_sdb state
      tv_sec tv_nsec
    rw [if_pos hdue] at h2
    have h3 := hlast.2
    rw [h1, h2] at h3
    exact h3
  · intro hc p l tv_sec tv_nsec hmem
    have := (iteration_fs_actions update_fs_time sleep_after check_sda check_sdb p l tv_sec
      tv_nsec).1.mp hmem
    rw [hc] at this
    exact absurd this.2.2 (by decide)
  · intro hc p l tv_sec tv_nsec hmem
    have := (iteration_fs_actions update_fs_time sleep_after check_sda check_sdb p l tv_sec
      tv_nsec).2.mp hmem
    rw [hc] at this
    exact absurd this.2.2 (by decide)

theorem fs_refresh_gating_witness :
    ((300 : Nat) : Int) <
      (model_run 300 3600 true false
        (model_step 300 3600 true false (initial_power 1000, initial_locals 1000 0)
          (ModelStep.tick 1001 0)) [ModelStep.tick 1400 0]).2.current_time
        - (initial_power 1000, initial_locals 1000 0).2.current_time :=
  (fs_refresh_gating 300 3600 true false).2.1 (initial_power 1000, initial_locals 1000 0)
    1001 0 [ModelStep.tick 1400 0] (by decide)
    (by
      intro pre step rest h _
      cases pre with
      | nil => decide
      | cons a pre2 =>
        cases pre2 <;> simp at h)
    (by decide)

/-! ## Theorems: termination of the streaming loop -/

theorem pixel_stream_loop_never_returns {σ : Type} (step : Nat → Nat → σ → σ) (data_size : Nat)
    (hds : 30720 < data_size) :
    ∀ (fuel k : Nat) (s : σ), k < 16 →
      pixel_stream_loop step data_size fuel (4096 * k) s = none := by
  intro fuel
  induction fuel with
  | zero => intro k s _; rfl
  | succ fuel ih =>
    intro k s hk
    rw [pixel_stream_loop, if_pos (by omega)]
    have hnext : (4096 * k + 4096) % 65536 = 4096 * ((k + 1) % 16) := by omega
    rw [hnext]
    exact ih ((k + 1) % 16) _ (Nat.mod_lt _ (by norm_num))

theorem pixel_stream_loop_returns {σ : Type} (step : Nat → Nat → σ → σ) (data_size : Nat)
    (hds : data_size ≤ 30720) (fuel : Nat) (hfuel : (2 * data_size + 4095) / 4096 < fuel)
    (s : σ) : ∃ out, pixel_stream_loop step data_size fuel 0 s = some out := by
  have hlog := stream_from data_size hds ((2 * data_size + 4095) / 4096) 0 fuel [] (by omega)
    hfuel
  rcases pixel_stream_loop_fold step data_size fuel 0 s [] with ⟨-, h2⟩ | ⟨rest, -, h2⟩
  · rw [Nat.mul_zero] at hlog
    rw [hlog] at h2
    cases h2
  · exact ⟨_, h2⟩

/-- Claim C27. The pixel-streaming loop, whose index is a 16-bit counter
advanced by 4096 modulo 65536, returns (for some fuel) if and only if
`data_size <= 30720`, for every bus state and transfer function. Up to 30720
every fuel above the chunk count suffices. Above 30720 the loop returns for no
fuel: the index takes the values `4096*k`, `k < 16`, all below `2*data_size`,
and is 0 again after 16 steps; `write_text_to_display` then never returns.
Every `data_size` passed by the eleven field updates is at most
`16*11*19 = 3344`. -/
theorem pixel_stream_loop_terminates_iff (data_size : Nat) :
    (∀ {σ : Type} (step : Nat → Nat → σ → σ) (s : σ),
      (∃ fuel out, pixel_stream_loop step data_size fuel 0 s = some out) ↔ data_size ≤ 30720) ∧
    (data_size ≤ 30720 → ∀ {σ : Type} (step : Nat → Nat → σ → σ) (s : σ) (fuel : Nat),
      (2 * data_size + 4095) / 4096 < fuel →
      ∃ out, pixel_stream_loop step data_size fuel 0 s = some out) ∧
    (30720 < data_size →
      (∀ {σ : Type} (step : Nat → Nat → σ → σ) (s : σ) (fuel : Nat),
        pixel_stream_loop step data_size fuel 0 s = none) ∧
      (∀ k, k < 16 → Nat.iterate (fun index => (index + 4096) % 65536) k 0 = 4096 * k ∧
        4096 * k < data_size * 2) ∧
      Nat.iterate (fun index => (index + 4096) % 65536) 16 0 = 0 ∧
      (∀ (buffer : Buffer) (text : Nat → Int) (text_lenght text_color window_color : Nat)
        (caset raset : List Nat) (fuel : Nat) (bus : Bus),
        write_text_to_display buffer data_size text text_lenght text_color window_color caset
          raset fuel bus = none)) ∧
    (∀ call ∈ field_calls, call.data_size ≤ 16 * 11 * 19 ∧ call.data_size ≤ 30720) := by
  refine ⟨?_, ?_, ?_, by decide⟩
  · intro σ step s
    constructor
    · rintro ⟨fuel, out, h⟩
      by_contra hn
      have := pixel_stream_loop_never_returns step data_size (by omega) fuel 0 s (by norm_num)
      rw [Nat.mul_zero, h] at this
      cases this
    · intro h
      obtain ⟨out, hout⟩ := pixel_stream_loop_returns step data_size h
        ((2 * data_size + 4095) / 4096 + 1) (by omega) s
      exact ⟨_, out, hout⟩
  · intro h σ step s fuel hfuel
    exact pixel_stream_loop_returns step data_size h fuel hfuel s
  · intro h
    refine ⟨?_, ?_, by decide, ?_⟩
    · intro σ step s fuel
      have := pixel_stream_loop_never_returns step data_size h fuel 0 s (by norm_num)
      rwa [Nat.mul_zero] at this
    · have key : ∀ k, k < 16 →
          Nat.iterate (fun index => (index + 4096) % 65536) k 0 = 4096 * k := by decide
      intro k hk
      exact ⟨key k hk, by omega⟩
    · intro buffer text text_lenght text_color window_color caset raset fuel bus
      unfold write_text_to_display
      have hb : write_text_to_display_bus data_size caset raset fuel bus = none := by
        rw [write_text_to_display_bus_eq]
        have := pixel_stream_loop_never_returns (fun offset len (s : Int × Bus) =>
          ((s.1 + (spi_transfer (Payload.pixels offset len) s.2).1,
            (spi_transfer (Payload.pixels offset len) s.2).2) : Int × Bus)) data_size h fuel 0
        rw [Nat.mul_zero] at this
        exact this _ (by norm_num)
      rw [hb]
      cases write_text_to_display_raster buffer data_size text text_lenght text_color
        window_color <;> rfl

theorem pixel_stream_loop_terminates_iff_witness :
    ∃ out, pixel_stream_loop (fun offset len (log : List (Nat × Nat)) => log ++ [(offset, len)])
      3344 3 0 [] = some out :=
  (pixel_stream_loop_terminates_iff 3344).2.1 (by decide)
    (fun offset len (log : List (Nat × Nat)) => log ++ [(offset, len)]) [] 3 (by decide)

/-! ## Theorems: text arrays and their capacity -/

theorem sprintf_eq_some (capacity : Nat) (text : List Char) (h : text.length + 1 ≤ capacity) :
    sprintf capacity text = some (String.mk text) := by
  unfold sprintf
  rw [if_pos h]

theorem sprintf_eq_none (capacity : Nat) (text : List Char) (h : capacity < text.length + 1) :
    sprintf capacity text = none := by
  unfold sprintf
  rw [if_neg (by omega)]

theorem sprintf_some_iff (capacity : Nat) (text : List Char) (s : String) :
    sprintf capacity text = some s ↔ text.length + 1 ≤ capacity ∧ s = String.mk text := by
  unfold sprintf
  by_cases h : text.length + 1 ≤ capacity
  · rw [if_pos h]
    constructor
    · intro e; cases e; exact ⟨h, rfl⟩
    · rintro ⟨-, rfl⟩; rfl
  · rw [if_neg h]
    constructor
    · intro e; cases e
    · rintro ⟨h2, -⟩; exact absurd h2 h

theorem printf_d_3_fits (q : Int) :
    (printf_d false 3 q).length ≤ 8 ↔ -9999999 ≤ q ∧ q ≤ 99999999 := by
  rw [printf_d_length]
  have h1 := toDigits_length_pos q.natAbs
  by_cases hq : q < 0
  · rw [if_pos hq]
    by_cases h : q.natAbs < 10000000
    · have := toDigits_length_le 6 q.natAbs (by simpa using h)
      omega
    · have := toDigits_length_ge 7 q.natAbs (by simpa using h)
      omega
  · rw [if_neg hq]
    by_cases h : q.natAbs < 100000000
    · have := toDigits_length_le 7 q.natAbs (by simpa using h)
      omega
    · have := toDigits_length_ge 8 q.natAbs (by simpa using h)
      omega

theorem byte_rate_table_fits (v : Int) :
    (-9999999 ≤ (byte_rate_table v).1 ∧ (byte_rate_table v).1 ≤ 99999999) ↔
      (-9999999 ≤ v ∧ v < 100000000 * 1073741824) := by
  unfold byte_rate_table
  split_ifs with a b c
  · simp only; omega
  · simp only
    have := Int.tdiv_eq_ediv (a := v) (b := 1024) (by omega)
    omega
  · simp only
    have := Int.tdiv_eq_ediv (a := v) (b := 1048576) (by omega)
    omega
  · simp only
    have := Int.tdiv_eq_ediv (a := v) (b := 1073741824) (by omega)
    omega

/-- The byte-rate string stays inside `net_data_string` exactly for
`-9,999,999 <= v < 100,000,000 * 2^30`. -/
theorem net_data_string_cases (v : Int) :
    (-9999999 ≤ v ∧ v < 100000000 * 1073741824 →
      display_ifdev1_rx_info_net_data_string v
        = some (String.mk (printf_d false 3 (byte_rate_table v).1 ++ [(byte_rate_table v).2]))) ∧
    (¬ (-9999999 ≤ v ∧ v < 100000000 * 1073741824) →
      display_ifdev1_rx_info_net_data_string v = none) := by
  rw [net_data_string_table]
  have hf := printf_d_3_fits (byte_rate_table v).1
  have ht := byte_rate_table_fits v
  constructor
  · intro h
    apply sprintf_eq_some
    rw [List.length_append, List.length_singleton]
    have := hf.mpr (ht.mpr h)
    omega
  · intro h
    apply sprintf_eq_none
    rw [List.length_append, List.length_singleton]
    have : ¬ (printf_d false 3 (byte_rate_table v).1).length ≤ 8 := fun h2 => h (ht.mp (hf.mp h2))
    omega

/-- Claim C2 as stated fails for values whose text does not fit the 10-byte
array `net_data_string`: for `v = -10,000,000` the text "-10000000B" and its
terminator are 11 bytes, so `sprintf` writes past the array. -/
theorem net_data_string_overflows :
    display_ifdev1_rx_info_net_data_string (-10000000) = none ∧
    String.mk (printf_d false 3 (byte_rate_table (-10000000)).1 ++
      [(byte_rate_table (-10000000)).2]) = "-10000000B" ∧
    "-10000000B".length + 1 = 11 := by
  decide

/-- Claim C2, amended. For every byte-rate value `v` with
`-9,999,999 <= v < 100,000,000 * 2^30` the four byte-rate formatters leave in
`net_data_string` the string `printf("%3ld%c", q, u)` where `(q, u)` is `(v, B)`
below 1000, `(v/1024, K)` below 1,000,000, `(v/1048576, M)` below 1,000,000,000
and `(v/1073741824, M)` from there on, with truncating division; for every
other `v` they write past the array. 500, 1500 and 1500000 give "500B",
"  1K", "  1M". -/
theorem byte_rate_formatter_follows_table :
    (∀ v : Int, -9999999 ≤ v → v < 100000000 * 1073741824 →
      display_ifdev1_rx_info_net_data_string v
        = some (String.mk (printf_d false 3 (byte_rate_table v).1 ++ [(byte_rate_table v).2])) ∧
      display_ifdev1_tx_info_net_data_string v
        = some (String.mk (printf_d false 3 (byte_rate_table v).1 ++ [(byte_rate_table v).2])) ∧
      display_ifdev2_rx_info_net_data_string v
        = some (String.mk (printf_d false 3 (byte_rate_table v).1 ++ [(byte_rate_table v).2])) ∧
      display_ifdev2_tx_info_net_data_string v
        = some (String.mk (printf_d false 3 (byte_rate_table v).1 ++ [(byte_rate_table v).2]))) ∧
    (∀ v : Int, ¬ (-9999999 ≤ v ∧ v < 100000000 * 1073741824) →
      display_ifdev1_rx_info_net_data_string v = none ∧
      display_ifdev1_tx_info_net_data_string v = none ∧
      display_ifdev2_rx_info_net_data_string v = none ∧
      display_ifdev2_tx_info_net_data_string v = none) ∧
    display_ifdev1_rx_info_net_data_string 500 = some "500B" ∧
    display_ifdev1_rx_info_net_data_string 1500 = some "  1K" ∧
    display_ifdev1_rx_info_net_data_string 1500000 = some "  1M" := by
  refine ⟨fun v h1 h2 => ?_, fun v h => ?_, by decide, by decide, by decide⟩
  · have := (net_data_string_cases v).1 ⟨h1, h2⟩
    exact ⟨this, this, this, this⟩
  · have := (net_data_string_cases v).2 h
    exact ⟨this, this, this, this⟩

theorem byte_rate_formatter_follows_table_witness :
    display_ifdev1_tx_info_net_data_string 1500 = some "  1K" :=
  (byte_rate_formatter_follows_table.1 1500 (by decide) (by decide)).2.1.trans (by decide)

theorem printf_d_2_length (q : Int) (h0 : 0 ≤ q) (h1 : q ≤ 99) : (printf_d true 2 q).length = 2 := by
  rw [printf_d_length, if_neg (by omega)]
  have h1 := toDigits_length_pos q.natAbs
  have := toDigits_length_le 1 q.natAbs (by norm_num; omega)
  omega

/-- Claim C4 as stated fails in two ways. When the day count does not fit the
`int` variable `d`: for `u = 86400 * 2^31` seconds the day count is positive,
yet the code prints the hours layout " 00:00:00H". And when the text does not
fit the 11-byte array `uptime_string`: for `u = 86,400,000` seconds (1000 days)
the text "1000:00:00D" and its terminator are 12 bytes, so `sprintf` writes
past the array. -/
theorem uptime_day_count_overflow :
    (0 : Int) ≤ 185542587187200 ∧ (185542587187200 : Int) / 86400 > 0 ∧
    display_uptime_info_uptime_string 185542587187200 = some " 00:00:00H" ∧
    uptime_text 185542587187200 = "2147483648:00:00D" ∧
    display_uptime_info_uptime_string 185542587187200 ≠ some (uptime_text 185542587187200) ∧
    display_uptime_info_uptime_string 86400000 = none ∧
    uptime_text 86400000 = "1000:00:00D" ∧ "1000:00:00D".length + 1 = 12 := by
  decide

theorem uptime_string_eq (u : Int) (h0 : 0 ≤ u) (hd : u < 86400000) :
    display_uptime_info_uptime_string u = some (uptime_text u) := by
  unfold display_uptime_info_uptime_string uptime_text
  have e1 : u.tdiv (24 * 3600) = u / 86400 := by
    rw [Int.tdiv_eq_ediv h0 (by norm_num)]; norm_num
  have e2 : u.tmod (24 * 3600) = u % 86400 := by
    rw [Int.tmod_eq_emod h0 (by norm_num)]; norm_num
  have h2 : 0 ≤ u % 86400 := by omega
  have e3 : (u % 86400).tdiv 3600 = (u % 86400) / 3600 := Int.tdiv_eq_ediv h2 (by norm_num)
  have e4 : (u % 86400).tmod 3600 = u % 3600 := by
    rw [Int.tmod_eq_emod h2 (by norm_num)]; omega
  have h4 : 0 ≤ u % 3600 := by omega
  have e5 : (u % 3600).tdiv 60 = (u % 3600) / 60 := Int.tdiv_eq_ediv h4 (by norm_num)
  have e6 : (u % 3600).tmod 60 = u % 60 := by
    rw [Int.tmod_eq_emod h4 (by norm_num)]; omega
  simp only [e1, e2, e3, e4, e5, e6]
  rw [to_int_of_range (u / 86400) (by omega) (by omega),
    to_int_of_range (u % 86400 / 3600) (by omega) (by omega),
    to_int_of_range (u % 3600 / 60) (by omega) (by omega),
    to_int_of_range (u % 60) (by omega) (by omega)]
  have l1 := printf_d_2_length (u % 86400 / 3600) (by omega) (by omega)
  have l2 := printf_d_2_length (u % 3600 / 60) (by omega) (by omega)
  have l3 := printf_d_2_length (u % 60) (by omega) (by omega)
  by_cases hpos : 0 < u / 86400
  · rw [if_pos hpos, if_pos hpos]
    apply sprintf_eq_some
    have l0 := (printf_d_3_length (u / 86400)).mpr ⟨by omega, by omega⟩
    simp only [List.length_append, List.length_singleton, l0, l1, l2]
    decide
  · rw [if_neg hpos, if_neg hpos]
    apply sprintf_eq_some
    simp only [List.length_append, List.length_singleton, l1, l2, l3]
    decide

/-- Claim C4, amended. For every uptime `u` with `0 <= u < 86,400,000` seconds
(fewer than 1000 days, so that the text and its terminator fit the 11-byte
array `uptime_string`), with `d = u / 86400`, `h = (u mod 86400) / 3600`,
`m = (u mod 3600) / 60` and `s = u mod 60`, `display_uptime_info` builds
`printf("%3d:%02d:%02dD", d, h, m)` when `d > 0` and
`printf(" %02d:%02d:%02dH", h, m, s)` when `d = 0`. -/
theorem display_uptime_info_text (u : Int) (h0 : 0 ≤ u) (hd : u < 86400000) :
    display_uptime_info_uptime_string u = some (uptime_text u) :=
  uptime_string_eq u h0 hd

theorem display_uptime_info_text_witness :
    ((0 : Int) ≤ 90061 ∧ (90061 : Int) < 86400000) ∧
    display_uptime_info_uptime_string 90061 = some "  1:01:01D" ∧
    display_uptime_info_uptime_string 3661 = some " 01:01:01H" :=
  ⟨by decide, (display_uptime_info_text 90061 (by decide) (by decide)).trans (by decide),
    (display_uptime_info_text 3661 (by decide) (by decide)).trans (by decide)⟩

theorem to_long_of_range (x : Int) (h1 : -9223372036854775808 ≤ x) (h2 : x < 9223372036854775808) :
    to_long x = x := by
  unfold to_long
  omega

theorem display_net_info_snoc (g : NetCounters) (lines : List NetDevLine) (line : NetDevLine) :
    display_net_info g (lines ++ [line])
      = ((display_net_info_line (display_net_info g lines).1 line).1,
        (display_net_info g lines).2 ++
          (display_net_info_line (display_net_info g lines).1 line).2) := by
  unfold display_net_info
  rw [List.foldl_append]
  rfl

/-- Claim C10 as stated fails for a delta whose text does not fit the 10-byte
array `net_data_string`: with the stored counter at 10,000,000 and a new
sample of 0, `display_net_info` passes the delta -10,000,000 on unchanged, and
formatting it writes past the array. -/
theorem display_net_info_negative_overflow :
    display_net_info ⟨10000000, 0, 0, 0⟩ [NetDevLine.ifdev1 0 0]
      = (⟨0, 0, 0, 0⟩, [NetCall.display_ifdev1_rx_info (-10000000),
          NetCall.display_ifdev1_tx_info 0]) ∧
    (NetCall.display_ifdev1_rx_info (-10000000)).text = none := by
  decide

/-- Claim C10, amended. For stored cumulative counters and new cumulative
samples in `0 .. 2^63 - 1`, `display_net_info` passes `new - prev` (signed, not
clamped) to the RX and TX display functions of the interface of the line and
stores `new` as the counter, line after line; a negative delta `v` with
`-9,999,999 <= v` is formatted as `printf("%3ld%c", v, B)`. With `prev = 1000`,
`new = 1500` gives 500 and `new = 800` gives -200, formatted "-200B". -/
theorem display_net_info_delta (g : NetCounters) (rx_bytes tx_bytes : Int)
    (hg : (0 ≤ g.rx_ifdev1_bytes ∧ g.rx_ifdev1_bytes < 9223372036854775808) ∧
      (0 ≤ g.tx_ifdev1_bytes ∧ g.tx_ifdev1_bytes < 9223372036854775808) ∧
      (0 ≤ g.rx_ifdev2_bytes ∧ g.rx_ifdev2_bytes < 9223372036854775808) ∧
      (0 ≤ g.tx_ifdev2_bytes ∧ g.tx_ifdev2_bytes < 9223372036854775808))
    (hrx : 0 ≤ rx_bytes ∧ rx_bytes < 9223372036854775808)
    (htx : 0 ≤ tx_bytes ∧ tx_bytes < 9223372036854775808) :
    display_net_info g [NetDevLine.ifdev1 rx_bytes tx_bytes]
      = ({ g with rx_ifdev1_bytes := rx_bytes, tx_ifdev1_bytes := tx_bytes },
          [NetCall.display_ifdev1_rx_info (rx_bytes - g.rx_ifdev1_bytes),
           NetCall.display_ifdev1_tx_info (tx_bytes - g.tx_ifdev1_bytes)]) ∧
    display_net_info g [NetDevLine.ifdev2 rx_bytes tx_bytes]
      = ({ g with rx_ifdev2_bytes := rx_bytes, tx_ifdev2_bytes := tx_bytes },
          [NetCall.display_ifdev2_rx_info (rx_bytes - g.rx_ifdev2_bytes),
           NetCall.display_ifdev2_tx_info (tx_bytes - g.tx_ifdev2_bytes)]) ∧
    display_net_info g [NetDevLine.other] = (g, []) ∧
    (∀ (lines : List NetDevLine) (line : NetDevLine),
      display_net_info g (lines ++ [line])
        = ((display_net_info_line (display_net_info g lines).1 line).1,
          (display_net_info g lines).2 ++
            (display_net_info_line (display_net_info g lines).1 line).2)) ∧
    (∀ v : Int, -9999999 ≤ v → v < 0 → ∀ call ∈ [NetCall.display_ifdev1_rx_info v,
        NetCall.display_ifdev1_tx_info v, NetCall.display_ifdev2_rx_info v,
        NetCall.display_ifdev2_tx_info v],
      call.text = some (String.mk (printf_d false 3 v ++ ['B']))) ∧
    display_net_info ⟨1000, 0, 0, 0⟩ [NetDevLine.ifdev1 1500 0]
      = (⟨1500, 0, 0, 0⟩, [NetCall.display_ifdev1_rx_info 500,
          NetCall.display_ifdev1_tx_info 0]) ∧
    display_net_info ⟨1000, 0, 0, 0⟩ [NetDevLine.ifdev1 800 0]
      = (⟨800, 0, 0, 0⟩, [NetCall.display_ifdev1_rx_info (-200),
          NetCall.display_ifdev1_tx_info 0]) ∧
    (NetCall.display_ifdev1_rx_info (-200)).text = some "-200B" := by
  refine ⟨?_, ?_, rfl, display_net_info_snoc g, ?_, by decide, by decide, by decide⟩
  · show ((_ : NetCounters), [NetCall.display_ifdev1_rx_info (to_long (rx_bytes - g.rx_ifdev1_bytes)),
      NetCall.display_ifdev1_tx_info (to_long (tx_bytes - g.tx_ifdev1_bytes))]) = _
    rw [to_long_of_range _ (by omega) (by omega), to_long_of_range _ (by omega) (by omega)]
    rfl
  · show ((_ : NetCounters), [NetCall.display_ifdev2_rx_info (to_long (rx_bytes - g.rx_ifdev2_bytes)),
      NetCall.display_ifdev2_tx_info (to_long (tx_bytes - g.tx_ifdev2_bytes))]) = _
    rw [to_long_of_range _ (by omega) (by omega), to_long_of_range _ (by omega) (by omega)]
    rfl
  · intro v h1 hv call hcall
    have hb : byte_rate_table v = (v, 'B') := by
      unfold byte_rate_table
      rw [if_pos (by omega)]
    have key := (net_data_string_cases v).1 ⟨h1, by omega⟩
    rw [hb] at key
    simp only [List.mem_cons, List.mem_singleton, List.not_mem_nil, or_false] at hcall
    rcases hcall with rfl | rfl | rfl | rfl <;> exact key

theorem display_net_info_delta_witness :
    display_net_info ⟨1000, 0, 0, 0⟩ [NetDevLine.ifdev1 800 0]
      = ({ (⟨1000, 0, 0, 0⟩ : NetCounters) with rx_ifdev1_bytes := 800, tx_ifdev1_bytes := 0 },
          [NetCall.display_ifdev1_rx_info (800 - 1000),
           NetCall.display_ifdev1_tx_info (0 - 0)]) :=
  (display_net_info_delta ⟨1000, 0, 0, 0⟩ 800 0 (by decide) (by decide) (by decide)).1

theorem percent_text_length (q : Int) (h0 : 0 ≤ q) (h1 : q ≤ 100) :
    (percent_text q).length = 4 := by
  unfold percent_text
  rw [String.length_mk, List.length_append, (printf_d_3_length q).mpr ⟨by omega, by omega⟩]
  rfl

theorem sprintf_percent (q : Int) (h0 : -9999999 ≤ q) (h1 : q ≤ 99999999) :
    sprintf 10 (printf_d false 3 q ++ ['%']) = some (percent_text q) := by
  unfold percent_text
  apply sprintf_eq_some
  rw [List.length_append, List.length_singleton]
  have := (printf_d_3_fits q).mpr ⟨h0, h1⟩
  omega

theorem sprintf_percent_some (q : Int) (s : String)
    (h : sprintf 10 (printf_d false 3 q ++ ['%']) = some s) : s = percent_text q := by
  rw [sprintf_some_iff] at h
  exact h.2

/-- Claim C20 as stated fails when a product overflows. For `f_blocks = 2^63`
and `f_bfree = 0` the unsigned 64-bit product `(f_blocks - f_bfree) * 100` is 0
modulo `2^64`, so the code prints "  0%" where the claim gives "100%". For
`total = 2 * 10^17` and `avail = 10^17` the `long` product `avail * 100`
wraps to a negative number, so the code prints "142%" where the claim gives
" 50%". -/
theorem fs_percent_wraps :
    display_fs1_info_fs1_string 9223372036854775808 0 = some "  0%" ∧
    percent_text (((9223372036854775808 - 0) * 100 / 9223372036854775808 : Nat) : Int) = "100%" ∧
    display_fs1_info_fs1_string 9223372036854775808 0
      ≠ some (percent_text (((9223372036854775808 - 0) * 100 / 9223372036854775808 : Nat) : Int)) ∧
    display_ram_info_ram_string 200000000000000000 100000000000000000 = some "142%" ∧
    percent_text (100 - 100000000000000000 * 100 / 200000000000000000) = " 50%" ∧
    to_long (100000000000000000 * 100) = -8446744073709551616 := by
  decide

theorem fs_string_eq (f_blocks f_bfree : Nat) (hb : 0 < f_blocks) (hf : f_bfree ≤ f_blocks)
    (hm : (f_blocks - f_bfree) * 100 < 18446744073709551616) :
    display_fs1_info_fs1_string f_blocks f_bfree
      = some (percent_text (((f_blocks - f_bfree) * 100 / f_blocks : Nat) : Int)) ∧
    display_fs2_info_fs2_string f_blocks f_bfree
      = some (percent_text (((f_blocks - f_bfree) * 100 / f_blocks : Nat) : Int)) ∧
    (f_blocks - f_bfree) * 100 / f_blocks ≤ 100 := by
  have hq : (f_blocks - f_bfree) * 100 / f_blocks ≤ 100 := by
    apply Nat.div_le_of_le_mul
    have : f_blocks - f_bfree ≤ f_blocks := Nat.sub_le _ _
    exact Nat.mul_le_mul_right _ this
  have e1 : (f_blocks + 18446744073709551616 - f_bfree) % 18446744073709551616
      = f_blocks - f_bfree := by omega
  have key : sprintf 10 (printf_d false 3 (to_int
      (((f_blocks + 18446744073709551616 - f_bfree) % 18446744073709551616 * 100)
        % 18446744073709551616 / f_blocks : Nat)) ++ ['%'])
      = some (percent_text (((f_blocks - f_bfree) * 100 / f_blocks : Nat) : Int)) := by
    rw [e1, Nat.mod_eq_of_lt hm]
    generalize (f_blocks - f_bfree) * 100 / f_blocks = q at hq
    rw [to_int_of_range _ (by omega) (by omega)]
    exact sprintf_percent _ (by omega) (by omega)
  refine ⟨?_, ?_, hq⟩
  · unfold display_fs1_info_fs1_string
    rw [if_neg (by omega)]
    exact key
  · unfold display_fs2_info_fs2_string
    rw [if_neg (by omega)]
    exact key

theorem ram_string_eq (total avail : Int) (ht : 0 < total) (ha0 : 0 ≤ avail) (ha : avail ≤ total)
    (hp : avail * 100 < 9223372036854775808) :
    display_ram_info_ram_string total avail = some (percent_text (100 - avail * 100 / total)) ∧
    0 ≤ 100 - avail * 100 / total ∧ 100 - avail * 100 / total ≤ 100 := by
  have hq0 : 0 ≤ avail * 100 / total := Int.ediv_nonneg (by omega) (by omega)
  have hq1 : avail * 100 / total ≤ 100 := by
    apply Int.ediv_le_of_le_mul ht
    nlinarith
  refine ⟨?_, by omega, by omega⟩
  unfold display_ram_info_ram_string
  rw [if_neg (by omega), to_long_of_range (avail * 100) (by omega) hp,
    Int.tdiv_eq_ediv (by omega) (by omega)]
  generalize avail * 100 / total = q at hq0 hq1
  rw [to_long_of_range _ (by omega) (by omega), to_int_of_range _ (by omega) (by omega)]
  exact sprintf_percent _ (by omega) (by omega)

/-- Claim C20, amended. For every filesystem with `f_blocks > 0`,
`0 <= f_bfree <= f_blocks` and `(f_blocks - f_bfree) * 100 < 2^64` the
filesystem string is `printf("%3d%%", floor((f_blocks - f_bfree)*100 / f_blocks))`,
and for every memory reading with `total > 0`, `0 <= avail <= total` and
`avail * 100 < 2^63` the RAM string is
`printf("%3d%%", 100 - floor(avail*100/total))`; in both cases the integer is in
0..100 and the string has exactly 4 characters (and fits its 10-byte array). -/
theorem percent_fields (f_blocks f_bfree : Nat) (total avail : Int)
    (hb : 0 < f_blocks) (hf : f_bfree ≤ f_blocks)
    (hm : (f_blocks - f_bfree) * 100 < 18446744073709551616)
    (ht : 0 < total) (ha0 : 0 ≤ avail) (ha : avail ≤ total)
    (hp : avail * 100 < 9223372036854775808) :
    (display_fs1_info_fs1_string f_blocks f_bfree
      = some (percent_text (((f_blocks - f_bfree) * 100 / f_blocks : Nat) : Int)) ∧
     display_fs2_info_fs2_string f_blocks f_bfree
      = some (percent_text (((f_blocks - f_bfree) * 100 / f_blocks : Nat) : Int)) ∧
     (f_blocks - f_bfree) * 100 / f_blocks ≤ 100 ∧
     (percent_text (((f_blocks - f_bfree) * 100 / f_blocks : Nat) : Int)).length = 4) ∧
    (display_ram_info_ram_string total avail = some (percent_text (100 - avail * 100 / total)) ∧
     0 ≤ 100 - avail * 100 / total ∧ 100 - avail * 100 / total ≤ 100 ∧
     (percent_text (100 - avail * 100 / total)).length = 4) := by
  obtain ⟨h1, h2, h3⟩ := fs_string_eq f_blocks f_bfree hb hf hm
  obtain ⟨r1, r2, r3⟩ := ram_string_eq total avail ht ha0 ha hp
  exact ⟨⟨h1, h2, h3, percent_text_length _ (Int.natCast_nonneg _) (by exact_mod_cast h3)⟩,
    r1, r2, r3, percent_text_length _ r2 r3⟩

theorem percent_fields_witness :
    display_fs1_info_fs1_string 1000 250 = some " 75%" ∧
    display_ram_info_ram_string 1000 250 = some " 75%" :=
  ⟨(percent_fields 1000 250 1000 250 (by decide) (by decide) (by decide) (by decide)
      (by decide) (by decide) (by decide)).1.1.trans (by decide),
    (percent_fields 1000 250 1000 250 (by decide) (by decide) (by decide) (by decide)
      (by decide) (by decide) (by decide)).2.1.trans (by decide)⟩

theorem net_data_string_in_table (v : Int) (s : String)
    (h : display_ifdev1_rx_info_net_data_string v = some s) : field_text_in_table s 4 := by
  rw [net_data_string_table, sprintf_some_iff] at h
  rw [h.2]
  apply field_text_of_chars
  · rw [List.length_append, printf_d_length]
    simp only [List.length_singleton]
    omega
  · intro c hc
    simp only [List.mem_append, List.mem_singleton] at hc
    rcases hc with hc | hc
    · exact printf_d_chars _ _ _ c hc
    · subst hc
      unfold byte_rate_table
      split_ifs <;> (simp only; decide)

theorem percent_string_in_table (q : Int) (s : String)
    (h : sprintf 10 (printf_d false 3 q ++ ['%']) = some s) : field_text_in_table s 4 := by
  rw [sprintf_percent_some q s h]
  exact percent_text_in_table q

theorem uptime_string_in_table (u : Int) (s : String)
    (h : display_uptime_info_uptime_string u = some s) : field_text_in_table s 10 := by
  unfold display_uptime_info_uptime_string at h
  simp only at h
  split_ifs at h
  · rw [sprintf_some_iff] at h
    rw [h.2]
    apply field_text_of_chars
    · simp only [List.length_append, printf_d_length, List.length_singleton]
      omega
    · intro c hc
      simp only [List.mem_append, List.mem_singleton] at hc
      rcases hc with ((((hc | hc) | hc) | hc) | hc) | hc
      · exact printf_d_chars _ _ _ c hc
      · subst hc; decide
      · exact printf_d_chars _ _ _ c hc
      · subst hc; decide
      · exact printf_d_chars _ _ _ c hc
      · subst hc; decide
  · rw [sprintf_some_iff] at h
    rw [h.2]
    apply field_text_of_chars
    · simp only [List.length_append, printf_d_length, List.length_singleton]
      omega
    · intro c hc
      simp only [List.mem_append, List.mem_singleton] at hc
      rcases hc with (((((hc | hc) | hc) | hc) | hc) | hc) | hc
      · subst hc; decide
      · exact printf_d_chars _ _ _ c hc
      · subst hc; decide
      · exact printf_d_chars _ _ _ c hc
      · subst hc; decide
      · exact printf_d_chars _ _ _ c hc
      · subst hc; decide

theorem ram_string_in_table (total_ram free_ram : Int) (s : String)
    (h : display_ram_info_ram_string total_ram free_ram = some s) : field_text_in_table s 4 := by
  unfold display_ram_info_ram_string at h
  split_ifs at h
  exact percent_string_in_table _ s h

theorem fs1_string_in_table (f_blocks f_bfree : Nat) (s : String)
    (h : display_fs1_info_fs1_string f_blocks f_bfree = some s) : field_text_in_table s 4 := by
  unfold display_fs1_info_fs1_string at h
  split_ifs at h
  exact percent_string_in_table _ s h

theorem fs2_string_in_table (f_blocks f_bfree : Nat) (s : String)
    (h : display_fs2_info_fs2_string f_blocks f_bfree = some s) : field_text_in_table s 4 := by
  unfold display_fs2_info_fs2_string at h
  split_ifs at h
  exact percent_string_in_table _ s h

theorem cpu_string_cases (percent : Int) :
    (-9999999 ≤ percent ∧ percent ≤ 99999999 →
      display_cpu_info_cpu_string percent = some (percent_text percent)) ∧
    (¬ (-9999999 ≤ percent ∧ percent ≤ 99999999) → display_cpu_info_cpu_string percent = none) := by
  unfold display_cpu_info_cpu_string
  constructor
  · intro h
    exact sprintf_percent percent h.1 h.2
  · intro h
    apply sprintf_eq_none
    rw [List.length_append, List.length_singleton]
    have := printf_d_3_fits percent
    have : ¬ (printf_d false 3 percent).length ≤ 8 := fun h2 => h (this.mp h2)
    omega

/-- Claim C25 as stated fails for input values whose text does not fit the
array it is written to: the CPU percent 100,000,000 gives the 10 characters
"100000000%" and the byte rate -10,000,000 the 10 characters "-10000000B", each
with its terminator one byte more than the 10-byte array, so `sprintf` writes
past the array and no string is produced. -/
theorem text_overflows_its_array :
    display_cpu_info_cpu_string 100000000 = none ∧
    percent_text 100000000 = "100000000%" ∧ "100000000%".length + 1 = 11 ∧
    display_ifdev2_tx_info_net_data_string (-10000000) = none := by
  decide

/-- Claim C25, amended. The glyph table has 96 glyphs of 16 rows and
`font[c - 31][j]` is inside it exactly for codes 31..126. Whenever a byte-rate,
CPU, RAM, filesystem or uptime formatter leaves a string in its array (that is,
`sprintf` stays inside the array), the string has at least as many characters
as the field (4, 4, 4, 4, 10) and its first characters all have codes in
31..126, so that every glyph lookup of the rasterizing loops of
`write_text_to_display` is in bounds (the loops return a buffer). A string is
left for byte rates `-9,999,999 <= v < 100,000,000 * 2^30`, for CPU percents
`-9,999,999 <= q <= 99,999,999`, for memory readings with `total > 0`,
`0 <= avail <= total`, `avail * 100 < 2^63`, for filesystems with
`f_blocks > 0`, `f_bfree <= f_blocks`, `(f_blocks - f_bfree) * 100 < 2^64`,
and for uptimes `0 <= u < 86,400,000`. -/
theorem internal_text_within_glyph_table :
    (font.length = 96 ∧ (∀ glyph ∈ font, glyph.length = 16) ∧
      ∀ (c : Int) (j : Nat), j < 16 → ((∃ row, font_row c j = some row) ↔ 31 ≤ c ∧ c ≤ 126)) ∧
    (∀ (v : Int) (s : String),
      (display_ifdev1_rx_info_net_data_string v = some s ∨
        display_ifdev1_tx_info_net_data_string v = some s ∨
        display_ifdev2_rx_info_net_data_string v = some s ∨
        display_ifdev2_tx_info_net_data_string v = some s) →
      field_text_in_table s NET_DATA_LENGHT) ∧
    (∀ (percent : Int) (s : String), display_cpu_info_cpu_string percent = some s →
      field_text_in_table s CPU_DATA_LENGHT) ∧
    (∀ (total_ram free_ram : Int) (s : String),
      display_ram_info_ram_string total_ram free_ram = some s →
      field_text_in_table s RAM_DATA_LENGHT) ∧
    (∀ (f_blocks f_bfree : Nat) (s : String),
      (display_fs1_info_fs1_string f_blocks f_bfree = some s ∨
        display_fs2_info_fs2_string f_blocks f_bfree = some s) →
      field_text_in_table s FS1_DATA_LENGHT ∧ field_text_in_table s FS2_DATA_LENGHT) ∧
    (∀ (uptime : Int) (s : String), display_uptime_info_uptime_string uptime = some s →
      field_text_in_table s UPT_DATA_LENGHT) ∧
    (∀ (s : String) (text_lenght : Nat), field_text_in_table s text_lenght →
      ∀ (buffer : Buffer) (data_size text_color window_color : Nat),
        ∃ out, write_text_to_display_raster buffer data_size (c_string s) text_lenght text_color
          window_color = some out) ∧
    (∀ v : Int, -9999999 ≤ v → v < 100000000 * 1073741824 →
      ∃ s, display_ifdev1_rx_info_net_data_string v = some s ∧
        display_ifdev1_tx_info_net_data_string v = some s ∧
        display_ifdev2_rx_info_net_data_string v = some s ∧
        display_ifdev2_tx_info_net_data_string v = some s) ∧
    (∀ percent : Int, -9999999 ≤ percent → percent ≤ 99999999 →
      ∃ s, display_cpu_info_cpu_string percent = some s) ∧
    (∀ total avail : Int, 0 < total → 0 ≤ avail → avail ≤ total →
      avail * 100 < 9223372036854775808 →
      ∃ s, display_ram_info_ram_string total avail = some s) ∧
    (∀ f_blocks f_bfree : Nat, 0 < f_blocks → f_bfree ≤ f_blocks →
      (f_blocks - f_bfree) * 100 < 18446744073709551616 →
      ∃ s, display_fs1_info_fs1_string f_blocks f_bfree = some s ∧
        display_fs2_info_fs2_string f_blocks f_bfree = some s) ∧
    (∀ uptime : Int, 0 ≤ uptime → uptime < 86400000 →
      ∃ s, display_uptime_info_uptime_string uptime = some s) := by
  refine ⟨⟨by decide, by decide, font_row_in_table⟩, ?_, ?_, ?_, ?_, uptime_string_in_table,
    ?_, ?_, ?_, ?_, ?_, ?_⟩
  · intro v s h
    rcases h with h | h | h | h <;> exact net_data_string_in_table v s h
  · intro percent s h
    exact percent_string_in_table percent s h
  · exact ram_string_in_table
  · intro f_blocks f_bfree s h
    rcases h with h | h
    · exact ⟨fs1_string_in_table _ _ s h, fs1_string_in_table _ _ s h⟩
    · exact ⟨fs2_string_in_table _ _ s h, fs2_string_in_table _ _ s h⟩
  · intro s text_lenght h buffer data_size text_color window_color
    exact raster_of_field_text s text_lenght h buffer data_size text_color window_color
  · intro v h1 h2
    have := (net_data_string_cases v).1 ⟨h1, h2⟩
    exact ⟨_, this, this, this, this⟩
  · intro percent h1 h2
    exact ⟨_, (cpu_string_cases percent).1 ⟨h1, h2⟩⟩
  · intro total avail ht ha0 ha hp
    exact ⟨_, (ram_string_eq total avail ht ha0 ha hp).1⟩
  · intro f_blocks f_bfree hb hf hm
    obtain ⟨h1, h2, -⟩ := fs_string_eq f_blocks f_bfree hb hf hm
    exact ⟨_, h1, h2⟩
  · intro uptime h0 h1
    exact ⟨_, uptime_string_eq uptime h0 h1⟩

theorem internal_text_within_glyph_table_witness :
    ∃ s, display_ifdev1_rx_info_net_data_string 1500 = some s ∧
      display_ifdev1_tx_info_net_data_string 1500 = some s ∧
      display_ifdev2_rx_info_net_data_string 1500 = some s ∧
      display_ifdev2_tx_info_net_data_string 1500 = some s :=
  internal_text_within_glyph_table.2.2.2.2.2.2.2.1 1500 (by decide) (by decide)

theorem byte_rate_text_length (v : Int) :
    ((printf_d false 3 (byte_rate_table v).1 ++ [(byte_rate_table v).2]).length = 4 ↔
      -99 ≤ v ∧ v < 1000 * 1073741824) ∧
    4 ≤ (printf_d false 3 (byte_rate_table v).1 ++ [(byte_rate_table v).2]).length := by
  rw [List.length_append, List.length_singleton]
  have h3 := printf_d_3_length (byte_rate_table v).1
  have hge : 3 ≤ (printf_d false 3 (byte_rate_table v).1).length := by
    rw [printf_d_length]; omega
  refine ⟨?_, by omega⟩
  rw [show (printf_d false 3 (byte_rate_table v).1).length + 1 = 4 ↔
    (printf_d false 3 (byte_rate_table v).1).length = 3 by omega, h3]
  unfold byte_rate_table
  split_ifs with a b c
  · simp only; omega
  · simp only
    have := Int.tdiv_eq_ediv (a := v) (b := 1024) (by omega)
    omega
  · simp only
    have := Int.tdiv_eq_ediv (a := v) (b := 1048576) (by omega)
    omega
  · simp only
    have := Int.tdiv_eq_ediv (a := v) (b := 1073741824) (by omega)
    omega

/-- Claim C26 as stated fails for values whose text does not fit the 10-byte
array `net_data_string`: for `v = 100,000,000 * 2^30` the text is "100000000M",
10 characters, and `sprintf` writes its terminator past the array, so there is
no string whose first four characters could be rendered. -/
theorem net_data_string_too_long :
    display_ifdev1_rx_info_net_data_string 107374182400000000 = none ∧
    String.mk (printf_d false 3 (byte_rate_table 107374182400000000).1 ++
      [(byte_rate_table 107374182400000000).2]) = "100000000M" ∧
    (107374182400000000 : Int) = 100000000 * 2 ^ 30 := by
  decide

/-- Claim C26, amended. For every value `v` with
`-9,999,999 <= v < 100,000,000 * 2^30` (where the text fits `net_data_string`)
the four byte-rate formatters build the same string; it has exactly 4
characters if and only if `-99 <= v < 1000 * 2^30`, and between 5 and 9
otherwise. What `write_text_to_display` rasterizes for the 4-glyph field is
what it rasterizes for the first 4 characters alone, so a longer string is
shown without its unit letter: `v = -200` gives "-200B", shown as "-200". -/
theorem net_data_string_fits_field :
    (∀ v : Int, -9999999 ≤ v → v < 100000000 * 1073741824 →
      ∃ s, display_ifdev1_rx_info_net_data_string v = some s ∧
        display_ifdev1_tx_info_net_data_string v = some s ∧
        display_ifdev2_rx_info_net_data_string v = some s ∧
        display_ifdev2_tx_info_net_data_string v = some s ∧
        (s.length = 4 ↔ -99 ≤ v ∧ v < 1000 * 1073741824) ∧
        4 ≤ s.length ∧ s.length ≤ 9 ∧
        ∀ (buffer : Buffer) (text_color window_color : Nat),
          write_text_to_display_raster buffer (FONT_HEIGHT * NET_DATA_WIDTH) (c_string s)
              NET_DATA_LENGHT text_color window_color
            = write_text_to_display_raster buffer (FONT_HEIGHT * NET_DATA_WIDTH)
              (c_string (String.mk (s.toList.take 4))) NET_DATA_LENGHT text_color
              window_color) ∧
    display_ifdev1_rx_info_net_data_string (-200) = some "-200B" ∧
    "-200B".toList.take 4 = "-200".toList ∧
    (1000 : Int) * 1073741824 = 1000 * 2 ^ 30 := by
  refine ⟨?_, by decide, by decide, by norm_num⟩
  intro v h1 h2
  have hs := (net_data_string_cases v).1 ⟨h1, h2⟩
  obtain ⟨l1, l2⟩ := byte_rate_text_length v
  have hfit := (sprintf_some_iff 10 _ _).mp (net_data_string_table v ▸ hs)
  refine ⟨_, hs, hs, hs, hs, ?_, ?_, ?_, ?_⟩
  · rw [String.length_mk]; exact l1
  · rw [String.length_mk]; exact l2
  · rw [String.length_mk]; omega
  · intro buffer text_color window_color
    have hin := net_data_string_in_table v _ hs
    refine (raster_depends_on_field 4 (by decide) _ _ hin.2 ?_ text_color window_color
      buffer).symm
    intro i hi
    unfold c_string
    have e : ∀ l : List Char, (String.mk ((String.mk l).toList.take 4)).toList = l.take 4 :=
      fun _ => rfl
    have e2 : ∀ l : List Char, (String.mk l).toList = l := fun _ => rfl
    rw [e, e2, List.get?_eq_getElem?, List.get?_eq_getElem?, List.getElem?_take_of_lt hi]

theorem net_data_string_fits_field_witness :
    ∃ s, display_ifdev1_rx_info_net_data_string 123456 = some s ∧
      display_ifdev1_tx_info_net_data_string 123456 = some s ∧
      display_ifdev2_rx_info_net_data_string 123456 = some s ∧
      display_ifdev2_tx_info_net_data_string 123456 = some s ∧
      (s.length = 4 ↔ -99 ≤ (123456 : Int) ∧ (123456 : Int) < 1000 * 1073741824) ∧
      4 ≤ s.length ∧ s.length ≤ 9 ∧
      ∀ (buffer : Buffer) (text_color window_color : Nat),
        write_text_to_display_raster buffer (FONT_HEIGHT * NET_DATA_WIDTH) (c_string s)
            NET_DATA_LENGHT text_color window_color
          = write_text_to_display_raster buffer (FONT_HEIGHT * NET_DATA_WIDTH)
            (c_string (String.mk (s.toList.take 4))) NET_DATA_LENGHT text_color
            window_color :=
  net_data_string_fits_field.1 123456 (by decide) (by decide)

/-! ## Theorems: field updates on the bus -/

theorem spi_write_register_ok_data (instruction : Nat) (bytes : List Nat) (bus : Bus)
    (hf : ∀ k, bus.failing k = false) :
    spi_write_register instruction (some bytes) 4 bus =
      (0, Bus.mk bus.failing 1 (bus.trace ++ [⟨BusOp.set_data_pin 0, true, bus.data_pin⟩,
        ⟨BusOp.spi_transfer (Payload.bytes [instruction]), true, 0⟩,
        ⟨BusOp.set_data_pin 1, true, 0⟩,
        ⟨BusOp.spi_transfer (Payload.bytes (bytes.take 4)), true, 1⟩])) := by
  rw [spi_write_register_eq]
  simp [hf]

theorem spi_write_register_ok_null (instruction : Nat) (bus : Bus)
    (hf : ∀ k, bus.failing k = false) :
    spi_write_register instruction none 0 bus =
      (0, Bus.mk bus.failing 1 (bus.trace ++ [⟨BusOp.set_data_pin 0, true, bus.data_pin⟩,
        ⟨BusOp.spi_transfer (Payload.bytes [instruction]), true, 0⟩,
        ⟨BusOp.set_data_pin 1, true, 0⟩])) := by
  rw [spi_write_register_eq]
  simp [hf]

theorem pixel_transfers_fold_ok (chunks : List (Nat × Nat)) :
    ∀ s : Int × Bus, (∀ k, s.2.failing k = false) →
      chunks.foldl (fun (s : Int × Bus) p =>
        ((s.1 + (spi_transfer (Payload.pixels p.1 p.2) s.2).1,
          (spi_transfer (Payload.pixels p.1 p.2) s.2).2) : Int × Bus)) s
        = (s.1, Bus.mk s.2.failing s.2.data_pin (s.2.trace ++ chunks.map (fun p =>
            (⟨BusOp.spi_transfer (Payload.pixels p.1 p.2), true, s.2.data_pin⟩ : BusEvent)))) := by
  induction chunks with
  | nil => intro s _; simp
  | cons p rest ih =>
    intro s hf
    rw [List.foldl_cons, spi_transfer_eq, ih _ (by simpa using hf)]
    simp [hf]

/-- With no call failing and fuel above the chunk count, `write_text_to_display`
for a field of `n` characters in the glyph table returns 0, changes the buffer
only below `176 * n`, and appends to the trace the column window, the row
window, the memory-write command and the pixel chunks. -/
theorem write_text_to_display_ok (n : Nat) (hn1 : 1 ≤ n) (hn2 : n ≤ 174) (text : Nat → Int)
    (htext : ∀ i, i < n → 31 ≤ text i ∧ text i ≤ 126) (tc wc : Nat) (caset raset : List Nat)
    (fuel : Nat) (hfuel : (2 * (16 * 11 * n) + 4095) / 4096 < fuel) (buffer : Buffer)
    (bus : Bus) (hf : ∀ k, bus.failing k = false) :
    ∃ out bus1,
      write_text_to_display buffer (16 * 11 * n) text n tc wc caset raset fuel bus
        = some (0, out, bus1) ∧
      (∀ p, 16 * 11 * n ≤ p → out p = buffer p) ∧
      bus1.trace = bus.trace ++ ([⟨BusOp.set_data_pin 0, true, bus.data_pin⟩,
        ⟨BusOp.spi_transfer (Payload.bytes [ST7789_CASET]), true, 0⟩,
        ⟨BusOp.set_data_pin 1, true, 0⟩,
        ⟨BusOp.spi_transfer (Payload.bytes (caset.take 4)), true, 1⟩,
        ⟨BusOp.set_data_pin 0, true, 1⟩,
        ⟨BusOp.spi_transfer (Payload.bytes [ST7789_RASET]), true, 0⟩,
        ⟨BusOp.set_data_pin 1, true, 0⟩,
        ⟨BusOp.spi_transfer (Payload.bytes (raset.take 4)), true, 1⟩,
        ⟨BusOp.set_data_pin 0, true, 1⟩,
        ⟨BusOp.spi_transfer (Payload.bytes [ST7789_RAMWR]), true, 0⟩,
        ⟨BusOp.set_data_pin 1, true, 0⟩] ++
        (List.range' 0 ((2 * (16 * 11 * n) + 4095) / 4096)).map (fun k =>
          (⟨BusOp.spi_transfer (Payload.pixels (4096 * k)
            (if 16 * 11 * n * 2 < 4096 * k + 4096 then 16 * 11 * n * 2 - 4096 * k else 4096)),
            true, 1⟩ : BusEvent))) := by
  obtain ⟨out, hout, hval⟩ := raster_closed_form n hn1 text htext tc wc buffer
  have hlog := stream_from (16 * 11 * n) (by omega) ((2 * (16 * 11 * n) + 4095) / 4096) 0 fuel []
    (by omega) hfuel
  rw [Nat.mul_zero, List.nil_append] at hlog
  generalize 16 * 11 * n = data_size at *
  unfold write_text_to_display
  rw [hout]
  simp only
  rw [write_text_to_display_bus_eq, spi_write_register_ok_data _ _ _ hf,
    spi_write_register_ok_data _ _ _ (by simpa using hf),
    spi_write_register_ok_null _ _ (by simpa using hf)]
  rcases pixel_stream_loop_fold (fun offset len (s : Int × Bus) =>
      ((s.1 + (spi_transfer (Payload.pixels offset len) s.2).1,
        (spi_transfer (Payload.pixels offset len) s.2).2) : Int × Bus)) data_size fuel 0
      ((0 : Int) + 0 + 0, Bus.mk bus.failing 1 (bus.trace ++
        [⟨BusOp.set_data_pin 0, true, bus.data_pin⟩,
        ⟨BusOp.spi_transfer (Payload.bytes [ST7789_CASET]), true, 0⟩,
        ⟨BusOp.set_data_pin 1, true, 0⟩,
        ⟨BusOp.spi_transfer (Payload.bytes (caset.take 4)), true, 1⟩] ++
        [⟨BusOp.set_data_pin 0, true, 1⟩,
        ⟨BusOp.spi_transfer (Payload.bytes [ST7789_RASET]), true, 0⟩,
        ⟨BusOp.set_data_pin 1, true, 0⟩,
        ⟨BusOp.spi_transfer (Payload.bytes (raset.take 4)), true, 1⟩] ++
        [⟨BusOp.set_data_pin 0, true, 1⟩,
        ⟨BusOp.spi_transfer (Payload.bytes [ST7789_RAMWR]), true, 0⟩,
        ⟨BusOp.set_data_pin 1, true, 0⟩])) [] with ⟨-, hn⟩ | ⟨rest, hl, hr2⟩
  · rw [hlog] at hn; cases hn
  · rw [hlog, List.nil_append] at hl
    cases hl
    rw [hr2, pixel_transfers_fold_ok _ _ (by simpa using hf)]
    refine ⟨out, _, rfl, fun p hp => ?_, ?_⟩
    · rw [hval p, if_neg (by omega)]
    · simp [List.map_map, Function.comp_def]

set_option maxRecDepth 100000 in
/-- Claim C18. For each of the eleven volatile fields (time, interface 1
RX/TX, interface 2 RX/TX, CPU, RAM, temperature, uptime, filesystem 1 and 2)
with content length `L` (19, 4, 4, 4, 4, 4, 4, 2, 10, 4, 4), on a bus where no
call fails and with fuel for the streaming loop: the function `display_*_info`
makes the call `write_text_to_display(buffer, 16*11*L, text, L, ..)` and returns
0; it changes its static buffer only below index `16*11*L`, the declared length;
it sends the column window and the row window of its region, which decode to
`x1, x2-1` and `y1, y2-1`, then the memory-write command, then pixel chunks
whose lengths add up to `2 * (x2-x1) * (y2-y1)` bytes, one 16-bit pixel for each
pixel of the window; and `x2 - x1 = 11*L`, `y2 - y1 = 16`. The text is any that
the function's formatter produces (for the time and the temperature, any with
codes in the glyph table). -/
theorem field_buffers_match_windows (buffer : Buffer) (text_color window_color fuel : Nat)
    (bus : Bus) (hfuel : 3 ≤ fuel) (hf : ∀ k, bus.failing k = false) :
    (field_calls.length = 11 ∧
      field_calls.map (fun c => c.text_lenght) = [19, 4, 4, 4, 4, 4, 4, 2, 10, 4, 4] ∧
      ∀ c ∈ field_calls,
        c.buffer_length = 16 * 11 * c.text_lenght ∧
        c.data_size = 16 * 11 * c.text_lenght ∧
        c.region.x2 - c.region.x1 = 11 * c.text_lenght ∧
        c.region.y2 - c.region.y1 = 16 ∧
        c.data_size = (c.region.x2 - c.region.x1) * (c.region.y2 - c.region.y1)) ∧
    ((∀ (current_time : Int) (time_string : Nat → Int),
      0 < current_time →
      (∀ i, i < 19 → 31 ≤ time_string i ∧ time_string i ≤ 126) →
      display_time_info current_time time_string buffer text_color window_color fuel bus
        = (write_text_to_display buffer (16 * 11 * 19) time_string 19 text_color
          window_color display_time_info_caset display_time_info_raset fuel bus).map
          (fun w => (0, w.2.1, w.2.2)) ∧
      ∃ out bus1,
        display_time_info current_time time_string buffer text_color window_color fuel bus
          = some (0, out, bus1) ∧
        (∀ p, 16 * 11 * 19 ≤ p → out p = buffer p) ∧
        bus1.trace = bus.trace ++ [
          ⟨BusOp.set_data_pin 0, true, bus.data_pin⟩,
          ⟨BusOp.spi_transfer (Payload.bytes [ST7789_CASET]), true, 0⟩,
          ⟨BusOp.set_data_pin 1, true, 0⟩,
          ⟨BusOp.spi_transfer (Payload.bytes display_time_info_caset), true, 1⟩,
          ⟨BusOp.set_data_pin 0, true, 1⟩,
          ⟨BusOp.spi_transfer (Payload.bytes [ST7789_RASET]), true, 0⟩,
          ⟨BusOp.set_data_pin 1, true, 0⟩,
          ⟨BusOp.spi_transfer (Payload.bytes display_time_info_raset), true, 1⟩,
          ⟨BusOp.set_data_pin 0, true, 1⟩,
          ⟨BusOp.spi_transfer (Payload.bytes [ST7789_RAMWR]), true, 0⟩,
          ⟨BusOp.set_data_pin 1, true, 0⟩,
          ⟨BusOp.spi_transfer (Payload.pixels 0 4096), true, 1⟩,
          ⟨BusOp.spi_transfer (Payload.pixels 4096 2592), true, 1⟩]) ∧
     (big_endian16 (display_time_info_caset.getD 0 0) (display_time_info_caset.getD 1 0) = TIME_DATA_X1 ∧
      big_endian16 (display_time_info_caset.getD 2 0) (display_time_info_caset.getD 3 0) = TIME_DATA_X2 - 1 ∧
      big_endian16 (display_time_info_raset.getD 0 0) (display_time_info_raset.getD 1 0) = TIME_DATA_Y1 ∧
      big_endian16 (display_time_info_raset.getD 2 0) (display_time_info_raset.getD 3 0) = TIME_DATA_Y2 - 1 ∧
      TIME_DATA_LENGHT = 19 ∧ FONT_HEIGHT * TIME_DATA_WIDTH = 16 * 11 * 19 ∧
      TIME_DATA_X2 - TIME_DATA_X1 = 11 * 19 ∧ TIME_DATA_Y2 - TIME_DATA_Y1 = 16 ∧
      4096 + 2592 = 2 * ((TIME_DATA_X2 - TIME_DATA_X1) * (TIME_DATA_Y2 - TIME_DATA_Y1)))) ∧
    ((∀ (rx_bytes_diff : Int) (s : String),
      display_ifdev1_rx_info_net_data_string rx_bytes_diff = some s →
      display_ifdev1_rx_info rx_bytes_diff buffer text_color window_color fuel bus
        = (write_text_to_display buffer (16 * 11 * 4) (c_string s) 4 text_color
          window_color display_ifdev1_rx_info_caset display_ifdev1_rx_info_raset fuel bus).map
          (fun w => (0, w.2.1, w.2.2)) ∧
      ∃ out bus1,
        display_ifdev1_rx_info rx_bytes_diff buffer text_color window_color fuel bus
          = some (0, out, bus1) ∧
        (∀ p, 16 * 11 * 4 ≤ p → out p = buffer p) ∧
        bus1.trace = bus.trace ++ [
          ⟨BusOp.set_data_pin 0, true, bus.data_pin⟩,
          ⟨BusOp.spi_transfer (Payload.bytes [ST7789_CASET]), true, 0⟩,
          ⟨BusOp.set_data_pin 1, true, 0⟩,
          ⟨BusOp.spi_transfer (Payload.bytes display_ifdev1_rx_info_caset), true, 1⟩,
          ⟨BusOp.set_data_pin 0, true, 1⟩,
          ⟨BusOp.spi_transfer (Payload.bytes [ST7789_RASET]), true, 0⟩,
          ⟨BusOp.set_data_pin 1, true, 0⟩,
          ⟨BusOp.spi_transfer (Payload.bytes display_ifdev1_rx_info_raset), true, 1⟩,
          ⟨BusOp.set_data_pin 0, true, 1⟩,
          ⟨BusOp.spi_transfer (Payload.bytes [ST7789_RAMWR]), true, 0⟩,
          ⟨BusOp.set_data_pin 1, true, 0⟩,
          ⟨BusOp.spi_transfer (Payload.pixels 0 1408), true, 1⟩]) ∧
     (big_endian16 (display_ifdev1_rx_info_caset.getD 0 0) (display_ifdev1_rx_info_caset.getD 1 0) = IFDEV1_RX_DATA_X1 ∧
      big_endian16 (display_ifdev1_rx_info_caset.getD 2 0) (display_ifdev1_rx_info_caset.getD 3 0) = IFDEV1_RX_DATA_X2 - 1 ∧
      big_endian16 (display_ifdev1_rx_info_raset.getD 0 0) (display_ifdev1_rx_info_raset.getD 1 0) = IFDEV1_RX_DATA_Y1 ∧
      big_endian16 (display_ifdev1_rx_info_raset.getD 2 0) (display_ifdev1_rx_info_raset.getD 3 0) = IFDEV1_RX_DATA_Y2 - 1 ∧
      NET_DATA_LENGHT = 4 ∧ FONT_HEIGHT * NET_DATA_WIDTH = 16 * 11 * 4 ∧
      IFDEV1_RX_DATA_X2 - IFDEV1_RX_DATA_X1 = 11 * 4 ∧ IFDEV1_RX_DATA_Y2 - IFDEV1_RX_DATA_Y1 = 16 ∧
      1408 = 2 * ((IFDEV1_RX_DATA_X2 - IFDEV1_RX_DATA_X1) * (IFDEV1_RX_DATA_Y2 - IFDEV1_RX_DATA_Y1)))) ∧
    ((∀ (tx_bytes_diff : Int) (s : String),
      display_ifdev1_tx_info_net_data_string tx_bytes_diff = some s →
      display_ifdev1_tx_info tx_bytes_diff buffer text_color window_color fuel bus
        = (write_text_to_display buffer (16 * 11 * 4) (c_string s) 4 text_color
          window_color display_ifdev1_tx_info_caset display_ifdev1_tx_info_raset fuel bus).map
          (fun w => (0, w.2.1, w.2.2)) ∧
      ∃ out bus1,
        display_ifdev1_tx_info tx_bytes_diff buffer text_color window_color fuel bus
          = some (0, out, bus1) ∧
        (∀ p, 16 * 11 * 4 ≤ p → out p = buffer p) ∧
        bus1.trace = bus.trace ++ [
          ⟨BusOp.set_data_pin 0, true, bus.data_pin⟩,
          ⟨BusOp.spi_transfer (Payload.bytes [ST7789_CASET]), true, 0⟩,
          ⟨BusOp.set_data_pin 1, true, 0⟩,
          ⟨BusOp.spi_transfer (Payload.bytes display_ifdev1_tx_info_caset), true, 1⟩,
          ⟨BusOp.set_data_pin 0, true, 1⟩,
          ⟨BusOp.spi_transfer (Payload.bytes [ST7789_RASET]), true, 0⟩,
          ⟨BusOp.set_data_pin 1, true, 0⟩,
          ⟨BusOp.spi_transfer (Payload.bytes display_ifdev1_tx_info_raset), true, 1⟩,
          ⟨BusOp.set_data_pin 0, true, 1⟩,
          ⟨BusOp.spi_transfer (Payload.bytes [ST7789_RAMWR]), true, 0⟩,
          ⟨BusOp.set_data_pin 1, true, 0⟩,
          ⟨BusOp.spi_transfer (Payload.pixels 0 1408), true, 1⟩]) ∧
     (big_endian16 (display_ifdev1_tx_info_caset.getD 0 0) (display_ifdev1_tx_info_caset.getD 1 0) = IFDEV1_TX_DATA_X1 ∧
      big_endian16 (display_ifdev1_tx_info_caset.getD 2 0) (display_ifdev1_tx_info_caset.getD 3 0) = IFDEV1_TX_DATA_X2 - 1 ∧
      big_endian16 (display_ifdev1_tx_info_raset.getD 0 0) (display_ifdev1_tx_info_raset.getD 1 0) = IFDEV1_TX_DATA_Y1 ∧
      big_endian16 (display_ifdev1_tx_info_raset.getD 2 0) (display_ifdev1_tx_info_raset.getD 3 0) = IFDEV1_TX_DATA_Y2 - 1 ∧
      NET_DATA_LENGHT = 4 ∧ FONT_HEIGHT * NET_DATA_WIDTH = 16 * 11 * 4 ∧
      IFDEV1_TX_DATA_X2 - IFDEV1_TX_DATA_X1 = 11 * 4 ∧ IFDEV1_TX_DATA_Y2 - IFDEV1_TX_DATA_Y1 = 16 ∧
      1408 = 2 * ((IFDEV1_TX_DATA_X2 - IFDEV1_TX_DATA_X1) * (IFDEV1_TX_DATA_Y2 - IFDEV1_TX_DATA_Y1)))) ∧
    ((∀ (rx_bytes_diff : Int) (s : String),
      display_ifdev2_rx_info_net_data_string rx_bytes_diff = some s →
      display_ifdev2_rx_info rx_bytes_diff buffer text_color window_color fuel bus
        = (write_text_to_display buffer (16 * 11 * 4) (c_string s) 4 text_color
          window_color display_ifdev2_rx_info_caset display_ifdev2_rx_info_raset fuel bus).map
          (fun w => (0, w.2.1, w.2.2)) ∧
      ∃ out bus1,
        display_ifdev2_rx_info rx_bytes_diff buffer text_color window_color fuel bus
          = some (0, out, bus1) ∧
        (∀ p, 16 * 11 * 4 ≤ p → out p = buffer p) ∧
        bus1.trace = bus.trace ++ [
          ⟨BusOp.set_data_pin 0, true, bus.data_pin⟩,
          ⟨BusOp.spi_transfer (Payload.bytes [ST7789_CASET]), true, 0⟩,
          ⟨BusOp.set_data_pin 1, true, 0⟩,
          ⟨BusOp.spi_transfer (Payload.bytes display_ifdev2_rx_info_caset), true, 1⟩,
          ⟨BusOp.set_data_pin 0, true, 1⟩,
          ⟨BusOp.spi_transfer (Payload.bytes [ST7789_RASET]), true, 0⟩,
          ⟨BusOp.set_data_pin 1, true, 0⟩,
          ⟨BusOp.spi_transfer (Payload.bytes display_ifdev2_rx_info_raset), true, 1⟩,
          ⟨BusOp.set_data_pin 0, true, 1⟩,
          ⟨BusOp.spi_transfer (Payload.bytes [ST7789_RAMWR]), true, 0⟩,
          ⟨BusOp.set_data_pin 1, true, 0⟩,
          ⟨BusOp.spi_transfer (Payload.pixels 0 1408), true, 1⟩]) ∧
     (big_endian16 (display_ifdev2_rx_info_caset.getD 0 0) (display_ifdev2_rx_info_caset.getD 1 0) = IFDEV2_RX_DATA_X1 ∧
      big_endian16 (display_ifdev2_rx_info_caset.getD 2 0) (display_ifdev2_rx_info_caset.getD 3 0) = IFDEV2_RX_DATA_X2 - 1 ∧
      big_endian16 (display_ifdev2_rx_info_raset.getD 0 0) (display_ifdev2_rx_info_raset.getD 1 0) = IFDEV2_RX_DATA_Y1 ∧
      big_endian16 (display_ifdev2_rx_info_raset.getD 2 0) (display_ifdev2_rx_info_raset.getD 3 0) = IFDEV2_RX_DATA_Y2 - 1 ∧
      NET_DATA_LENGHT = 4 ∧ FONT_HEIGHT * NET_DATA_WIDTH = 16 * 11 * 4 ∧
      IFDEV2_RX_DATA_X2 - IFDEV2_RX_DATA_X1 = 11 * 4 ∧ IFDEV2_RX_DATA_Y2 - IFDEV2_RX_DATA_Y1 = 16 ∧
      1408 = 2 * ((IFDEV2_RX_DATA_X2 - IFDEV2_RX_DATA_X1) * (IFDEV2_RX_DATA_Y2 - IFDEV2_RX_DATA_Y1)))) ∧
    ((∀ (tx_bytes_diff : Int) (s : String),
      display_ifdev2_tx_info_net_data_string tx_bytes_diff = some s →
      display_ifdev2_tx_info tx_bytes_diff buffer text_color window_color fuel bus
        = (write_text_to_display buffer (16 * 11 * 4) (c_string s) 4 text_color
          window_color display_ifdev2_tx_info_caset display_ifdev2_tx_info_raset fuel bus).map
          (fun w => (0, w.2.1, w.2.2)) ∧
      ∃ out bus1,
        display_ifdev2_tx_info tx_bytes_diff buffer text_color window_color fuel bus
          = some (0, out, bus1) ∧
        (∀ p, 16 * 11 * 4 ≤ p → out p = buffer p) ∧
        bus1.trace = bus.trace ++ [
          ⟨BusOp.set_data_pin 0, true, bus.data_pin⟩,
          ⟨BusOp.spi_transfer (Payload.bytes [ST7789_CASET]), true, 0⟩,
          ⟨BusOp.set_data_pin 1, true, 0⟩,
          ⟨BusOp.spi_transfer (Payload.bytes display_ifdev2_tx_info_caset), true, 1⟩,
          ⟨BusOp.set_data_pin 0, true, 1⟩,
          ⟨BusOp.spi_transfer (Payload.bytes [ST7789_RASET]), true, 0⟩,
          ⟨BusOp.set_data_pin 1, true, 0⟩,
          ⟨BusOp.spi_transfer (Payload.bytes display_ifdev2_tx_info_raset), true, 1⟩,
          ⟨BusOp.set_data_pin 0, true, 1⟩,
          ⟨BusOp.spi_transfer (Payload.bytes [ST7789_RAMWR]), true, 0⟩,
          ⟨BusOp.set_data_pin 1, true, 0⟩,
          ⟨BusOp.spi_transfer (Payload.pixels 0 1408), true, 1⟩]) ∧
     (big_endian16 (display_ifdev2_tx_info_caset.getD 0 0) (display_ifdev2_tx_info_caset.getD 1 0) = IFDEV2_TX_DATA_X1 ∧
      big_endian16 (display_ifdev2_tx_info_caset.getD 2 0) (display_ifdev2_tx_info_caset.getD 3 0) = IFDEV2_TX_DATA_X2 - 1 ∧
      big_endian16 (display_ifdev2_tx_info_raset.getD 0 0) (display_ifdev2_tx_info_raset.getD 1 0) = IFDEV2_TX_DATA_Y1 ∧
      big_endian16 (display_ifdev2_tx_info_raset.getD 2 0) (display_ifdev2_tx_info_raset.getD 3 0) = IFDEV2_TX_DATA_Y2 - 1 ∧
      NET_DATA_LENGHT = 4 ∧ FONT_HEIGHT * NET_DATA_WIDTH = 16 * 11 * 4 ∧
      IFDEV2_TX_DATA_X2 - IFDEV2_TX_DATA_X1 = 11 * 4 ∧ IFDEV2_TX_DATA_Y2 - IFDEV2_TX_DATA_Y1 = 16 ∧
      1408 = 2 * ((IFDEV2_TX_DATA_X2 - IFDEV2_TX_DATA_X1) * (IFDEV2_TX_DATA_Y2 - IFDEV2_TX_DATA_Y1)))) ∧
    ((∀ (percent : Int) (s : String),
      display_cpu_info_cpu_string percent = some s →
      display_cpu_info (some percent) buffer text_color window_color fuel bus
        = (write_text_to_display buffer (16 * 11 * 4) (c_string s) 4 text_color
          window_color display_cpu_info_caset display_cpu_info_raset fuel bus).map
          (fun w => (0, w.2.1, w.2.2)) ∧
      ∃ out bus1,
        display_cpu_info (some percent) buffer text_color window_color fuel bus
          = some (0, out, bus1) ∧
        (∀ p, 16 * 11 * 4 ≤ p → out p = buffer p) ∧
        bus1.trace = bus.trace ++ [
          ⟨BusOp.set_data_pin 0, true, bus.data_pin⟩,
          ⟨BusOp.spi_transfer (Payload.bytes [ST7789_CASET]), true, 0⟩,
          ⟨BusOp.set_data_pin 1, true, 0⟩,
          ⟨BusOp.spi_transfer (Payload.bytes display_cpu_info_caset), true, 1⟩,
          ⟨BusOp.set_data_pin 0, true, 1⟩,
          ⟨BusOp.spi_transfer (Payload.bytes [ST7789_RASET]), true, 0⟩,
          ⟨BusOp.set_data_pin 1, true, 0⟩,
          ⟨BusOp.spi_transfer (Payload.bytes display_cpu_info_raset), true, 1⟩,
          ⟨BusOp.set_data_pin 0, true, 1⟩,
          ⟨BusOp.spi_transfer (Payload.bytes [ST7789_RAMWR]), true, 0⟩,
          ⟨BusOp.set_data_pin 1, true, 0⟩,
          ⟨BusOp.spi_transfer (Payload.pixels 0 1408), true, 1⟩]) ∧
     (big_endian16 (display_cpu_info_caset.getD 0 0) (display_cpu_info_caset.getD 1 0) = CPU_DATA_X1 ∧
      big_endian16 (display_cpu_info_caset.getD 2 0) (display_cpu_info_caset.getD 3 0) = CPU_DATA_X2 - 1 ∧
      big_endian16 (display_cpu_info_raset.getD 0 0) (display_cpu_info_raset.getD 1 0) = CPU_DATA_Y1 ∧
      big_endian16 (display_cpu_info_raset.getD 2 0) (display_cpu_info_raset.getD 3 0) = CPU_DATA_Y2 - 1 ∧
      CPU_DATA_LENGHT = 4 ∧ FONT_HEIGHT * CPU_DATA_WIDTH = 16 * 11 * 4 ∧
      CPU_DATA_X2 - CPU_DATA_X1 = 11 * 4 ∧ CPU_DATA_Y2 - CPU_DATA_Y1 = 16 ∧
      1408 = 2 * ((CPU_DATA_X2 - CPU_DATA_X1) * (CPU_DATA_Y2 - CPU_DATA_Y1)))) ∧
    ((∀ (total_ram free_ram : Int) (s : String),
      display_ram_info_ram_string total_ram free_ram = some s →
      display_ram_info (some (total_ram, free_ram)) buffer text_color window_color fuel bus
        = (write_text_to_display buffer (16 * 11 * 4) (c_string s) 4 text_color
          window_color display_ram_info_caset display_ram_info_raset fuel bus).map
          (fun w => (0, w.2.1, w.2.2)) ∧
      ∃ out bus1,
        display_ram_info (some (total_ram, free_ram)) buffer text_color window_color fuel bus
          = some (0, out, bus1) ∧
        (∀ p, 16 * 11 * 4 ≤ p → out p = buffer p) ∧
        bus1.trace = bus.trace ++ [
          ⟨BusOp.set_data_pin 0, true, bus.data_pin⟩,
          ⟨BusOp.spi_transfer (Payload.bytes [ST7789_CASET]), true, 0⟩,
          ⟨BusOp.set_data_pin 1, true, 0⟩,
          ⟨BusOp.spi_transfer (Payload.bytes display_ram_info_caset), true, 1⟩,
          ⟨BusOp.set_data_pin 0, true, 1⟩,
          ⟨BusOp.spi_transfer (Payload.bytes [ST7789_RASET]), true, 0⟩,
          ⟨BusOp.set_data_pin 1, true, 0⟩,
          ⟨BusOp.spi_transfer (Payload.bytes display_ram_info_raset), true, 1⟩,
          ⟨BusOp.set_data_pin 0, true, 1⟩,
          ⟨BusOp.spi_transfer (Payload.bytes [ST7789_RAMWR]), true, 0⟩,
          ⟨BusOp.set_data_pin 1, true, 0⟩,
          ⟨BusOp.spi_transfer (Payload.pixels 0 1408), true, 1⟩]) ∧
     (big_endian16 (display_ram_info_caset.getD 0 0) (display_ram_info_caset.getD 1 0) = RAM_DATA_X1 ∧
      big_endian16 (display_ram_info_caset.getD 2 0) (display_ram_info_caset.getD 3 0) = RAM_DATA_X2 - 1 ∧
      big_endian16 (display_ram_info_raset.getD 0 0) (display_ram_info_raset.getD 1 0) = RAM_DATA_Y1 ∧
      big_endian16 (display_ram_info_raset.getD 2 0) (display_ram_info_raset.getD 3 0) = RAM_DATA_Y2 - 1 ∧
      RAM_DATA_LENGHT = 4 ∧ FONT_HEIGHT * RAM_DATA_WIDTH = 16 * 11 * 4 ∧
      RAM_DATA_X2 - RAM_DATA_X1 = 11 * 4 ∧ RAM_DATA_Y2 - RAM_DATA_Y1 = 16 ∧
      1408 = 2 * ((RAM_DATA_X2 - RAM_DATA_X1) * (RAM_DATA_Y2 - RAM_DATA_Y1)))) ∧
    ((∀ (temp_string : Nat → Int),
      (∀ i, i < 2 → 31 ≤ temp_string i ∧ temp_string i ≤ 126) →
      display_temp_info (some temp_string) buffer text_color window_color fuel bus
        = (write_text_to_display buffer (16 * 11 * 2) temp_string 2 text_color
          window_color display_temp_info_caset display_temp_info_raset fuel bus).map
          (fun w => (0, w.2.1, w.2.2)) ∧
      ∃ out bus1,
        display_temp_info (some temp_string) buffer text_color window_color fuel bus
          = some (0, out, bus1) ∧
        (∀ p, 16 * 11 * 2 ≤ p → out p = buffer p) ∧
        bus1.trace = bus.trace ++ [
          ⟨BusOp.set_data_pin 0, true, bus.data_pin⟩,
          ⟨BusOp.spi_transfer (Payload.bytes [ST7789_CASET]), true, 0⟩,
          ⟨BusOp.set_data_pin 1, true, 0⟩,
          ⟨BusOp.spi_transfer (Payload.bytes display_temp_info_caset), true, 1⟩,
          ⟨BusOp.set_data_pin 0, true, 1⟩,
          ⟨BusOp.spi_transfer (Payload.bytes [ST7789_RASET]), true, 0⟩,
          ⟨BusOp.set_data_pin 1, true, 0⟩,
          ⟨BusOp.spi_transfer (Payload.bytes display_temp_info_raset), true, 1⟩,
          ⟨BusOp.set_data_pin 0, true, 1⟩,
          ⟨BusOp.spi_transfer (Payload.bytes [ST7789_RAMWR]), true, 0⟩,
          ⟨BusOp.set_data_pin 1, true, 0⟩,
          ⟨BusOp.spi_transfer (Payload.pixels 0 704), true, 1⟩]) ∧
     (big_endian16 (display_temp_info_caset.getD 0 0) (display_temp_info_caset.getD 1 0) = TEMP_DATA_X1 ∧
      big_endian16 (display_temp_info_caset.getD 2 0) (display_temp_info_caset.getD 3 0) = TEMP_DATA_X2 - 1 ∧
      big_endian16 (display_temp_info_raset.getD 0 0) (display_temp_info_raset.getD 1 0) = TEMP_DATA_Y1 ∧
      big_endian16 (display_temp_info_raset.getD 2 0) (display_temp_info_raset.getD 3 0) = TEMP_DATA_Y2 - 1 ∧
      TEMP_DATA_LENGHT = 2 ∧ FONT_HEIGHT * TEMP_DATA_WIDTH = 16 * 11 * 2 ∧
      TEMP_DATA_X2 - TEMP_DATA_X1 = 11 * 2 ∧ TEMP_DATA_Y2 - TEMP_DATA_Y1 = 16 ∧
      704 = 2 * ((TEMP_DATA_X2 - TEMP_DATA_X1) * (TEMP_DATA_Y2 - TEMP_DATA_Y1)))) ∧
    ((∀ (uptime : Int) (s : String),
      display_uptime_info_uptime_string uptime = some s →
      display_uptime_info (some uptime) buffer text_color window_color fuel bus
        = (write_text_to_display buffer (16 * 11 * 10) (c_string s) 10 text_color
          window_color display_uptime_info_caset display_uptime_info_raset fuel bus).map
          (fun w => (0, w.2.1, w.2.2)) ∧
      ∃ out bus1,
        display_uptime_info (some uptime) buffer text_color window_color fuel bus
          = some (0, out, bus1) ∧
        (∀ p, 16 * 11 * 10 ≤ p → out p = buffer p) ∧
        bus1.trace = bus.trace ++ [
          ⟨BusOp.set_data_pin 0, true, bus.data_pin⟩,
          ⟨BusOp.spi_transfer (Payload.bytes [ST7789_CASET]), true, 0⟩,
          ⟨BusOp.set_data_pin 1, true, 0⟩,
          ⟨BusOp.spi_transfer (Payload.bytes display_uptime_info_caset), true, 1⟩,
          ⟨BusOp.set_data_pin 0, true, 1⟩,
          ⟨BusOp.spi_transfer (Payload.bytes [ST7789_RASET]), true, 0⟩,
          ⟨BusOp.set_data_pin 1, true, 0⟩,
          ⟨BusOp.spi_transfer (Payload.bytes display_uptime_info_raset), true, 1⟩,
          ⟨BusOp.set_data_pin 0, true, 1⟩,
          ⟨BusOp.spi_transfer (Payload.bytes [ST7789_RAMWR]), true, 0⟩,
          ⟨BusOp.set_data_pin 1, true, 0⟩,
          ⟨BusOp.spi_transfer (Payload.pixels 0 3520), true, 1⟩]) ∧
     (big_endian16 (display_uptime_info_caset.getD 0 0) (display_uptime_info_caset.getD 1 0) = UPT_DATA_X1 ∧
      big_endian16 (display_uptime_info_caset.getD 2 0) (display_uptime_info_caset.getD 3 0) = UPT_DATA_X2 - 1 ∧
      big_endian16 (display_uptime_info_raset.getD 0 0) (display_uptime_info_raset.getD 1 0) = UPT_DATA_Y1 ∧
      big_endian16 (display_uptime_info_raset.getD 2 0) (display_uptime_info_raset.getD 3 0) = UPT_DATA_Y2 - 1 ∧
      UPT_DATA_LENGHT = 10 ∧ FONT_HEIGHT * UPT_DATA_WIDTH = 16 * 11 * 10 ∧
      UPT_DATA_X2 - UPT_DATA_X1 = 11 * 10 ∧ UPT_DATA_Y2 - UPT_DATA_Y1 = 16 ∧
      3520 = 2 * ((UPT_DATA_X2 - UPT_DATA_X1) * (UPT_DATA_Y2 - UPT_DATA_Y1)))) ∧
    ((∀ (f_blocks f_bfree : Nat) (s : String),
      display_fs1_info_fs1_string f_blocks f_bfree = some s →
      display_fs1_info (some (f_blocks, f_bfree)) buffer text_color window_color fuel bus
        = (write_text_to_display buffer (16 * 11 * 4) (c_string s) 4 text_color
          window_color display_fs1_info_caset display_fs1_info_raset fuel bus).map
          (fun w => (0, w.2.1, w.2.2)) ∧
      ∃ out bus1,
        display_fs1_info (some (f_blocks, f_bfree)) buffer text_color window_color fuel bus
          = some (0, out, bus1) ∧
        (∀ p, 16 * 11 * 4 ≤ p → out p = buffer p) ∧
        bus1.trace = bus.trace ++ [
          ⟨BusOp.set_data_pin 0, true, bus.data_pin⟩,
          ⟨BusOp.spi_transfer (Payload.bytes [ST7789_CASET]), true, 0⟩,
          ⟨BusOp.set_data_pin 1, true, 0⟩,
          ⟨BusOp.spi_transfer (Payload.bytes display_fs1_info_caset), true, 1⟩,
          ⟨BusOp.set_data_pin 0, true, 1⟩,
          ⟨BusOp.spi_transfer (Payload.bytes [ST7789_RASET]), true, 0⟩,
          ⟨BusOp.set_data_pin 1, true, 0⟩,
          ⟨BusOp.spi_transfer (Payload.bytes display_fs1_info_raset), true, 1⟩,
          ⟨BusOp.set_data_pin 0, true, 1⟩,
          ⟨BusOp.spi_transfer (Payload.bytes [ST7789_RAMWR]), true, 0⟩,
          ⟨BusOp.set_data_pin 1, true, 0⟩,
          ⟨BusOp.spi_transfer (Payload.pixels 0 1408), true, 1⟩]) ∧
     (big_endian16 (display_fs1_info_caset.getD 0 0) (display_fs1_info_caset.getD 1 0) = FS1_DATA_X1 ∧
      big_endian16 (display_fs1_info_caset.getD 2 0) (display_fs1_info_caset.getD 3 0) = FS1_DATA_X2 - 1 ∧
      big_endian16 (display_fs1_info_raset.getD 0 0) (display_fs1_info_raset.getD 1 0) = FS1_DATA_Y1 ∧
      big_endian16 (display_fs1_info_raset.getD 2 0) (display_fs1_info_raset.getD 3 0) = FS1_DATA_Y2 - 1 ∧
      FS1_DATA_LENGHT = 4 ∧ FONT_HEIGHT * FS1_DATA_WIDTH = 16 * 11 * 4 ∧
      FS1_DATA_X2 - FS1_DATA_X1 = 11 * 4 ∧ FS1_DATA_Y2 - FS1_DATA_Y1 = 16 ∧
      1408 = 2 * ((FS1_DATA_X2 - FS1_DATA_X1) * (FS1_DATA_Y2 - FS1_DATA_Y1)))) ∧
    ((∀ (f_blocks f_bfree : Nat) (s : String),
      display_fs2_info_fs2_string f_blocks f_bfree = some s →
      display_fs2_info (some (f_blocks, f_bfree)) buffer text_color window_color fuel bus
        = (write_text_to_display buffer (16 * 11 * 4) (c_string s) 4 text_color
          window_color display_fs2_info_caset display_fs2_info_raset fuel bus).map
          (fun w => (0, w.2.1, w.2.2)) ∧
      ∃ out bus1,
        display_fs2_info (some (f_blocks, f_bfree)) buffer text_color window_color fuel bus
          = some (0, out, bus1) ∧
        (∀ p, 16 * 11 * 4 ≤ p → out p = buffer p) ∧
        bus1.trace = bus.trace ++ [
          ⟨BusOp.set_data_pin 0, true, bus.data_pin⟩,
          ⟨BusOp.spi_transfer (Payload.bytes [ST7789_CASET]), true, 0⟩,
          ⟨BusOp.set_data_pin 1, true, 0⟩,
          ⟨BusOp.spi_transfer (Payload.bytes display_fs2_info_caset), true, 1⟩,
          ⟨BusOp.set_data_pin 0, true, 1⟩,
          ⟨BusOp.spi_transfer (Payload.bytes [ST7789_RASET]), true, 0⟩,
          ⟨BusOp.set_data_pin 1, true, 0⟩,
          ⟨BusOp.spi_transfer (Payload.bytes display_fs2_info_raset), true, 1⟩,
          ⟨BusOp.set_data_pin 0, true, 1⟩,
          ⟨BusOp.spi_transfer (Payload.bytes [ST7789_RAMWR]), true, 0⟩,
          ⟨BusOp.set_data_pin 1, true, 0⟩,
          ⟨BusOp.spi_transfer (Payload.pixels 0 1408), true, 1⟩]) ∧
     (big_endian16 (display_fs2_info_caset.getD 0 0) (display_fs2_info_caset.getD 1 0) = FS2_DATA_X1 ∧
      big_endian16 (display_fs2_info_caset.getD 2 0) (display_fs2_info_caset.getD 3 0) = FS2_DATA_X2 - 1 ∧
      big_endian16 (display_fs2_info_raset.getD 0 0) (display_fs2_info_raset.getD 1 0) = FS2_DATA_Y1 ∧
      big_endian16 (display_fs2_info_raset.getD 2 0) (display_fs2_info_raset.getD 3 0) = FS2_DATA_Y2 - 1 ∧
      FS2_DATA_LENGHT = 4 ∧ FONT_HEIGHT * FS2_DATA_WIDTH = 16 * 11 * 4 ∧
      FS2_DATA_X2 - FS2_DATA_X1 = 11 * 4 ∧ FS2_DATA_Y2 - FS2_DATA_Y1 = 16 ∧
      1408 = 2 * ((FS2_DATA_X2 - FS2_DATA_X1) * (FS2_DATA_Y2 - FS2_DATA_Y1)))) := by
  refine ⟨by decide, ?_, ?_, ?_, ?_, ?_, ?_, ?_, ?_, ?_, ?_, ?_⟩
  · refine ⟨?_, by decide⟩
    intro current_time time_string hpos htext
    obtain ⟨out, bus1, h1, h2, h3⟩ := write_text_to_display_ok 19 (by decide) (by decide)
      time_string htext text_color window_color display_time_info_caset display_time_info_raset
      fuel (by omega) buffer bus hf
    have hcall : display_time_info current_time time_string buffer text_color window_color fuel bus
        = (write_text_to_display buffer (16 * 11 * 19) time_string 19 text_color
          window_color display_time_info_caset display_time_info_raset fuel bus).map
          (fun w => (0, w.2.1, w.2.2)) := by
      unfold display_time_info
      rw [if_pos hpos]
      show (match write_text_to_display buffer (16 * 11 * 19) time_string 19 text_color
          window_color display_time_info_caset display_time_info_raset fuel bus with
        | none => none
        | some w => some ((0 : Int), w.2.1, w.2.2)) = _
      cases write_text_to_display buffer (16 * 11 * 19) time_string 19 text_color
          window_color display_time_info_caset display_time_info_raset fuel bus <;> rfl
    refine ⟨hcall, out, bus1, ?_, h2, ?_⟩
    · rw [hcall, h1]; rfl
    · rw [h3]; rfl
  · refine ⟨?_, by decide⟩
    intro rx_bytes_diff s hs
    have htext := (net_data_string_in_table rx_bytes_diff s hs).2
    obtain ⟨out, bus1, h1, h2, h3⟩ := write_text_to_display_ok 4 (by decide) (by decide)
      (c_string s) htext text_color window_color display_ifdev1_rx_info_caset display_ifdev1_rx_info_raset
      fuel (by omega) buffer bus hf
    have hcall : display_ifdev1_rx_info rx_bytes_diff buffer text_color window_color fuel bus
        = (write_text_to_display buffer (16 * 11 * 4) (c_string s) 4 text_color
          window_color display_ifdev1_rx_info_caset display_ifdev1_rx_info_raset fuel bus).map
          (fun w => (0, w.2.1, w.2.2)) := by
      unfold display_ifdev1_rx_info
      simp only
      rw [hs]
      show (match write_text_to_display buffer (16 * 11 * 4) (c_string s) 4 text_color
          window_color display_ifdev1_rx_info_caset display_ifdev1_rx_info_raset fuel bus with
        | none => none
        | some w => some ((0 : Int), w.2.1, w.2.2)) = _
      cases write_text_to_display buffer (16 * 11 * 4) (c_string s) 4 text_color
          window_color display_ifdev1_rx_info_caset display_ifdev1_rx_info_raset fuel bus <;> rfl
    refine ⟨hcall, out, bus1, ?_, h2, ?_⟩
    · rw [hcall, h1]; rfl
    · rw [h3]; rfl
  · refine ⟨?_, by decide⟩
    intro tx_bytes_diff s hs
    have htext := (net_data_string_in_table tx_bytes_diff s hs).2
    obtain ⟨out, bus1, h1, h2, h3⟩ := write_text_to_display_ok 4 (by decide) (by decide)
      (c_string s) htext text_color window_color display_ifdev1_tx_info_caset display_ifdev1_tx_info_raset
      fuel (by omega) buffer bus hf
    have hcall : display_ifdev1_tx_info tx_bytes_diff buffer text_color window_color fuel bus
        = (write_text_to_display buffer (16 * 11 * 4) (c_string s) 4 text_color
          window_color display_ifdev1_tx_info_caset display_ifdev1_tx_info_raset fuel bus).map
          (fun w => (0, w.2.1, w.2.2)) := by
      unfold display_ifdev1_tx_info
      simp only
      rw [hs]
      show (match write_text_to_display buffer (16 * 11 * 4) (c_string s) 4 text_color
          window_color display_ifdev1_tx_info_caset display_ifdev1_tx_info_raset fuel bus with
        | none => none
        | some w => some ((0 : Int), w.2.1, w.2.2)) = _
      cases write_text_to_display buffer (16 * 11 * 4) (c_string s) 4 text_color
          window_color display_ifdev1_tx_info_caset display_ifdev1_tx_info_raset fuel bus <;> rfl
    refine ⟨hcall, out, bus1, ?_, h2, ?_⟩
    · rw [hcall, h1]; rfl
    · rw [h3]; rfl
  · refine ⟨?_, by decide⟩
    intro rx_bytes_diff s hs
    have htext := (net_data_string_in_table rx_bytes_diff s hs).2
    obtain ⟨out, bus1, h1, h2, h3⟩ := write_text_to_display_ok 4 (by decide) (by decide)
      (c_string s) htext text_color window_color display_ifdev2_rx_info_caset display_ifdev2_rx_info_raset
      fuel (by omega) buffer bus hf
    have hcall : display_ifdev2_rx_info rx_bytes_diff buffer text_color window_color fuel bus
        = (write_text_to_display buffer (16 * 11 * 4) (c_string s) 4 text_color
          window_color display_ifdev2_rx_info_caset display_ifdev2_rx_info_raset fuel bus).map
          (fun w => (0, w.2.1, w.2.2)) := by
      unfold display_ifdev2_rx_info
      simp only
      rw [hs]
      show (match write_text_to_display buffer (16 * 11 * 4) (c_string s) 4 text_color
          window_color display_ifdev2_rx_info_caset display_ifdev2_rx_info_raset fuel bus with
        | none => none
        | some w => some ((0 : Int), w.2.1, w.2.2)) = _
      cases write_text_to_display buffer (16 * 11 * 4) (c_string s) 4 text_color
          window_color display_ifdev2_rx_info_caset display_ifdev2_rx_info_raset fuel bus <;> rfl
    refine ⟨hcall, out, bus1, ?_, h2, ?_⟩
    · rw [hcall, h1]; rfl
    · rw [h3]; rfl
  · refine ⟨?_, by decide⟩
    intro tx_bytes_diff s hs
    have htext := (net_data_string_in_table tx_bytes_diff s hs).2
    obtain ⟨out, bus1, h1, h2, h3⟩ := write_text_to_display_ok 4 (by decide) (by decide)
      (c_string s) htext text_color window_color display_ifdev2_tx_info_caset display_ifdev2_tx_info_raset
      fuel (by omega) buffer bus hf
    have hcall : display_ifdev2_tx_info tx_bytes_diff buffer text_color window_color fuel bus
        = (write_text_to_display buffer (16 * 11 * 4) (c_string s) 4 text_color
          window_color display_ifdev2_tx_info_caset display_ifdev2_tx_info_raset fuel bus).map
          (fun w => (0, w.2.1, w.2.2)) := by
      unfold display_ifdev2_tx_info
      simp only
      rw [hs]
      show (match write_text_to_display buffer (16 * 11 * 4) (c_string s) 4 text_color
          window_color display_ifdev2_tx_info_caset display_ifdev2_tx_info_raset fuel bus with
        | none => none
        | some w => some ((0 : Int), w.2.1, w.2.2)) = _
      cases write_text_to_display buffer (16 * 11 * 4) (c_string s) 4 text_color
          window_color display_ifdev2_tx_info_caset display_ifdev2_tx_info_raset fuel bus <;> rfl
    refine ⟨hcall, out, bus1, ?_, h2, ?_⟩
    · rw [hcall, h1]; rfl
    · rw [h3]; rfl
  · refine ⟨?_, by decide⟩
    intro percent s hs
    have htext := (percent_string_in_table percent s hs).2
    obtain ⟨out, bus1, h1, h2, h3⟩ := write_text_to_display_ok 4 (by decide) (by decide)
      (c_string s) htext text_color window_color display_cpu_info_caset display_cpu_info_raset
      fuel (by omega) buffer bus hf
    have hcall : display_cpu_info (some percent) buffer text_color window_color fuel bus
        = (write_text_to_display buffer (16 * 11 * 4) (c_string s) 4 text_color
          window_color display_cpu_info_caset display_cpu_info_raset fuel bus).map
          (fun w => (0, w.2.1, w.2.2)) := by
      unfold display_cpu_info
      simp only
      rw [hs]
      show (match write_text_to_display buffer (16 * 11 * 4) (c_string s) 4 text_color
          window_color display_cpu_info_caset display_cpu_info_raset fuel bus with
        | none => none
        | some w => some ((0 : Int), w.2.1, w.2.2)) = _
      cases write_text_to_display buffer (16 * 11 * 4) (c_string s) 4 text_color
          window_color display_cpu_info_caset display_cpu_info_raset fuel bus <;> rfl
    refine ⟨hcall, out, bus1, ?_, h2, ?_⟩
    · rw [hcall, h1]; rfl
    · rw [h3]; rfl
  · refine ⟨?_, by decide⟩
    intro total_ram free_ram s hs
    have htext := (ram_string_in_table total_ram free_ram s hs).2
    obtain ⟨out, bus1, h1, h2, h3⟩ := write_text_to_display_ok 4 (by decide) (by decide)
      (c_string s) htext text_color window_color display_ram_info_caset display_ram_info_raset
      fuel (by omega) buffer bus hf
    have hcall : display_ram_info (some (total_ram, free_ram)) buffer text_color window_color fuel bus
        = (write_text_to_display buffer (16 * 11 * 4) (c_string s) 4 text_color
          window_color display_ram_info_caset display_ram_info_raset fuel bus).map
          (fun w => (0, w.2.1, w.2.2)) := by
      unfold display_ram_info
      simp only
      rw [hs]
      show (match write_text_to_display buffer (16 * 11 * 4) (c_string s) 4 text_color
          window_color display_ram_info_caset display_ram_info_raset fuel bus with
        | none => none
        | some w => some ((0 : Int), w.2.1, w.2.2)) = _
      cases write_text_to_display buffer (16 * 11 * 4) (c_string s) 4 text_color
          window_color display_ram_info_caset display_ram_info_raset fuel bus <;> rfl
    refine ⟨hcall, out, bus1, ?_, h2, ?_⟩
    · rw [hcall, h1]; rfl
    · rw [h3]; rfl
  · refine ⟨?_, by decide⟩
    intro temp_string htext
    obtain ⟨out, bus1, h1, h2, h3⟩ := write_text_to_display_ok 2 (by decide) (by decide)
      temp_string htext text_color window_color display_temp_info_caset display_temp_info_raset
      fuel (by omega) buffer bus hf
    have hcall : display_temp_info (some temp_string) buffer text_color window_color fuel bus
        = (write_text_to_display buffer (16 * 11 * 2) temp_string 2 text_color
          window_color display_temp_info_caset display_temp_info_raset fuel bus).map
          (fun w => (0, w.2.1, w.2.2)) := by
      unfold display_temp_info
      show (match write_text_to_display buffer (16 * 11 * 2) temp_string 2 text_color
          window_color display_temp_info_caset display_temp_info_raset fuel bus with
        | none => none
        | some w => some ((0 : Int), w.2.1, w.2.2)) = _
      cases write_text_to_display buffer (16 * 11 * 2) temp_string 2 text_color
          window_color display_temp_info_caset display_temp_info_raset fuel bus <;> rfl
    refine ⟨hcall, out, bus1, ?_, h2, ?_⟩
    · rw [hcall, h1]; rfl
    · rw [h3]; rfl
  · refine ⟨?_, by decide⟩
    intro uptime s hs
    have htext := (uptime_string_in_table uptime s hs).2
    obtain ⟨out, bus1, h1, h2, h3⟩ := write_text_to_display_ok 10 (by decide) (by decide)
      (c_string s) htext text_color window_color display_uptime_info_caset display_uptime_info_raset
      fuel (by omega) buffer bus hf
    have hcall : display_uptime_info (some uptime) buffer text_color window_color fuel bus
        = (write_text_to_display buffer (16 * 11 * 10) (c_string s) 10 text_color
          window_color display_uptime_info_caset display_uptime_info_raset fuel bus).map
          (fun w => (0, w.2.1, w.2.2)) := by
      unfold display_uptime_info
      simp only
      rw [hs]
      show (match write_text_to_display buffer (16 * 11 * 10) (c_string s) 10 text_color
          window_color display_uptime_info_caset display_uptime_info_raset fuel bus with
        | none => none
        | some w => some ((0 : Int), w.2.1, w.2.2)) = _
      cases write_text_to_display buffer (16 * 11 * 10) (c_string s) 10 text_color
          window_color display_uptime_info_caset display_uptime_info_raset fuel bus <;> rfl
    refine ⟨hcall, out, bus1, ?_, h2, ?_⟩
    · rw [hcall, h1]; rfl
    · rw [h3]; rfl
  · refine ⟨?_, by decide⟩
    intro f_blocks f_bfree s hs
    have htext := (fs1_string_in_table f_blocks f_bfree s hs).2
    obtain ⟨out, bus1, h1, h2, h3⟩ := write_text_to_display_ok 4 (by decide) (by decide)
      (c_string s) htext text_color window_color display_fs1_info_caset display_fs1_info_raset
      fuel (by omega) buffer bus hf
    have hcall : display_fs1_info (some (f_blocks, f_bfree)) buffer text_color window_color fuel bus
        = (write_text_to_display buffer (16 * 11 * 4) (c_string s) 4 text_color
          window_color display_fs1_info_caset display_fs1_info_raset fuel bus).map
          (fun w => (0, w.2.1, w.2.2)) := by
      unfold display_fs1_info
      simp only
      rw [hs]
      show (match write_text_to_display buffer (16 * 11 * 4) (c_string s) 4 text_color
          window_color display_fs1_info_caset display_fs1_info_raset fuel bus with
        | none => none
        | some w => some ((0 : Int), w.2.1, w.2.2)) = _
      cases write_text_to_display buffer (16 * 11 * 4) (c_string s) 4 text_color
          window_color display_fs1_info_caset display_fs1_info_raset fuel bus <;> rfl
    refine ⟨hcall, out, bus1, ?_, h2, ?_⟩
    · rw [hcall, h1]; rfl
    · rw [h3]; rfl
  · refine ⟨?_, by decide⟩
    intro f_blocks f_bfree s hs
    have htext := (fs2_string_in_table f_blocks f_bfree s hs).2
    obtain ⟨out, bus1, h1, h2, h3⟩ := write_text_to_display_ok 4 (by decide) (by decide)
      (c_string s) htext text_color window_color display_fs2_info_caset display_fs2_info_raset
      fuel (by omega) buffer bus hf
    have hcall : display_fs2_info (some (f_blocks, f_bfree)) buffer text_color window_color fuel bus
        = (write_text_to_display buffer (16 * 11 * 4) (c_string s) 4 text_color
          window_color display_fs2_info_caset display_fs2_info_raset fuel bus).map
          (fun w => (0, w.2.1, w.2.2)) := by
      unfold display_fs2_info
      simp only
      rw [hs]
      show (match write_text_to_display buffer (16 * 11 * 4) (c_string s) 4 text_color
          window_color display_fs2_info_caset display_fs2_info_raset fuel bus with
        | none => none
        | some w => some ((0 : Int), w.2.1, w.2.2)) = _
      cases write_text_to_display buffer (16 * 11 * 4) (c_string s) 4 text_color
          window_color display_fs2_info_caset display_fs2_info_raset fuel bus <;> rfl
    refine ⟨hcall, out, bus1, ?_, h2, ?_⟩
    · rw [hcall, h1]; rfl
    · rw [h3]; rfl

set_option maxRecDepth 100000 in
theorem field_buffers_match_windows_witness :
    3 ≤ 3 ∧ display_ifdev1_rx_info_net_data_string 500 = some "500B" ∧
    ∃ out bus1,
      display_ifdev1_rx_info 500 (fun _ => 0) 0xffff 0x8e11 3 (Bus.start (fun _ => false))
        = some (0, out, bus1) ∧
      (∀ p, 16 * 11 * 4 ≤ p → out p = (fun _ => 0) p) ∧
      bus1.trace = (Bus.start (fun _ => false)).trace ++ [
        ⟨BusOp.set_data_pin 0, true, (Bus.start (fun _ => false)).data_pin⟩,
        ⟨BusOp.spi_transfer (Payload.bytes [ST7789_CASET]), true, 0⟩,
        ⟨BusOp.set_data_pin 1, true, 0⟩,
        ⟨BusOp.spi_transfer (Payload.bytes display_ifdev1_rx_info_caset), true, 1⟩,
        ⟨BusOp.set_data_pin 0, true, 1⟩,
        ⟨BusOp.spi_transfer (Payload.bytes [ST7789_RASET]), true, 0⟩,
        ⟨BusOp.set_data_pin 1, true, 0⟩,
        ⟨BusOp.spi_transfer (Payload.bytes display_ifdev1_rx_info_raset), true, 1⟩,
        ⟨BusOp.set_data_pin 0, true, 1⟩,
        ⟨BusOp.spi_transfer (Payload.bytes [ST7789_RAMWR]), true, 0⟩,
        ⟨BusOp.set_data_pin 1, true, 0⟩,
        ⟨BusOp.spi_transfer (Payload.pixels 0 1408), true, 1⟩] :=
  ⟨by decide, by decide,
    ((field_buffers_match_windows (fun _ => 0) 0xffff 0x8e11 3 (Bus.start (fun _ => false))
      (by decide) (fun _ => rfl)).2.2.1.1 500 "500B" (by decide)).2⟩

/-! ## Theorems: temperature field -/

/-- Whatever the bus does, with fuel above the chunk count `write_text_to_display`
returns for a field of `n` characters in the glyph table, and the buffer it
leaves is the one the rasterizing loops produce. -/
theorem write_text_to_display_returns (n : Nat) (hn2 : n ≤ 174) (text : Nat → Int)
    (htext : ∀ i, i < n → 31 ≤ text i ∧ text i ≤ 126) (tc wc : Nat) (caset raset : List Nat)
    (fuel : Nat) (hfuel : (2 * (16 * 11 * n) + 4095) / 4096 < fuel) (buffer : Buffer)
    (bus : Bus) :
    ∃ result out bus1,
      write_text_to_display buffer (16 * 11 * n) text n tc wc caset raset fuel bus
        = some (result, out, bus1) ∧
      write_text_to_display_raster buffer (16 * 11 * n) text n tc wc = some out := by
  obtain ⟨out, hout⟩ := raster_i_some (16 * 11 * n) n text tc wc n 0 buffer
    (fun i2 _ h => htext i2 (by omega))
  have hlog := stream_from (16 * 11 * n) (by omega) ((2 * (16 * 11 * n) + 4095) / 4096) 0 fuel []
    (by omega) hfuel
  generalize 16 * 11 * n = data_size at *
  have hout2 : write_text_to_display_raster buffer data_size text n tc wc = some out := hout
  unfold write_text_to_display
  rw [hout2]
  simp only
  rw [write_text_to_display_bus_eq]
  rcases pixel_stream_loop_fold (fun offset len (s : Int × Bus) =>
      ((s.1 + (spi_transfer (Payload.pixels offset len) s.2).1,
        (spi_transfer (Payload.pixels offset len) s.2).2) : Int × Bus)) data_size fuel 0
      ((spi_write_register ST7789_CASET (some caset) 4 bus).1 +
          (spi_write_register ST7789_RASET (some raset) 4
            (spi_write_register ST7789_CASET (some caset) 4 bus).2).1 +
          (spi_write_register ST7789_RAMWR none 0
            (spi_write_register ST7789_RASET (some raset) 4
              (spi_write_register ST7789_CASET (some caset) 4 bus).2).2).1,
        (spi_write_register ST7789_RAMWR none 0
          (spi_write_register ST7789_RASET (some raset) 4
            (spi_write_register ST7789_CASET (some caset) 4 bus).2).2).2) []
    with ⟨-, hn⟩ | ⟨rest, -, hr2⟩
  · rw [Nat.mul_zero] at hlog; rw [hlog] at hn; cases hn
  · rw [hr2]
    exact ⟨_, out, _, rfl, rfl⟩

theorem raster_newline_second (buffer : Buffer) (data_size : Nat) (text : Nat → Int)
    (tc wc : Nat) (h0 : 31 ≤ text 0 ∧ text 0 ≤ 126) (h1 : text 1 = 10) :
    write_text_to_display_raster buffer data_size text 2 tc wc = none := by
  obtain ⟨b1, hb1⟩ := raster_j_some data_size 2 0 (text 0) tc wc h0.1 h0.2 FONT_HEIGHT 0 buffer
    (by simp [FONT_HEIGHT])
  unfold write_text_to_display_raster
  rw [raster_i, hb1]
  simp only
  rw [raster_i, h1]
  rfl

theorem display_temp_info_call (text : Nat → Int) (buffer : Buffer)
    (text_color window_color fuel : Nat) (bus : Bus) :
    display_temp_info (some text) buffer text_color window_color fuel bus
      = (write_text_to_display buffer (FONT_HEIGHT * TEMP_DATA_WIDTH) text TEMP_DATA_LENGHT
          text_color window_color display_temp_info_caset display_temp_info_raset fuel bus).map
        (fun w => (0, w.2.1, w.2.2)) := by
  unfold display_temp_info
  show (match write_text_to_display buffer (FONT_HEIGHT * TEMP_DATA_WIDTH) text TEMP_DATA_LENGHT
      text_color window_color display_temp_info_caset display_temp_info_raset fuel bus with
    | none => none
    | some w => some ((0 : Int), w.2.1, w.2.2)) = _
  cases write_text_to_display buffer (FONT_HEIGHT * TEMP_DATA_WIDTH) text TEMP_DATA_LENGHT
      text_color window_color display_temp_info_caset display_temp_info_raset fuel bus <;> rfl

theorem temp_string_in_table (m : Nat) (h : 10 ≤ m) :
    ∀ i, i < 2 → 31 ≤ display_temp_info_temp_string m i ∧
      display_temp_info_temp_string m i ≤ 126 := by
  obtain ⟨a, b, rest, hd, h0, h1⟩ := temp_string_two_digits m h
  have hc := toDigits_chars m
  rw [hd] at hc
  have ha := hc a (by simp)
  have hb := hc b (by simp)
  intro i hi
  have : i = 0 ∨ i = 1 := by omega
  rcases this with rfl | rfl
  · rw [h0]; omega
  · rw [h1]; omega

/-- Claim C29. `display_temp_info` passes the array read by `fgets` to
`write_text_to_display` with the length `TEMP_DATA_LENGHT = 2`, and what it
renders depends on the first `TEMP_DATA_LENGHT` characters only: any text that
agrees with the array on them gives the same result. For a reading `m` written
in decimal without leading zeros, these characters are the decimal
representation of `m / 1000` if and only if `10000 <= m <= 99999`. From
`m = 10` on they are the two leading digits `a`, `b` of `m` (so for
`10 <= m < 10000` and for `m >= 100000` they differ from the whole degrees),
the function returns 0 for every pattern of bus failures, and the pixel of row
`r`, character `i`, column `k` of its buffer is bit `15-k` of row `r` of the
glyph of that digit. Below 10 the second character is the newline (code 10),
not a digit; its glyph read `font[10 - 31]` falls outside the table, for which
the model has no result. -/
theorem temp_field_shows_leading_digits (m : Nat) (buffer : Buffer)
    (text_color window_color fuel : Nat) (bus : Bus) (hfuel : 2 ≤ fuel) :
    (display_temp_info (some (display_temp_info_temp_string m)) buffer text_color window_color
        fuel bus
      = (write_text_to_display buffer (FONT_HEIGHT * TEMP_DATA_WIDTH)
          (display_temp_info_temp_string m) TEMP_DATA_LENGHT text_color window_color
          display_temp_info_caset display_temp_info_raset fuel bus).map
        (fun w => (0, w.2.1, w.2.2))) ∧
    TEMP_DATA_LENGHT = 2 ∧
    (∀ text : Nat → Int,
      (∀ i, i < TEMP_DATA_LENGHT → text i = display_temp_info_temp_string m i) →
      display_temp_info (some text) buffer text_color window_color fuel bus
        = display_temp_info (some (display_temp_info_temp_string m)) buffer text_color
            window_color fuel bus) ∧
    (((List.range TEMP_DATA_LENGHT).map (display_temp_info_temp_string m)
        = (Nat.toDigits 10 (m / 1000)).map (fun c => (c.toNat : Int))) ↔
      10000 ≤ m ∧ m ≤ 99999) ∧
    (10 ≤ m → ∃ a b rest, Nat.toDigits 10 m = a :: b :: rest ∧
      (List.range TEMP_DATA_LENGHT).map (display_temp_info_temp_string m)
        = [(a.toNat : Int), (b.toNat : Int)] ∧
      ∃ out bus1,
        display_temp_info (some (display_temp_info_temp_string m)) buffer text_color
          window_color fuel bus = some (0, out, bus1) ∧
        ∀ r i k, r < 16 → i < TEMP_DATA_LENGHT → k < 11 →
          ∃ row, font_row (([a, b].getD i a).toNat : Int) r = some row ∧
            out (r * (11 * TEMP_DATA_LENGHT) + 11 * i + k)
              = if row.testBit (15 - k) then text_color else window_color) ∧
    (m < 10 →
      (List.range TEMP_DATA_LENGHT).map (display_temp_info_temp_string m)
        = [((Nat.digitChar m).toNat : Int), 10] ∧
      ¬ (48 ≤ display_temp_info_temp_string m 1 ∧ display_temp_info_temp_string m 1 ≤ 57) ∧
      font_row (display_temp_info_temp_string m 1) 0 = none ∧
      display_temp_info (some (display_temp_info_temp_string m)) buffer text_color
        window_color fuel bus = none) := by
  have hrange : ∀ f : Nat → Int, (List.range TEMP_DATA_LENGHT).map f = [f 0, f 1] :=
    fun f => rfl
  have hsize : FONT_HEIGHT * TEMP_DATA_WIDTH = 16 * 11 * 2 := by decide
  have hlen : TEMP_DATA_LENGHT = 2 := rfl
  refine ⟨display_temp_info_call _ buffer text_color window_color fuel bus, rfl, ?_, ?_, ?_, ?_⟩
  · intro text htext
    rw [display_temp_info_call, display_temp_info_call]
    congr 1
    unfold write_text_to_display
    rw [hlen] at htext ⊢
    rw [hsize]
    by_cases h : 10 ≤ m
    · rw [raster_depends_on_field 2 (by decide) (display_temp_info_temp_string m) text
        (temp_string_in_table m h) htext text_color window_color buffer]
    · obtain ⟨h0, h1⟩ := temp_string_one_digit m (by omega)
      have hd := digitChar_digit m (by omega)
      rw [raster_newline_second buffer _ (display_temp_info_temp_string m) text_color
          window_color (by rw [h0]; omega) h1,
        raster_newline_second buffer _ text text_color window_color
          (by rw [htext 0 (by decide), h0]; omega) (by rw [htext 1 (by decide), h1])]
  · rw [hrange]
    constructor
    · intro heq
      have hlen := congrArg List.length heq
      rw [List.length_map] at hlen
      simp only [List.length_cons, List.length_nil] at hlen
      by_contra hn
      by_cases h1 : m < 10000
      · have := toDigits_length_le 0 (m / 1000) (by omega)
        omega
      · have := toDigits_length_ge 2 (m / 1000) (by omega)
        omega
    · rintro ⟨h1, h2⟩
      obtain ⟨a, b, rest, hd, h0, h1'⟩ := temp_string_two_digits m (by omega)
      obtain ⟨d2, d1, d0, ht⟩ := toDigits_thousands m (by omega)
      have hl1 := toDigits_length_ge 1 (m / 1000) (by omega)
      have hl2 := toDigits_length_le 1 (m / 1000) (by omega)
      rw [h0, h1']
      generalize Nat.toDigits 10 (m / 1000) = q at ht hl1 hl2
      match q, hl1, hl2 with
      | [x, y], _, _ =>
        rw [hd] at ht
        simp only [List.cons_append, List.nil_append, List.cons.injEq] at ht
        rw [ht.1, ht.2.1]
        rfl
  · intro h
    obtain ⟨a, b, rest, hd, h0, h1⟩ := temp_string_two_digits m h
    refine ⟨a, b, rest, hd, by rw [hrange, h0, h1], ?_⟩
    have htab := temp_string_in_table m h
    obtain ⟨result, out, bus1, hw, hr⟩ := write_text_to_display_returns 2 (by decide)
      (display_temp_info_temp_string m) htab text_color window_color display_temp_info_caset
      display_temp_info_raset fuel (by omega) buffer bus
    obtain ⟨out2, hout2, hval⟩ := raster_closed_form 2 (by decide)
      (display_temp_info_temp_string m) htab text_color window_color buffer
    rw [hr] at hout2
    cases hout2
    refine ⟨out, bus1, ?_, ?_⟩
    · rw [display_temp_info_call, hsize, hlen, hw]
      rfl
    · intro r i k hr hi hk
      rw [hlen] at hi ⊢
      have hi2 : i = 0 ∨ i = 1 := by omega
      have hc : (([a, b].getD i a).toNat : Int) = display_temp_info_temp_string m i := by
        rcases hi2 with rfl | rfl
        · rw [h0]; rfl
        · rw [h1]; rfl
      rw [hc]
      obtain ⟨row, hrow⟩ := font_row_defined _ (htab i hi).1 (htab i hi).2 r hr
      refine ⟨row, hrow, ?_⟩
      rw [hval, if_pos (by omega)]
      have e1 : (r * (11 * 2) + 11 * i + k) % (2 * 11) / 11 = i := by omega
      have e2 : (r * (11 * 2) + 11 * i + k) / (2 * 11) = r := by omega
      have e3 : (r * (11 * 2) + 11 * i + k) % (2 * 11) % 11 = k := by omega
      rw [e1, e2, e3, hrow, pixel_eq_testBit _ _ _ _ (by omega)]
      rfl
  · intro h
    obtain ⟨h0, h1⟩ := temp_string_one_digit m h
    have hd := digitChar_digit m h
    refine ⟨by rw [hrange, h0, h1], by rw [h1]; omega, by rw [h1]; rfl, ?_⟩
    rw [display_temp_info_call, hlen]
    unfold write_text_to_display
    rw [raster_newline_second buffer _ (display_temp_info_temp_string m) text_color
      window_color (by rw [h0]; omega) h1]
    rfl

theorem temp_field_shows_leading_digits_witness :
    2 ≤ 2 ∧ 10 ≤ 45678 ∧
    ∃ a b rest, Nat.toDigits 10 45678 = a :: b :: rest ∧
      (List.range TEMP_DATA_LENGHT).map (display_temp_info_temp_string 45678)
        = [(a.toNat : Int), (b.toNat : Int)] ∧
      ∃ out bus1,
        display_temp_info (some (display_temp_info_temp_string 45678)) (fun _ => 0) 0xffff
          0x8e11 2 (Bus.start (fun _ => false)) = some (0, out, bus1) ∧
        ∀ r i k, r < 16 → i < TEMP_DATA_LENGHT → k < 11 →
          ∃ row, font_row (([a, b].getD i a).toNat : Int) r = some row ∧
            out (r * (11 * TEMP_DATA_LENGHT) + 11 * i + k)
              = if row.testBit (15 - k) then 0xffff else 0x8e11 :=
  ⟨by decide, by decide,
    (temp_field_shows_leading_digits 45678 (fun _ => 0) 0xffff 0x8e11 2
      (Bus.start (fun _ => false)) (by decide)).2.2.2.2.1 (by decide)⟩

end RaspiMon
